import Mathlib

/-!
# Phase switcher (software/src/modules/phase_switcher)

A shallow embedding of `phase_switcher.cpp` / `phase_switcher.h`.

* Machine integers are natural numbers with explicit wrap-around
  (`% 2 ^ 32` for `uint32_t`, `wrap_int32` for the promoted `int`).
* The member variables of `PhaseSwitcher` and the function-local `static`
  variables form the record `State`.
* Every member function becomes a function on `State`; the calls it makes to
  the EVSE API and to the relay bricklet are returned as a list of `Effect`s,
  in program order.
* What a function reads from its collaborators (EVSE state objects, bricklet
  values, return codes, the millisecond clock) is an explicit argument.
  One clock value `now` is used for all `millis()` reads of one call.
* Logging (`logger.printfln`) and the `debug` flag have no effect on the
  state or on the commands and are left out.
-/

namespace PhaseSwitcher

/-! ## Constants of `phase_switcher.h` -/

/-- Timeout of `EVSE_START_TIMEOUT`, in ms. -/
def EVSE_START_TIMEOUT : Nat := 10000

/-- Timeout of `EVSE_STOP_TIMEOUT`, in ms. -/
def EVSE_STOP_TIMEOUT : Nat := 10000

/-- Time of `QUICK_CHARGE_BUTTON_PRESSED_TIME`, in ms. -/
def QUICK_CHARGE_BUTTON_PRESSED_TIME : Nat := 2000

/-- Value of `MIN_POWER_ONE_PHASE (6 * 230)`. -/
def MIN_POWER_ONE_PHASE : Nat := 6 * 230

/-- Value of `MIN_POWER_TWO_PHASES (6 * 230 * 2)`. -/
def MIN_POWER_TWO_PHASES : Nat := 6 * 230 * 2

/-- Value of `MIN_POWER_THREE_PHASES (6 * 230 * 3)`. -/
def MIN_POWER_THREE_PHASES : Nat := 6 * 230 * 3

/-- Modelled from the spec: the header under `src/` does not define
`MAX_POWER_ONE_PHASE`, which `get_phases_for_power` compares against.
The spec gives `MAX₁ = I_max·V = 3680 W` with `I_max = 16 A`, `V = 230`. -/
def MAX_POWER_ONE_PHASE : Nat := 16 * 230

/-- Value of `PHASE_SWITCHER_RING_BUF_SIZE`: `12 * (60 / 1) + 1`. -/
def PHASE_SWITCHER_RING_BUF_SIZE : Nat := 12 * (60 / 1) + 1

/-! ## Enumerations of `phase_switcher.h` -/

/-- The enum `PhaseSwitcherState`. -/
inductive PhaseSwitcherState
  | inactive
  | standby
  | cancelling_evse_start
  | waiting_for_evse_start
  | active
  | quick_charging
  | waiting_for_evse_stop
  | pausing_while_switching
  | stopped_by_evse
  deriving DecidableEq, Repr

/-- The enum `ChargerState`. -/
inductive ChargerState
  | not_connected
  | waiting_for_charge_release
  | ready_for_charging
  | charging
  | error
  deriving DecidableEq, Repr

/-- The enum `IEC61851State`. -/
inductive IEC61851State
  | a_not_connected
  | b_connected
  | c_charging
  | d_charging_with_ventilation
  | ef_error
  deriving DecidableEq, Repr

/-- Enumerator `one_phase_static = 1` of `PhaseSwitcherMode`.  The mode is
kept as the number read from the configuration (`Config::Uint8`), because
`get_phases_for_power` has a `default:` branch for every other number. -/
def one_phase_static : Nat := 1

/-- Enumerator `two_phases_static = 2`. -/
def two_phases_static : Nat := 2

/-- Enumerator `three_phases_static = 3`. -/
def three_phases_static : Nat := 3

/-- Enumerator `one_two_phases_dynamic = 12`. -/
def one_two_phases_dynamic : Nat := 12

/-- Enumerator `one_three_phases_dynamic = 13`. -/
def one_three_phases_dynamic : Nat := 13

/-- Enumerator `one_two_three_phases_dynamic = 123`. -/
def one_two_three_phases_dynamic : Nat := 123

/-! ## Machine arithmetic and the clock -/

/-- Two's-complement wrap of an integer into the 32-bit `int` range. -/
def wrap_int32 (x : Int) : Int := (x + 2 ^ 31) % 2 ^ 32 - 2 ^ 31

/-- Sum of two `uint32_t` values. -/
def add_u32 (a b : Nat) : Nat := (a + b) % 2 ^ 32

/-- Difference `a - b` of two `uint32_t` values. -/
def sub_u32 (a b : Nat) : Nat := (a + (2 ^ 32 - b % 2 ^ 32)) % 2 ^ 32

/-- Modelled from the spec: `deadline_elapsed` is declared in `tools.h`, which
is not under `src/`.  The spec asks for a comparison that is robust to the
wrap of the 32-bit millisecond counter: the difference `now − deadline`,
taken modulo `2 ^ 32`, is read as a signed number and compared with zero.
The clock value `now` stands for the `millis()` read inside the helper. -/
def deadline_elapsed (now deadline_ms : Nat) : Bool :=
  decide (sub_u32 now deadline_ms < 2 ^ 31)

/-- The deadline `start + seconds * 1000` as computed in `uint32_t`. -/
def deadline_after_seconds (start seconds : Nat) : Nat :=
  add_u32 start (seconds * 1000)

/-! ## Commands sent to the collaborators -/

/-- A call made to the EVSE API or to the quad relay bricklet. -/
inductive Effect
  | external_current_update (current : Nat)
  | start_charging
  | stop_charging
  | set_monoflop (channel : Nat) (value : Bool) (time : Nat)
  | set_selected_value (channel : Nat) (value : Bool)
  deriving DecidableEq, Repr

/-! ## State -/

/-- The member variables of `PhaseSwitcher` that the control loop uses,
the configuration in use, and the function-local `static` variables. -/
structure State where
  /-- member `enabled` -/
  enabled : Bool
  /-- member `quick_charging_active` -/
  quick_charging_active : Bool
  /-- member `operating_mode` -/
  operating_mode : Nat
  /-- member `requested_phases` (`uint8_t`) -/
  requested_phases : Nat
  /-- member `requested_phases_pending` (`uint8_t`) -/
  requested_phases_pending : Nat
  /-- member `available_charging_power` (`uint16_t`) -/
  available_charging_power : Nat
  /-- member `sequencer_state` -/
  sequencer_state : PhaseSwitcherState
  /-- member `last_phase_request_change` (`uint32_t`, ms) -/
  last_phase_request_change : Nat
  /-- member `last_state_change` (`uint32_t`, ms) -/
  last_state_change : Nat
  /-- member `charger_state` -/
  charger_state : ChargerState
  /-- member `iec61851_state` -/
  iec61851_state : IEC61851State
  /-- member `auto_start_charging` -/
  auto_start_charging : Bool
  /-- member `contactor_error` -/
  contactor_error : Bool
  /-- value `"power"` of `phase_switcher_available_charging_power` -/
  power : Nat
  /-- value `"delay_time_more_phases"` of `phase_switcher_config_in_use` (s) -/
  delay_time_more_phases : Nat
  /-- value `"delay_time_less_phases"` of `phase_switcher_config_in_use` (s) -/
  delay_time_less_phases : Nat
  /-- value `"minimum_duration"` of `phase_switcher_config_in_use` (s) -/
  minimum_duration : Nat
  /-- value `"pause_time"` of `phase_switcher_config_in_use` (s) -/
  pause_time : Nat
  /-- static `last_requested_phases_pending` of `set_available_charging_power` -/
  last_requested_phases_pending : Nat
  /-- static `last_sequencer_state` of `handle_evse` -/
  last_sequencer_state : PhaseSwitcherState
  /-- static `watchdog_start` of `sequencer_state_cancelling_evse_start` -/
  watchdog_cancelling_evse_start : Nat
  /-- static `watchdog_start` of `sequencer_state_waiting_for_evse_start` -/
  watchdog_waiting_for_evse_start : Nat
  /-- static `watchdog_start` of `sequencer_state_waiting_for_evse_stop` -/
  watchdog_waiting_for_evse_stop : Nat
  /-- static `watchdog_start[1]` of `contactor_check` -/
  watchdog_start_1 : Nat
  /-- static `watchdog_start[2]` of `contactor_check` -/
  watchdog_start_2 : Nat
  /-- static `watchdog_start[3]` of `contactor_check` -/
  watchdog_start_3 : Nat
  /-- static `button_pressed_time` of `handle_button` -/
  button_pressed_time : Nat
  /-- static `quick_charging_requested` of `handle_button` -/
  quick_charging_requested : Bool
  deriving DecidableEq, Repr

/-! ## Phase selection and current derivation -/

/-- The function `PhaseSwitcher::get_phases_for_power`; the members
`operating_mode` and `requested_phases` it reads are the first two
arguments. -/
def get_phases_for_power (operating_mode requested_phases
    available_charging_power : Nat) : Nat :=
  if operating_mode = one_phase_static then
    if available_charging_power ≥ MIN_POWER_ONE_PHASE then 1 else 0
  else if operating_mode = two_phases_static then
    if available_charging_power ≥ MIN_POWER_TWO_PHASES then 2 else 0
  else if operating_mode = three_phases_static then
    if available_charging_power ≥ MIN_POWER_THREE_PHASES then 3 else 0
  else if operating_mode = one_two_phases_dynamic then
    if requested_phases = 2 then
      if available_charging_power ≥ MIN_POWER_TWO_PHASES then 2
      else if available_charging_power ≥ MIN_POWER_ONE_PHASE then 1
      else 0
    else
      if available_charging_power ≥ MAX_POWER_ONE_PHASE then 2
      else if available_charging_power ≥ MIN_POWER_ONE_PHASE then 1
      else 0
  else if operating_mode = one_three_phases_dynamic then
    if available_charging_power ≥ MIN_POWER_THREE_PHASES then 3
    else if available_charging_power ≥ MIN_POWER_ONE_PHASE then 1
    else 0
  else if operating_mode = one_two_three_phases_dynamic then
    if available_charging_power ≥ MIN_POWER_THREE_PHASES then 3
    else if available_charging_power ≥ MIN_POWER_TWO_PHASES then 2
    else if available_charging_power ≥ MIN_POWER_ONE_PHASE then 1
    else 0
  else 0

/-- The value `requested_current` of `PhaseSwitcher::set_current`.
The operands are promoted to `int`; the product is wrapped to 32 bits,
the divisions truncate, and the result is stored in a `uint32_t`. -/
def requested_current (available_charging_power phases : Nat) : Nat :=
  if phases ≠ 0 then
    (max (min (Int.tdiv (Int.tdiv
        (wrap_int32 ((available_charging_power : Int) * 1000)) 230)
        (phases : Int)) 32000) 6000 % 2 ^ 32).toNat
  else 0

/-- The function `PhaseSwitcher::set_current`: one call of
`evse/external_current_update`. -/
def set_current (available_charging_power phases : Nat) : List Effect :=
  [Effect.external_current_update
    (requested_current available_charging_power phases)]

/-! ## What the control loop reads from its collaborators -/

/-- The values read from the API state `evse/state`. -/
structure EvseState where
  charger_state : ChargerState
  iec61851_state : IEC61851State
  contactor_state : Nat
  deriving DecidableEq, Repr

/-- The values read from the API state `evse/low_level_state`:
`gpio[0]` is the button, `gpio[3]` the relay output of the EVSE. -/
structure EvseLowLevelState where
  gpio_0 : Bool
  gpio_3 : Bool
  deriving DecidableEq, Repr

/-- The array `bool value[4]` filled by a bricklet `get_value` call. -/
structure ChannelValues where
  value_0 : Bool
  value_1 : Bool
  value_2 : Bool
  value_3 : Bool
  deriving DecidableEq, Repr

/-! ## Commands of the public API -/

/-- The function `PhaseSwitcher::set_available_charging_power`, called at
clock value `now`. -/
def set_available_charging_power (s : State) (now : Nat)
    (available_charging_power : Nat) : State × List Effect :=
  let s1 : State := { s with
    available_charging_power := available_charging_power
    requested_phases_pending :=
      get_phases_for_power s.operating_mode s.requested_phases
        available_charging_power }
  let s2 : State :=
    if s1.requested_phases_pending ≠ s1.last_requested_phases_pending then
      let s1a : State :=
        if s1.requested_phases_pending ≠ s1.requested_phases then
          { s1 with last_phase_request_change := now }
        else s1
      { s1a with last_requested_phases_pending := s1a.requested_phases_pending }
    else s1
  (s2, set_current available_charging_power s2.requested_phases)

/-- The handler registered for `phase_switcher/available_charging_power`:
the API stores the posted value in the command object, then the handler
forwards it when `enabled && !quick_charging_active`. -/
def available_charging_power_command (s : State) (now : Nat)
    (power : Nat) : State × List Effect :=
  let s1 : State := { s with power := power }
  if s1.enabled = true ∧ s1.quick_charging_active = false then
    set_available_charging_power s1 now s1.power
  else (s1, [])

/-- The function `PhaseSwitcher::start_quick_charging`. -/
def start_quick_charging (s : State) : State × List Effect :=
  if s.enabled = false then (s, [])
  else if s.sequencer_state = PhaseSwitcherState.standby
      ∨ s.sequencer_state = PhaseSwitcherState.stopped_by_evse then
    ({ s with quick_charging_active := true, requested_phases_pending := 3 },
      [Effect.external_current_update 32000])
  else (s, [])

/-- The function `PhaseSwitcher::handle_button`. -/
def handle_button (s : State) (now : Nat)
    (evse_low_level_state : Option EvseLowLevelState) : State × List Effect :=
  match evse_low_level_state with
  | none => (s, [])
  | some low =>
    let s1 : State :=
      if low.gpio_0 = false then
        { s with button_pressed_time := now, quick_charging_requested := false }
      else s
    if deadline_elapsed now
          (add_u32 s1.button_pressed_time QUICK_CHARGE_BUTTON_PRESSED_TIME) = true
        ∧ s1.quick_charging_requested = false then
      let r := start_quick_charging s1
      ({ r.1 with quick_charging_requested := true }, r.2)
    else (s1, [])

/-! ## Sequencer -/

/-- The function `PhaseSwitcher::sequencer_state_inactive`. -/
def sequencer_state_inactive (s : State) : State × List Effect :=
  if s.charger_state = ChargerState.waiting_for_charge_release
      ∧ (s.auto_start_charging = true
          ∨ s.iec61851_state = IEC61851State.b_connected)
      ∧ s.contactor_error = false then
    ({ s with sequencer_state := PhaseSwitcherState.standby }, [])
  else if s.charger_state = ChargerState.ready_for_charging
      ∨ s.charger_state = ChargerState.charging then
    ({ s with sequencer_state := PhaseSwitcherState.cancelling_evse_start }, [])
  else (s, [])

/-- The function `PhaseSwitcher::sequencer_state_standby`. -/
def sequencer_state_standby (s : State) (now : Nat) : State × List Effect :=
  if deadline_elapsed now
      (deadline_after_seconds s.last_phase_request_change
        s.delay_time_more_phases) = true then
    let r : State × List Effect :=
      if s.requested_phases_pending > 0 then
        ({ s with sequencer_state := PhaseSwitcherState.waiting_for_evse_start },
          if s.quick_charging_active = false then
            set_current s.power s.requested_phases_pending
          else [])
      else (s, [])
    ({ r.1 with requested_phases := r.1.requested_phases_pending }, r.2)
  else if s.charger_state = ChargerState.ready_for_charging
      ∨ s.charger_state = ChargerState.charging then
    ({ s with sequencer_state := PhaseSwitcherState.cancelling_evse_start }, [])
  else (s, [])

/-- The function `PhaseSwitcher::sequencer_state_cancelling_evse_start`. -/
def sequencer_state_cancelling_evse_start (s : State) (now : Nat) :
    State × List Effect :=
  let r : State × List Effect :=
    if deadline_elapsed now
        (add_u32 s.watchdog_cancelling_evse_start EVSE_STOP_TIMEOUT) = true then
      ({ s with watchdog_cancelling_evse_start := now }, [Effect.stop_charging])
    else (s, [])
  if r.1.charger_state ≠ ChargerState.ready_for_charging
      ∧ r.1.charger_state ≠ ChargerState.charging then
    ({ r.1 with watchdog_cancelling_evse_start := 0
                sequencer_state := PhaseSwitcherState.standby }, r.2)
  else r

/-- The function `PhaseSwitcher::sequencer_state_waiting_for_evse_start`. -/
def sequencer_state_waiting_for_evse_start (s : State) (now : Nat) :
    State × List Effect :=
  let r : State × List Effect :=
    if deadline_elapsed now
        (add_u32 s.watchdog_waiting_for_evse_start EVSE_START_TIMEOUT) = true then
      ({ s with watchdog_waiting_for_evse_start := now }, [Effect.start_charging])
    else (s, [])
  if r.1.charger_state = ChargerState.charging then
    let s1 : State :=
      if r.1.quick_charging_active = true then
        { r.1 with sequencer_state := PhaseSwitcherState.quick_charging }
      else
        { r.1 with sequencer_state := PhaseSwitcherState.active }
    ({ s1 with watchdog_waiting_for_evse_start := 0 }, r.2)
  else r

/-- The function `PhaseSwitcher::sequencer_state_active`. -/
def sequencer_state_active (s : State) (now : Nat) : State × List Effect :=
  let more_phases_requested : Bool :=
    decide (s.requested_phases_pending > s.requested_phases)
  let less_phases_requested : Bool :=
    decide (s.requested_phases_pending < s.requested_phases)
  let delay_for_more_phases_elapsed : Bool :=
    deadline_elapsed now
      (deadline_after_seconds s.last_phase_request_change s.delay_time_more_phases)
  let delay_for_less_phases_elapsed : Bool :=
    deadline_elapsed now
      (deadline_after_seconds s.last_phase_request_change s.delay_time_less_phases)
  let minimum_duration_elapsed : Bool :=
    deadline_elapsed now
      (deadline_after_seconds s.last_state_change s.minimum_duration)
  if (((more_phases_requested && delay_for_more_phases_elapsed)
        || (less_phases_requested && delay_for_less_phases_elapsed))
      && minimum_duration_elapsed) = true then
    ({ s with sequencer_state := PhaseSwitcherState.waiting_for_evse_stop }, [])
  else if s.charger_state ≠ ChargerState.charging then
    ({ s with sequencer_state := PhaseSwitcherState.stopped_by_evse
              quick_charging_active := false }, [])
  else (s, [])

/-- The function `PhaseSwitcher::sequencer_state_quick_charging`. -/
def sequencer_state_quick_charging (s : State) (now : Nat) :
    State × List Effect :=
  if s.charger_state ≠ ChargerState.charging then
    let r := set_available_charging_power s now s.power
    ({ r.1 with sequencer_state := PhaseSwitcherState.stopped_by_evse
                quick_charging_active := false }, r.2)
  else (s, [])

/-- The function `PhaseSwitcher::sequencer_state_waiting_for_evse_stop`. -/
def sequencer_state_waiting_for_evse_stop (s : State) (now : Nat) :
    State × List Effect :=
  let r : State × List Effect :=
    if deadline_elapsed now
        (add_u32 s.watchdog_waiting_for_evse_stop EVSE_STOP_TIMEOUT) = true then
      ({ s with watchdog_waiting_for_evse_stop := now }, [Effect.stop_charging])
    else (s, [])
  if r.1.charger_state ≠ ChargerState.charging then
    if r.1.requested_phases_pending ≠ 0 ∧ r.1.contactor_error = false then
      ({ r.1 with sequencer_state := PhaseSwitcherState.pausing_while_switching },
        r.2)
    else
      ({ r.1 with requested_phases := r.1.requested_phases_pending
                  sequencer_state := PhaseSwitcherState.standby }, r.2)
  else r

/-- The function `PhaseSwitcher::sequencer_state_pausing_while_switching`. -/
def sequencer_state_pausing_while_switching (s : State) (now : Nat) :
    State × List Effect :=
  if deadline_elapsed now
      (deadline_after_seconds s.last_state_change s.pause_time) = true then
    let s1 : State := { s with requested_phases := s.requested_phases_pending }
    ({ s1 with sequencer_state := PhaseSwitcherState.waiting_for_evse_start },
      set_current s1.power s1.requested_phases)
  else (s, [])

/-- The function `PhaseSwitcher::sequencer_state_stopped_by_evse`. -/
def sequencer_state_stopped_by_evse (s : State) : State × List Effect :=
  let s1 : State :=
    if s.quick_charging_active = true then
      { s with sequencer_state := PhaseSwitcherState.standby }
    else if s.charger_state = ChargerState.charging then
      { s with sequencer_state := PhaseSwitcherState.active }
    else s
  ({ s1 with requested_phases := s1.requested_phases_pending }, [])

/-- The `switch (sequencer_state)` of `handle_evse`. -/
def sequencer_dispatch (s : State) (now : Nat) : State × List Effect :=
  match s.sequencer_state with
  | PhaseSwitcherState.inactive => sequencer_state_inactive s
  | PhaseSwitcherState.standby => sequencer_state_standby s now
  | PhaseSwitcherState.cancelling_evse_start =>
      sequencer_state_cancelling_evse_start s now
  | PhaseSwitcherState.waiting_for_evse_start =>
      sequencer_state_waiting_for_evse_start s now
  | PhaseSwitcherState.active => sequencer_state_active s now
  | PhaseSwitcherState.quick_charging => sequencer_state_quick_charging s now
  | PhaseSwitcherState.waiting_for_evse_stop =>
      sequencer_state_waiting_for_evse_stop s now
  | PhaseSwitcherState.pausing_while_switching =>
      sequencer_state_pausing_while_switching s now
  | PhaseSwitcherState.stopped_by_evse => sequencer_state_stopped_by_evse s

/-- The three assignments at the head of `handle_evse`: the members
`charger_state`, `iec61851_state` and `auto_start_charging` are read from
the EVSE. -/
def handle_evse_read (s : State) (evse : EvseState) (auto_start : Bool) :
    State :=
  { s with
    charger_state := evse.charger_state
    iec61851_state := evse.iec61851_state
    auto_start_charging := auto_start }

/-- The block after the `switch` of `handle_evse`: when the static
`last_sequencer_state` differs from `sequencer_state`, stamp
`last_state_change` and remember the state. -/
def handle_evse_stamp (s : State) (now : Nat) : State :=
  if s.last_sequencer_state ≠ s.sequencer_state then
    { s with last_state_change := now
             last_sequencer_state := s.sequencer_state }
  else s

/-- The function `PhaseSwitcher::handle_evse`.  The two API state objects
are `none` when `api.getState` gave a null pointer. -/
def handle_evse (s : State) (now : Nat) (evse_state : Option EvseState)
    (evse_auto_start_charging : Option Bool) : State × List Effect :=
  match evse_state with
  | none => (s, [])
  | some evse =>
    match evse_auto_start_charging with
    | none => (s, [])
    | some auto_start =>
      let s1 : State := handle_evse_read s evse auto_start
      if s1.enabled = false
          ∨ s1.charger_state = ChargerState.not_connected
          ∨ s1.charger_state = ChargerState.error then
        ({ s1 with sequencer_state := PhaseSwitcherState.inactive
                   quick_charging_active := false
                   requested_phases := 0 }, [])
      else
        let r := sequencer_dispatch s1 now
        (handle_evse_stamp r.1 now, r.2)

/-! ## Output shaper -/

/-- The array `channel_request[4]` of `write_outputs` after the
`if (evse_relay_output && !contactor_error)` block, as the list of its
entries 0 to 3. -/
def channel_request (s : State) (evse_relay_output : Bool) : List Bool :=
  if evse_relay_output = true ∧ s.contactor_error = false then
    if s.enabled = true then
      match s.requested_phases with
      | 0 => [false, false, false, false]
      | 1 => [false, true, false, false]
      | 2 => [false, true, true, false]
      | _ => [false, true, true, true]
    else
      [false, true, true, true]
  else
    [false, false, false, false]

/-- The loop `for (channel = 0; channel <= 3; channel++)` of `write_outputs`
from `channel` on: one bricklet call per entry, and `return` after the first
call whose return code is not `TF_E_OK` (`relay_ok channel = false`). -/
def write_channels (relay_ok : Nat → Bool) : Nat → List Bool → List Effect
  | _, [] => []
  | channel, request :: rest =>
    let call : Effect :=
      if request = true then Effect.set_monoflop channel true 2000
      else Effect.set_selected_value channel false
    if relay_ok channel = true then
      call :: write_channels relay_ok (channel + 1) rest
    else [call]

/-- The function `PhaseSwitcher::write_outputs`: the bricklet calls it
makes.  It changes no member variable. -/
def write_outputs (s : State) (evse_low_level_state : Option EvseLowLevelState)
    (relay_ok : Nat → Bool) : List Effect :=
  match evse_low_level_state with
  | none => []
  | some low => write_channels relay_ok 0 (channel_request s low.gpio_3)

/-! ## Contactor supervisor -/

/-- The local arrays of `contactor_check` once both bricklets were read. -/
structure ContactorReadings where
  input_phase_1 : Bool
  input_phase_2 : Bool
  input_phase_3 : Bool
  output_phase_1 : Bool
  output_phase_2 : Bool
  output_phase_3 : Bool
  deriving DecidableEq, Repr

/-- The reads at the head of `contactor_check`; `none` when the function
returns early (a `get_value` call failed). -/
def contactor_readings (evse : EvseState) (digital_in : Option ChannelValues)
    (quad_relay : Option ChannelValues) : Option ContactorReadings :=
  match digital_in with
  | none => none
  | some input =>
    match quad_relay with
    | none => none
    | some output =>
      some { input_phase_1 := decide (evse.contactor_state = 3)
             input_phase_2 := input.value_2
             input_phase_3 := input.value_3
             output_phase_1 := output.value_1
             output_phase_2 := output.value_2
             output_phase_3 := output.value_3 }

/-- One iteration of the loop `for (i = 1; i <= 3; i++)` of `contactor_check`
for a phase with feedback `input`, relay value `output`, watchdog
`watchdog_start` and latch `latch` (the member `contactor_error`).
The result is the new `watchdog_start[i]`, the local `contactor_error[i]`
and the member `contactor_error`. -/
def contactor_check_phase (now : Nat) (input output : Bool)
    (watchdog_start : Nat) (latch : Bool) : Nat × Bool × Bool :=
  let watchdog : Nat := if input = output then now else watchdog_start
  if deadline_elapsed now (add_u32 watchdog 2000) = true ∧ latch = false then
    (watchdog, true, true)
  else
    (watchdog, false, latch)

/-- The three iterations of the loop of `contactor_check`: the state after
them and the locals `contactor_error[1]`, `[2]`, `[3]`. -/
def contactor_check_phases (s : State) (now : Nat) (r : ContactorReadings) :
    State × Bool × Bool × Bool :=
  let p1 := contactor_check_phase now r.input_phase_1 r.output_phase_1
    s.watchdog_start_1 s.contactor_error
  let p2 := contactor_check_phase now r.input_phase_2 r.output_phase_2
    s.watchdog_start_2 p1.2.2
  let p3 := contactor_check_phase now r.input_phase_3 r.output_phase_3
    s.watchdog_start_3 p2.2.2
  ({ s with watchdog_start_1 := p1.1
            watchdog_start_2 := p2.1
            watchdog_start_3 := p3.1
            contactor_error := p3.2.2 }, p1.2.1, p2.2.1, p3.2.1)

/-- The block `if (this->contactor_error) { switch(sequencer_state) ... }`
of `contactor_check`. -/
def contactor_check_sequencer (s : State) : State :=
  if s.contactor_error = true then
    match s.sequencer_state with
    | PhaseSwitcherState.waiting_for_evse_start
    | PhaseSwitcherState.active
    | PhaseSwitcherState.quick_charging =>
        { s with sequencer_state := PhaseSwitcherState.waiting_for_evse_stop }
    | PhaseSwitcherState.waiting_for_evse_stop => s
    | _ => { s with sequencer_state := PhaseSwitcherState.inactive }
  else s

/-- The last statement of `contactor_check`; its condition reads the locals
`contactor_error[0]`, `[1]` and `[2]`. -/
def contactor_check_clear (s : State)
    (contactor_error_0 contactor_error_1 contactor_error_2 : Bool) : State :=
  if s.charger_state = ChargerState.not_connected
      ∧ contactor_error_0 = false ∧ contactor_error_1 = false
      ∧ contactor_error_2 = false then
    { s with contactor_error := false }
  else s

/-- The function `PhaseSwitcher::contactor_check`.  `evse_state` is `none`
for a null pointer, `digital_in` and `quad_relay` are `none` when the
`get_value` call fails.  The local `contactor_error[0]` is never written
before it is read; `contactor_error_0` is the value found there. -/
def contactor_check (s : State) (now : Nat) (evse_state : Option EvseState)
    (digital_in quad_relay : Option ChannelValues) (contactor_error_0 : Bool) :
    State :=
  match evse_state with
  | none => s
  | some evse =>
    match contactor_readings evse digital_in quad_relay with
    | none => s
    | some r =>
      let c := contactor_check_phases s now r
      contactor_check_clear (contactor_check_sequencer c.1)
        contactor_error_0 c.2.1 c.2.2.1

/-! ## Scheduler -/

/-- One call from the scheduler or from the API, with what it reads. -/
inductive Op
  | handle_button (now : Nat) (evse_low_level_state : Option EvseLowLevelState)
  | handle_evse (now : Nat) (evse_state : Option EvseState)
      (evse_auto_start_charging : Option Bool)
  | write_outputs (evse_low_level_state : Option EvseLowLevelState)
      (relay_ok : Nat → Bool)
  | contactor_check (now : Nat) (evse_state : Option EvseState)
      (digital_in quad_relay : Option ChannelValues) (contactor_error_0 : Bool)
  | set_available_charging_power (now : Nat) (available_charging_power : Nat)
  | available_charging_power_command (now : Nat) (power : Nat)
  | start_quick_charging

/-- The state after one call, and the commands it sent. -/
def Op.apply : Op → State → State × List Effect
  | Op.handle_button now low, s => PhaseSwitcher.handle_button s now low
  | Op.handle_evse now evse auto_start, s =>
      PhaseSwitcher.handle_evse s now evse auto_start
  | Op.write_outputs low relay_ok, s =>
      (s, PhaseSwitcher.write_outputs s low relay_ok)
  | Op.contactor_check now evse digital_in quad_relay e0, s =>
      (PhaseSwitcher.contactor_check s now evse digital_in quad_relay e0, [])
  | Op.set_available_charging_power now power, s =>
      PhaseSwitcher.set_available_charging_power s now power
  | Op.available_charging_power_command now power, s =>
      PhaseSwitcher.available_charging_power_command s now power
  | Op.start_quick_charging, s => PhaseSwitcher.start_quick_charging s

/-- The state after a sequence of calls. -/
def run (s : State) : List Op → State
  | [] => s
  | op :: ops => run (op.apply s).1 ops

/-- The states a sequence of calls goes through, the first state included. -/
def trace (s : State) : List Op → List State
  | [] => [s]
  | op :: ops => s :: trace (op.apply s).1 ops

/-- The 250 ms task of `setup`: `handle_button`, `handle_evse`,
`write_outputs`, `contactor_check`, in this order. -/
def tick (now : Nat) (evse_low_level_state : Option EvseLowLevelState)
    (evse_state : Option EvseState) (evse_auto_start_charging : Option Bool)
    (relay_ok : Nat → Bool) (digital_in quad_relay : Option ChannelValues)
    (contactor_error_0 : Bool) : List Op :=
  [Op.handle_button now evse_low_level_state,
   Op.handle_evse now evse_state evse_auto_start_charging,
   Op.write_outputs evse_low_level_state relay_ok,
   Op.contactor_check now evse_state digital_in quad_relay contactor_error_0]

/-- The state at the first tick: `enabled`, `operating_mode` and the
configuration in use as loaded by `setup`; the function-local statics as
their initialisers give them and the other members zero, as in a
zero-initialised object (the class gives them no initialiser). -/
def initial_state (enabled : Bool) (operating_mode delay_time_more_phases
    delay_time_less_phases minimum_duration pause_time : Nat) : State :=
  { enabled := enabled
    quick_charging_active := false
    operating_mode := operating_mode
    requested_phases := 0
    requested_phases_pending := 0
    available_charging_power := 0
    sequencer_state := PhaseSwitcherState.inactive
    last_phase_request_change := 0
    last_state_change := 0
    charger_state := ChargerState.not_connected
    iec61851_state := IEC61851State.a_not_connected
    auto_start_charging := false
    contactor_error := false
    power := 0
    delay_time_more_phases := delay_time_more_phases
    delay_time_less_phases := delay_time_less_phases
    minimum_duration := minimum_duration
    pause_time := pause_time
    last_requested_phases_pending := 0
    last_sequencer_state := PhaseSwitcherState.inactive
    watchdog_cancelling_evse_start := 0
    watchdog_waiting_for_evse_start := 0
    watchdog_waiting_for_evse_stop := 0
    watchdog_start_1 := 0
    watchdog_start_2 := 0
    watchdog_start_3 := 0
    button_pressed_time := 0
    quick_charging_requested := false }

/-! ## Scenarios -/

/-- EVSE state of a connected vehicle that is not charging. -/
def evse_waiting : EvseState :=
  ⟨ChargerState.waiting_for_charge_release, IEC61851State.b_connected, 0⟩

/-- EVSE state of a charging vehicle. -/
def evse_charging : EvseState :=
  ⟨ChargerState.charging, IEC61851State.c_charging, 3⟩

/-- A run in which the EVSE itself stops and resumes charging: 5000 W are
announced, the vehicle connects, charging starts on three phases, the EVSE
leaves `charging`, 2000 W are announced, the EVSE charges again. -/
def scenario_stopped_by_evse : List Op :=
  [Op.available_charging_power_command 0 5000,
   Op.handle_evse 250 (some evse_waiting) (some true),
   Op.handle_evse 10250 (some evse_waiting) (some true),
   Op.handle_evse 10500 (some evse_charging) (some true),
   Op.handle_evse 10750 (some evse_waiting) (some true),
   Op.available_charging_power_command 10800 2000,
   Op.handle_evse 11000 (some evse_waiting) (some true),
   Op.handle_evse 11250 (some evse_charging) (some true)]

/-- A run that demotes under load (scenario S2 of the spec) up to the tick
before the restart: charging on three phases, 2000 W are announced, the
sequencer stops the EVSE and pauses. -/
def scenario_demote_under_load : List Op :=
  [Op.available_charging_power_command 0 5000,
   Op.handle_evse 250 (some evse_waiting) (some true),
   Op.handle_evse 10250 (some evse_waiting) (some true),
   Op.handle_evse 10500 (some evse_charging) (some true),
   Op.available_charging_power_command 10800 2000,
   Op.handle_evse 21000 (some evse_charging) (some true),
   Op.handle_evse 21250 (some evse_waiting) (some true),
   Op.handle_evse 21500 (some evse_waiting) (some true)]

/-! ## Selector under feedback -/

/-- The decisions of `get_phases_for_power` along a list of powers when each
decision is committed before the next call: it is the `requested_phases`
the next call reads. -/
def selector_sweep (operating_mode : Nat) : Nat → List Nat → List Nat
  | _, [] => []
  | requested_phases, power :: rest =>
    get_phases_for_power operating_mode requested_phases power
      :: selector_sweep operating_mode
          (get_phases_for_power operating_mode requested_phases power) rest

/-- A run in which the contactor supervisor forces the sequencer back and
the next tick returns it: the EVSE starts charging on its own, so the first
tick moves to `cancelling_evse_start`; at 5000 ms phase 2 has had feedback
without a relay command for more than 2 s, and `contactor_check` latches
the error and forces `inactive`. -/
def scenario_contactor_round_trip : List Op :=
  [Op.handle_evse 250 (some evse_charging) (some true),
   Op.contactor_check 5000 (some evse_charging)
     (some ⟨false, false, true, false⟩) (some ⟨false, true, false, false⟩) false]

/-! ## Telemetry rings -/

/-- Conversion of an `int` to `int16_t`: the value modulo `2 ^ 16`, read as
a signed number. -/
def to_int16 (x : Int) : Int := (x + 2 ^ 15) % 2 ^ 16 - 2 ^ 15

/-- Modelled from the spec: the template `TF_Ringbuffer` is not under `src/`.
A ring is the list of its samples, oldest first; `push` appends the sample
and, on a full ring of `PHASE_SWITCHER_RING_BUF_SIZE` samples, replaces the
oldest. -/
def ring_push (ring : List Int) (item : Int) : List Int :=
  if ring.length ≥ PHASE_SWITCHER_RING_BUF_SIZE then ring.tail ++ [item]
  else ring ++ [item]

/-- The three members `requested_power_history`, `charging_power_history`
and `active_phases_history`. -/
structure History where
  requested_power_history : List Int
  charging_power_history : List Int
  active_phases_history : List Int
  deriving DecidableEq, Repr

/-- The rings as `setup` leaves them: filled with -1. -/
def initial_history : History :=
  { requested_power_history := List.replicate PHASE_SWITCHER_RING_BUF_SIZE (-1)
    charging_power_history := List.replicate PHASE_SWITCHER_RING_BUF_SIZE (-1)
    active_phases_history := List.replicate PHASE_SWITCHER_RING_BUF_SIZE (-1) }

/-- The function `PhaseSwitcher::update_history`.  `meter_power` is the
meter's `"power"` value as converted to `int16_t`, `none` when the meter is
not initialised or `meter/values` is absent. -/
def update_history (s : State) (meter_power : Option Int) (h : History) :
    History :=
  let actual_charging_power : Int :=
    match meter_power with
    | some power => power
    | none => -1
  { requested_power_history :=
      ring_push h.requested_power_history
        (to_int16 (s.available_charging_power : Int))
    charging_power_history :=
      ring_push h.charging_power_history (to_int16 actual_charging_power)
    active_phases_history :=
      ring_push h.active_phases_history
        (to_int16 (wrap_int32 ((s.requested_phases : Int) * 230 * 6))) }

/-! ## History endpoints -/

/-- The output of `%d` for an `int`. -/
def format_d (val : Int) : List Char :=
  if val < 0 then '-' :: (Nat.repr (-val).toNat).toList
  else (Nat.repr val.toNat).toList

/-- One call `buf_written += snprintf(buf + buf_written, buf_size -
buf_written, ...)` producing `text`: at most `buf_size - buf_written - 1`
characters are stored (one byte is kept for the terminator), and the count
advances by the full length of `text`. -/
def snprintf_at (buf_size : Nat) (buf : List Char × Nat) (text : List Char) :
    List Char × Nat :=
  (buf.1 ++ text.take (buf_size - buf.2 - 1), buf.2 + text.length)

/-- The loop `for (i = 1; i < ring.used() && ring.peek_offset(&val, i) &&
buf_written < buf_size; ++i)` of a history handler over the samples after
the oldest. -/
def history_loop (buf_size : Nat) : List Int → List Char × Nat → List Char × Nat
  | [], buf => buf
  | val :: rest, buf =>
    if buf.2 < buf_size then
      history_loop buf_size rest
        (snprintf_at buf_size buf
          (if val < 0 then ",null".toList else ',' :: format_d val))
    else buf

/-- The handlers of `/phase_switcher/requested_power_history`,
`/phase_switcher/charging_power_history` and
`/phase_switcher/requested_phases_history` for an initialised module; the
three have the same body.  The result is the buffer `buf` and the count
`buf_written` passed to `request.send`.  `val_0` is what the local `val`
holds when `peek` on an empty ring leaves it unwritten. -/
def history_response (val_0 : Int) (ring : List Int) : List Char × Nat :=
  let buf_size : Nat := PHASE_SWITCHER_RING_BUF_SIZE * 6 + 100
  let val : Int :=
    match ring with
    | [] => val_0
    | oldest :: _ => oldest
  let first : List Char × Nat :=
    snprintf_at buf_size ([], 0)
      (if val < 0 then "[null".toList else '[' :: format_d val)
  let body : List Char × Nat := history_loop buf_size ring.tail first
  if body.2 < buf_size then snprintf_at buf_size body [']'] else body

/-- The JSON text of an array: the entries separated by commas, in brackets. -/
def json_array (entries : List (List Char)) : List Char :=
  '[' :: List.intercalate [','] entries ++ [']']

/-- A run in which the EVSE starts charging on its own while no power is
announced: the vehicle connects, the sequencer goes to `standby` with
`requested_phases_pending = 0`. -/
def scenario_standby_without_power : List Op :=
  [Op.handle_evse 250 (some evse_waiting) (some true)]

/-- EVSE state with no vehicle connected. -/
def evse_not_connected : EvseState :=
  ⟨ChargerState.not_connected, IEC61851State.a_not_connected, 0⟩

/-- A run with a second charging session about 35 days after boot, in the
upper half of the range of the 32-bit clock.  First session: 5000 W, the
vehicle connects, the sequencer waits for the EVSE and charging starts at
10500 ms, which leaves `waiting_for_evse_start`; the vehicle is unplugged.
Second session: 2000 W are announced at 3000000000 ms, the vehicle
connects, and the tick at 3000010250 ms enters `waiting_for_evse_start`
again. -/
def scenario_late_start : List Op :=
  [Op.available_charging_power_command 0 5000,
   Op.handle_evse 250 (some evse_waiting) (some true),
   Op.handle_evse 10250 (some evse_waiting) (some true),
   Op.handle_evse 10500 (some evse_charging) (some true),
   Op.handle_evse 20000 (some evse_not_connected) (some true),
   Op.available_charging_power_command 3000000000 2000,
   Op.handle_evse 3000000250 (some evse_waiting) (some true),
   Op.handle_evse 3000010250 (some evse_waiting) (some true)]

/-- A run in which the EVSE charges on its own, with no power announced.
Right after boot the sequencer enters `cancelling_evse_start`, sends the
stop command at 10250 ms and leaves the state when the EVSE stops; the
vehicle is unplugged.  At 3000000000 ms a vehicle is found charging again
and the tick enters `cancelling_evse_start` a second time. -/
def scenario_late_cancel : List Op :=
  [Op.handle_evse 250 (some evse_charging) (some true),
   Op.handle_evse 10250 (some evse_charging) (some true),
   Op.handle_evse 10500 (some evse_waiting) (some true),
   Op.handle_evse 20000 (some evse_not_connected) (some true),
   Op.handle_evse 3000000000 (some evse_charging) (some true)]

/-- The run `scenario_demote_under_load` followed by an announcement of
0 W during the pause. -/
def scenario_power_lost_in_pause : List Op :=
  scenario_demote_under_load ++ [Op.available_charging_power_command 25000 0]

/-! ## Quick charging -/

/-- The calls that reach `set_available_charging_power` only through the
guard of the API handler or from inside the sequencer: every call of `Op`
but the bare `set_available_charging_power`. -/
def Op.guarded : Op → Bool
  | Op.set_available_charging_power _ _ => false
  | _ => true

/-- What holds between two calls while quick charging is handled:
`quick_charging_active` goes with three pending phases; the state
`quick_charging` goes with `quick_charging_active`; with
`quick_charging_active`, `waiting_for_evse_start` and `quick_charging` go
with three committed phases; `pausing_while_switching` and `active` go
without `quick_charging_active`; `waiting_for_evse_stop` with
`quick_charging_active` goes with a latched contactor error; and the member
`charger_state` is `not_connected` only in state `inactive`. -/
def quick_charging_invariant (s : State) : Prop :=
  (s.quick_charging_active = true → s.requested_phases_pending = 3)
  ∧ (s.sequencer_state = PhaseSwitcherState.quick_charging →
      s.quick_charging_active = true)
  ∧ (s.quick_charging_active = true →
      s.sequencer_state = PhaseSwitcherState.waiting_for_evse_start
        ∨ s.sequencer_state = PhaseSwitcherState.quick_charging →
      s.requested_phases = 3)
  ∧ (s.sequencer_state = PhaseSwitcherState.pausing_while_switching →
      s.quick_charging_active = false)
  ∧ (s.sequencer_state = PhaseSwitcherState.active →
      s.quick_charging_active = false)
  ∧ (s.sequencer_state = PhaseSwitcherState.waiting_for_evse_stop →
      s.quick_charging_active = true → s.contactor_error = true)
  ∧ (s.charger_state = ChargerState.not_connected →
      s.sequencer_state = PhaseSwitcherState.inactive)

instance (s : State) : Decidable (quick_charging_invariant s) := by
  unfold quick_charging_invariant
  infer_instance

/-- A run with quick charging: the vehicle connects, quick charging is
requested in `standby`, the sequencer asks the EVSE to start after the delay
and the EVSE charges. -/
def scenario_quick_charging : List Op :=
  [Op.handle_evse 250 (some evse_waiting) (some true),
   Op.start_quick_charging,
   Op.handle_evse 10250 (some evse_waiting) (some true),
   Op.handle_evse 10500 (some evse_charging) (some true)]

/-- A run with no vehicle connected and all relays off: at 1000 ms every
feedback agrees with its relay, which restarts the three watchdogs of
`contactor_check`. -/
def scenario_contactors_agree_unplugged : List Op :=
  [Op.contactor_check 1000 (some evse_not_connected)
     (some ⟨false, false, false, false⟩) (some ⟨false, false, false, false⟩)
     false]

/-! ## Arithmetic helpers -/

set_option maxRecDepth 8000

theorem wrap_int32_of_lt (x : Nat) (h : x < 2 ^ 31) :
    wrap_int32 (x : Int) = (x : Int) := by
  unfold wrap_int32
  have h1 : ((x : Int) + 2 ^ 31) % 2 ^ 32 = (x : Int) + 2 ^ 31 := by
    apply Int.emod_eq_of_lt <;> omega
  omega

theorem requested_current_eq (P n : Nat) (hP : P < 65536) :
    requested_current P n
      = if n = 0 then 0 else max (min (P * 1000 / 230 / n) 32000) 6000 := by
  unfold requested_current
  by_cases hn : n = 0
  · simp [hn]
  · have hw : wrap_int32 ((P : Int) * 1000) = ((P * 1000 : Nat) : Int) := by
      have := wrap_int32_of_lt (P * 1000) (by omega)
      simpa using this
    rw [hw]
    have h230 : (230 : Int) = ((230 : Nat) : Int) := rfl
    rw [h230, ← Int.ofNat_tdiv, ← Int.ofNat_tdiv]
    simp only [hn, if_true, if_false, ne_eq, not_false_eq_true]
    have hb : max (min (((P * 1000 / 230 / n : Nat)) : Int) 32000) 6000
        = ((max (min (P * 1000 / 230 / n) 32000) 6000 : Nat) : Int) := by
      push_cast
      rfl
    rw [hb]
    have hlt : max (min (P * 1000 / 230 / n) 32000) 6000 < 2 ^ 32 := by
      have : max (min (P * 1000 / 230 / n) 32000) 6000 ≤ 32000 := by
        apply max_le
        · exact min_le_right _ _
        · norm_num
      omega
    have hm : (((max (min (P * 1000 / 230 / n) 32000) 6000 : Nat) : Int) % 2 ^ 32)
        = ((max (min (P * 1000 / 230 / n) 32000) 6000 : Nat) : Int) := by
      apply Int.emod_eq_of_lt
      · exact Int.natCast_nonneg _
      · exact_mod_cast hlt
    rw [hm]
    exact Int.toNat_ofNat _

/-! ## Phase selector and current derivation -/

/-- C1: for every power `P` and every committed phase count `r`,
`get_phases_for_power` returns the value of the decision table with
`MIN1 = 1380`, `MIN2 = 2760`, `MIN3 = 4140`, `MAX1 = 3680` in each of the six
operating modes; in mode 1/2-dyn the row is chosen by `r = 2`. -/
theorem get_phases_for_power_decision_table (P r : Nat) :
    get_phases_for_power one_phase_static r P = (if 1380 ≤ P then 1 else 0)
    ∧ get_phases_for_power two_phases_static r P = (if 2760 ≤ P then 2 else 0)
    ∧ get_phases_for_power three_phases_static r P = (if 4140 ≤ P then 3 else 0)
    ∧ get_phases_for_power one_three_phases_dynamic r P
        = (if 4140 ≤ P then 3 else if 1380 ≤ P then 1 else 0)
    ∧ get_phases_for_power one_two_three_phases_dynamic r P
        = (if 4140 ≤ P then 3 else if 2760 ≤ P then 2
            else if 1380 ≤ P then 1 else 0)
    ∧ (r = 2 → get_phases_for_power one_two_phases_dynamic r P
        = (if 2760 ≤ P then 2 else if 1380 ≤ P then 1 else 0))
    ∧ (r ≠ 2 → get_phases_for_power one_two_phases_dynamic r P
        = (if 3680 ≤ P then 2 else if 1380 ≤ P then 1 else 0)) := by
  refine ⟨?_, ?_, ?_, ?_, ?_, ?_, ?_⟩ <;>
    simp +contextual [get_phases_for_power, one_phase_static, two_phases_static,
      three_phases_static, one_two_phases_dynamic, one_three_phases_dynamic,
      one_two_three_phases_dynamic, MIN_POWER_ONE_PHASE, MIN_POWER_TWO_PHASES,
      MIN_POWER_THREE_PHASES, MAX_POWER_ONE_PHASE]

/-- C2: for a 16-bit power `P` and a phase count `n`, the product `P * 1000`
does not overflow the 32-bit `int`, `set_current` sends exactly one
`external_current_update` whose value is 0 for `n = 0` and
`max (min (P * 1000 / 230 / n) 32000) 6000` otherwise, so the value is 0 or
lies between 6000 and 32000; (5000, 3) gives 7246 and (2000, 1) gives 8695. -/
theorem set_current_clamped (P n : Nat) (hP : P < 65536) :
    wrap_int32 ((P : Int) * 1000) = (P : Int) * 1000
    ∧ set_current P n = [Effect.external_current_update
        (if n = 0 then 0 else max (min (P * 1000 / 230 / n) 32000) 6000)]
    ∧ (n = 0 → requested_current P n = 0)
    ∧ (n ≠ 0 → 6000 ≤ requested_current P n ∧ requested_current P n ≤ 32000)
    ∧ set_current 5000 3 = [Effect.external_current_update 7246]
    ∧ set_current 2000 1 = [Effect.external_current_update 8695] := by
  have hw : wrap_int32 ((P : Int) * 1000) = (P : Int) * 1000 := by
    have := wrap_int32_of_lt (P * 1000) (by omega)
    simpa using this
  refine ⟨hw, ?_, ?_, ?_, ?_, ?_⟩
  · simp only [set_current, requested_current_eq P n hP]
  · intro hn
    rw [requested_current_eq P n hP, if_pos hn]
  · intro hn
    rw [requested_current_eq P n hP, if_neg hn]
    exact ⟨le_max_right _ _, max_le (min_le_right _ _) (by norm_num)⟩
  · simp only [set_current, requested_current_eq 5000 3 (by norm_num)]
    norm_num
  · simp only [set_current, requested_current_eq 2000 1 (by norm_num)]
    norm_num

/-- Witness of C2 at `P = 5000`, `n = 3`. -/
theorem set_current_clamped_witness :
    (5000 : Nat) < 65536
    ∧ set_current 5000 3 = [Effect.external_current_update
        (if (3 : Nat) = 0 then 0
          else max (min (5000 * 1000 / 230 / 3) 32000) 6000)] :=
  ⟨by decide, (set_current_clamped 5000 3 (by decide)).2.1⟩

/-! ## Operations that leave the sequencer and the committed phases alone -/

theorem contactor_check_phases_requested_phases (s : State) (now : Nat)
    (r : ContactorReadings) :
    (contactor_check_phases s now r).1.requested_phases = s.requested_phases := by
  unfold contactor_check_phases
  rfl

theorem contactor_check_phases_sequencer_state (s : State) (now : Nat)
    (r : ContactorReadings) :
    (contactor_check_phases s now r).1.sequencer_state = s.sequencer_state := by
  unfold contactor_check_phases
  rfl

theorem contactor_check_sequencer_requested_phases (s : State) :
    (contactor_check_sequencer s).requested_phases = s.requested_phases := by
  unfold contactor_check_sequencer
  split_ifs
  · split <;> rfl
  · rfl

theorem contactor_check_clear_requested_phases (s : State) (e0 e1 e2 : Bool) :
    (contactor_check_clear s e0 e1 e2).requested_phases = s.requested_phases := by
  unfold contactor_check_clear
  split_ifs <;> rfl

theorem contactor_check_clear_sequencer_state (s : State) (e0 e1 e2 : Bool) :
    (contactor_check_clear s e0 e1 e2).sequencer_state = s.sequencer_state := by
  unfold contactor_check_clear
  split_ifs <;> rfl

theorem contactor_check_requested_phases (s : State) (now : Nat)
    (evse : Option EvseState) (digital_in quad_relay : Option ChannelValues)
    (e0 : Bool) :
    (contactor_check s now evse digital_in quad_relay e0).requested_phases
      = s.requested_phases := by
  unfold contactor_check
  cases evse with
  | none => rfl
  | some evse =>
    simp only
    cases contactor_readings evse digital_in quad_relay with
    | none => rfl
    | some r =>
      simp only
      rw [contactor_check_clear_requested_phases,
        contactor_check_sequencer_requested_phases,
        contactor_check_phases_requested_phases]

/-- The sequencer state after the `switch` of `contactor_check` when the
latch is not set, and when it is. -/
theorem contactor_check_sequencer_state_eq (s : State) :
    (contactor_check_sequencer s).sequencer_state
      = if s.contactor_error = true then
          (if s.sequencer_state = PhaseSwitcherState.waiting_for_evse_start
              ∨ s.sequencer_state = PhaseSwitcherState.active
              ∨ s.sequencer_state = PhaseSwitcherState.quick_charging
              ∨ s.sequencer_state = PhaseSwitcherState.waiting_for_evse_stop
            then PhaseSwitcherState.waiting_for_evse_stop
            else PhaseSwitcherState.inactive)
        else s.sequencer_state := by
  unfold contactor_check_sequencer
  by_cases h : s.contactor_error = true
  · rw [if_pos h, if_pos h]
    cases hs : s.sequencer_state <;> simp [hs]
  · rw [if_neg h, if_neg h]

theorem contactor_check_inactive (s : State) (now : Nat)
    (evse : Option EvseState) (digital_in quad_relay : Option ChannelValues)
    (e0 : Bool) (h : s.sequencer_state = PhaseSwitcherState.inactive) :
    (contactor_check s now evse digital_in quad_relay e0).sequencer_state
      = PhaseSwitcherState.inactive := by
  unfold contactor_check
  cases evse with
  | none => exact h
  | some evse =>
    simp only
    cases contactor_readings evse digital_in quad_relay with
    | none => exact h
    | some r =>
      simp only
      rw [contactor_check_clear_sequencer_state, contactor_check_sequencer_state_eq,
        contactor_check_phases_sequencer_state, h]
      split_ifs <;> simp_all

theorem set_available_charging_power_requested_phases (s : State) (now P : Nat) :
    (set_available_charging_power s now P).1.requested_phases
      = s.requested_phases := by
  unfold set_available_charging_power
  simp only
  split_ifs <;> rfl

theorem set_available_charging_power_sequencer_state (s : State) (now P : Nat) :
    (set_available_charging_power s now P).1.sequencer_state
      = s.sequencer_state := by
  unfold set_available_charging_power
  simp only
  split_ifs <;> rfl

theorem available_charging_power_command_requested_phases (s : State)
    (now P : Nat) :
    (available_charging_power_command s now P).1.requested_phases
      = s.requested_phases := by
  unfold available_charging_power_command
  simp only
  split_ifs
  · rw [set_available_charging_power_requested_phases]
  · rfl

theorem available_charging_power_command_sequencer_state (s : State)
    (now P : Nat) :
    (available_charging_power_command s now P).1.sequencer_state
      = s.sequencer_state := by
  unfold available_charging_power_command
  simp only
  split_ifs
  · rw [set_available_charging_power_sequencer_state]
  · rfl

theorem start_quick_charging_requested_phases (s : State) :
    (start_quick_charging s).1.requested_phases = s.requested_phases := by
  unfold start_quick_charging
  split_ifs <;> rfl

theorem start_quick_charging_sequencer_state (s : State) :
    (start_quick_charging s).1.sequencer_state = s.sequencer_state := by
  unfold start_quick_charging
  split_ifs <;> rfl

theorem handle_button_requested_phases (s : State) (now : Nat)
    (low : Option EvseLowLevelState) :
    (handle_button s now low).1.requested_phases = s.requested_phases := by
  unfold handle_button
  cases low with
  | none => rfl
  | some low =>
    simp only
    split_ifs <;>
      first
        | rfl
        | (show (start_quick_charging _).1.requested_phases = _
           rw [start_quick_charging_requested_phases])

theorem handle_button_sequencer_state (s : State) (now : Nat)
    (low : Option EvseLowLevelState) :
    (handle_button s now low).1.sequencer_state = s.sequencer_state := by
  unfold handle_button
  cases low with
  | none => rfl
  | some low =>
    simp only
    split_ifs <;>
      first
        | rfl
        | (show (start_quick_charging _).1.sequencer_state = _
           rw [start_quick_charging_sequencer_state])

/-! ## Top-level gate of the sequencer -/

theorem handle_evse_gate (s : State) (now : Nat) (evse : EvseState)
    (auto_start : Bool)
    (h : s.enabled = false ∨ evse.charger_state = ChargerState.not_connected
      ∨ evse.charger_state = ChargerState.error) :
    (handle_evse s now (some evse) (some auto_start)).1
      = { handle_evse_read s evse auto_start with
          sequencer_state := PhaseSwitcherState.inactive
          quick_charging_active := false
          requested_phases := 0 } := by
  have h2 : (handle_evse_read s evse auto_start).enabled = false
      ∨ (handle_evse_read s evse auto_start).charger_state
          = ChargerState.not_connected
      ∨ (handle_evse_read s evse auto_start).charger_state
          = ChargerState.error := h
  simp only [handle_evse]
  rw [if_pos h2]

theorem handle_evse_no_gate (s : State) (now : Nat) (evse : EvseState)
    (auto_start : Bool)
    (h : ¬ (s.enabled = false ∨ evse.charger_state = ChargerState.not_connected
      ∨ evse.charger_state = ChargerState.error)) :
    handle_evse s now (some evse) (some auto_start)
      = (handle_evse_stamp
          (sequencer_dispatch (handle_evse_read s evse auto_start) now).1 now,
         (sequencer_dispatch (handle_evse_read s evse auto_start) now).2) := by
  have h2 : ¬ ((handle_evse_read s evse auto_start).enabled = false
      ∨ (handle_evse_read s evse auto_start).charger_state
          = ChargerState.not_connected
      ∨ (handle_evse_read s evse auto_start).charger_state
          = ChargerState.error) := h
  simp only [handle_evse]
  rw [if_neg h2]

theorem handle_evse_stamp_requested_phases (s : State) (now : Nat) :
    (handle_evse_stamp s now).requested_phases = s.requested_phases := by
  unfold handle_evse_stamp
  split_ifs <;> rfl

theorem handle_evse_stamp_sequencer_state (s : State) (now : Nat) :
    (handle_evse_stamp s now).sequencer_state = s.sequencer_state := by
  unfold handle_evse_stamp
  split_ifs <;> rfl

/-- C3: in a tick in which `enabled` is false or the charger state read from
the EVSE is `not_connected` or `error`, `handle_evse` leaves
`sequencer_state = inactive`, `quick_charging_active = false` and
`requested_phases = 0`, whatever the prior state; and `sequencer_state =
inactive` and `requested_phases = 0` still hold after `write_outputs` and
`contactor_check` have run on that state, whatever they read. -/
theorem handle_evse_gate_forces_inactive (s : State) (now : Nat)
    (evse : EvseState) (auto_start : Bool)
    (h : s.enabled = false ∨ evse.charger_state = ChargerState.not_connected
      ∨ evse.charger_state = ChargerState.error) :
    (handle_evse s now (some evse) (some auto_start)).1.sequencer_state
        = PhaseSwitcherState.inactive
    ∧ (handle_evse s now (some evse) (some auto_start)).1.quick_charging_active
        = false
    ∧ (handle_evse s now (some evse) (some auto_start)).1.requested_phases = 0
    ∧ ∀ (low : Option EvseLowLevelState) (relay_ok : Nat → Bool) (now2 : Nat)
        (evse2 : Option EvseState) (digital_in quad_relay : Option ChannelValues)
        (e0 : Bool),
        (run (handle_evse s now (some evse) (some auto_start)).1
            [Op.write_outputs low relay_ok,
             Op.contactor_check now2 evse2 digital_in quad_relay e0]).sequencer_state
          = PhaseSwitcherState.inactive
        ∧ (run (handle_evse s now (some evse) (some auto_start)).1
            [Op.write_outputs low relay_ok,
             Op.contactor_check now2 evse2 digital_in quad_relay e0]).requested_phases
          = 0 := by
  rw [handle_evse_gate s now evse auto_start h]
  refine ⟨rfl, rfl, rfl, ?_⟩
  intro low relay_ok now2 evse2 digital_in quad_relay e0
  simp only [run, Op.apply]
  exact ⟨contactor_check_inactive _ _ _ _ _ _ rfl,
    by rw [contactor_check_requested_phases]⟩

/-- Witness of C3: a disabled module that was `active` with three phases. -/
theorem handle_evse_gate_forces_inactive_witness :
    ((initial_state false 123 10 10 10 10).enabled = false
      ∨ ChargerState.charging = ChargerState.not_connected
      ∨ ChargerState.charging = ChargerState.error)
    ∧ (handle_evse
        { initial_state false 123 10 10 10 10 with
          sequencer_state := PhaseSwitcherState.active
          requested_phases := 3 } 0
        (some ⟨ChargerState.charging, IEC61851State.c_charging, 3⟩)
        (some true)).1.sequencer_state = PhaseSwitcherState.inactive :=
  ⟨Or.inl rfl,
    (handle_evse_gate_forces_inactive
      { initial_state false 123 10 10 10 10 with
        sequencer_state := PhaseSwitcherState.active
        requested_phases := 3 } 0
      ⟨ChargerState.charging, IEC61851State.c_charging, 3⟩ true
      (Or.inl rfl)).1⟩

/-! ## Output shaper -/

/-- When every call succeeds the loop makes one call per entry. -/
theorem write_channels_all_ok (relay_ok : Nat → Bool)
    (h : ∀ channel, relay_ok channel = true) (channel : Nat) (l : List Bool) :
    write_channels relay_ok channel l
      = (List.zip (List.range' channel l.length) l).map
          (fun p => if p.2 = true then Effect.set_monoflop p.1 true 2000
            else Effect.set_selected_value p.1 false) := by
  induction l generalizing channel with
  | nil => rfl
  | cons b l ih =>
    simp only [write_channels, h, if_true, List.length_cons, List.range'_succ,
      List.zip_cons_cons, List.map_cons, ih]

theorem write_channels_off (relay_ok : Nat → Bool) (channel : Nat)
    (l : List Bool) (hl : ∀ b ∈ l, b = false) :
    ∀ e ∈ write_channels relay_ok channel l,
      ∃ k, channel ≤ k ∧ k < channel + l.length
        ∧ e = Effect.set_selected_value k false := by
  induction l generalizing channel with
  | nil => intro e he; simp [write_channels] at he
  | cons b l ih =>
    intro e he
    have hb : b = false := hl b (List.mem_cons_self _ _)
    have hl2 : ∀ b ∈ l, b = false := fun x hx => hl x (List.mem_cons_of_mem _ hx)
    subst hb
    simp only [write_channels, Bool.false_eq_true, if_false] at he
    by_cases hr : relay_ok channel = true
    · rw [if_pos hr] at he
      rcases List.mem_cons.mp he with he | he
      · exact ⟨channel, le_refl _, by simp, he⟩
      · obtain ⟨k, hk1, hk2, hk3⟩ := ih (channel + 1) hl2 e he
        exact ⟨k, by omega, by simp only [List.length_cons]; omega, hk3⟩
    · rw [if_neg hr] at he
      rw [List.mem_singleton] at he
      exact ⟨channel, le_refl _, by simp, he⟩

theorem channel_request_contactor_error (s : State) (evse_relay_output : Bool)
    (h : s.contactor_error = true) :
    channel_request s evse_relay_output = [false, false, false, false] := by
  unfold channel_request
  rw [if_neg]
  simp [h]

theorem channel_request_zero (s : State) (evse_relay_output : Bool)
    (he : s.enabled = true) (h0 : s.requested_phases = 0) :
    channel_request s evse_relay_output = [false, false, false, false] := by
  unfold channel_request
  simp only [he, h0, if_true]
  split_ifs <;> rfl

theorem write_outputs_all_off (s : State) (low : Option EvseLowLevelState)
    (relay_ok : Nat → Bool)
    (h : ∀ b, channel_request s b = [false, false, false, false]) :
    ∀ e ∈ write_outputs s low relay_ok,
      ∃ channel, channel ≤ 3 ∧ e = Effect.set_selected_value channel false := by
  intro e he
  unfold write_outputs at he
  cases low with
  | none => simp at he
  | some low =>
    simp only [h low.gpio_3] at he
    obtain ⟨k, _, hk2, hk3⟩ := write_channels_off relay_ok 0 _ (by simp) e he
    exact ⟨k, by simp at hk2; omega, hk3⟩

/-- C5: when `contactor_error` is set as `write_outputs` runs, every call it
makes is a steady-off command `set_selected_value channel false` to one of
the channels 0..3: no channel is commanded on, whatever `enabled`,
`requested_phases`, the EVSE relay output and the return codes are. -/
theorem write_outputs_contactor_error_all_off (s : State)
    (low : Option EvseLowLevelState) (relay_ok : Nat → Bool)
    (h : s.contactor_error = true) :
    ∀ e ∈ write_outputs s low relay_ok,
      ∃ channel, channel ≤ 3 ∧ e = Effect.set_selected_value channel false :=
  write_outputs_all_off s low relay_ok
    (fun b => channel_request_contactor_error s b h)

/-- Witness of C5: three phases requested, EVSE relay output on, latch set. -/
theorem write_outputs_contactor_error_all_off_witness :
    ({ initial_state true 123 10 10 10 10 with
        requested_phases := 3, contactor_error := true }).contactor_error = true
    ∧ ∀ e ∈ write_outputs
        { initial_state true 123 10 10 10 10 with
          requested_phases := 3, contactor_error := true }
        (some ⟨false, true⟩) (fun _ => true),
      ∃ channel, channel ≤ 3 ∧ e = Effect.set_selected_value channel false :=
  ⟨rfl, write_outputs_contactor_error_all_off _ _ _ rfl⟩

/-- Entry `k` of `channel_request` by a closed formula. -/
theorem channel_request_eq (s : State) (evse_relay_output : Bool) :
    channel_request s evse_relay_output
      = (List.range 4).map (fun k => decide (1 ≤ k ∧ evse_relay_output = true
          ∧ s.contactor_error = false
          ∧ (s.enabled = false ∨ k ≤ s.requested_phases))) := by
  unfold channel_request
  have hr : List.range 4 = [0, 1, 2, 3] := by decide
  rw [hr]
  by_cases h1 : evse_relay_output = true ∧ s.contactor_error = false
  · rw [if_pos h1]
    obtain ⟨h1a, h1b⟩ := h1
    by_cases h2 : s.enabled = true
    · rw [if_pos h2]
      rcases hp : s.requested_phases with _ | _ | _ | n
      · simp [h1a, h1b, h2]
      · simp [h1a, h1b, h2]
      · simp [h1a, h1b, h2]
      · simp [h1a, h1b, h2]
    · rw [if_neg h2]
      simp at h2
      simp [h1a, h1b, h2]
  · rw [if_neg h1]
    simp only [List.map_cons, List.map_nil]
    have : ∀ k : Nat, decide (1 ≤ k ∧ evse_relay_output = true
          ∧ s.contactor_error = false
          ∧ (s.enabled = false ∨ k ≤ s.requested_phases)) = false := by
      intro k
      rw [decide_eq_false_iff_not]
      intro hh
      exact h1 ⟨hh.2.1, hh.2.2.1⟩
    simp only [this]

theorem write_channels_prefix (relay_ok : Nat → Bool) (channel : Nat)
    (l : List Bool) :
    write_channels relay_ok channel l
      <+: write_channels (fun _ => true) channel l := by
  induction l generalizing channel with
  | nil => exact List.prefix_refl _
  | cons b l ih =>
    simp only [write_channels, if_true]
    by_cases hr : relay_ok channel = true
    · rw [if_pos hr]
      exact (List.prefix_cons_inj _).mpr (ih (channel + 1))
    · rw [if_neg hr]
      exact ⟨_, rfl⟩

/-- The four calls of `write_outputs` when every call succeeds. -/
theorem write_outputs_all_ok (s : State) (low : EvseLowLevelState)
    (relay_ok : Nat → Bool) (h : ∀ channel, relay_ok channel = true) :
    write_outputs s (some low) relay_ok
      = [0, 1, 2, 3].map (fun k =>
          if 1 ≤ k ∧ low.gpio_3 = true ∧ s.contactor_error = false
              ∧ (s.enabled = false ∨ k ≤ s.requested_phases)
          then Effect.set_monoflop k true 2000
          else Effect.set_selected_value k false) := by
  unfold write_outputs
  simp only
  rw [write_channels_all_ok relay_ok h, channel_request_eq]
  have hr : List.range 4 = [0, 1, 2, 3] := by decide
  simp only [hr, List.map_cons, List.map_nil, List.length_cons, List.length_nil]
  have hr2 : List.range' 0 (0 + 1 + 1 + 1 + 1) = [0, 1, 2, 3] := by decide
  simp only [hr2, List.zip_cons_cons, List.zip_nil_right, List.map_cons,
    List.map_nil, decide_eq_true_eq]

/-- C6: `write_outputs`, reading the EVSE relay output, goes through the
channels 0, 1, 2, 3 in this order and makes for channel `k` the call
`set_monoflop k true 2000` when `k` is 1, 2 or 3, the EVSE relay output is
on, `contactor_error` is false and (`enabled` is false or
`k ≤ requested_phases`), and the steady call `set_selected_value k false`
otherwise, so always for channel 0.  The calls made are a prefix of this
list of four (the loop returns after a failed call), and all four are made
when every call returns `TF_E_OK`. -/
theorem write_outputs_channel_commands (s : State) (low : EvseLowLevelState)
    (relay_ok : Nat → Bool) :
    (write_outputs s (some low) relay_ok
      <+: [0, 1, 2, 3].map (fun k =>
          if 1 ≤ k ∧ low.gpio_3 = true ∧ s.contactor_error = false
              ∧ (s.enabled = false ∨ k ≤ s.requested_phases)
          then Effect.set_monoflop k true 2000
          else Effect.set_selected_value k false))
    ∧ ((∀ channel, relay_ok channel = true) →
      write_outputs s (some low) relay_ok
        = [0, 1, 2, 3].map (fun k =>
            if 1 ≤ k ∧ low.gpio_3 = true ∧ s.contactor_error = false
                ∧ (s.enabled = false ∨ k ≤ s.requested_phases)
            then Effect.set_monoflop k true 2000
            else Effect.set_selected_value k false)) := by
  refine ⟨?_, write_outputs_all_ok s low relay_ok⟩
  rw [← write_outputs_all_ok s low (fun _ => true) (fun _ => rfl)]
  exact write_channels_prefix relay_ok 0 _

/-- Witness of C6: two phases requested, EVSE relay output on. -/
theorem write_outputs_channel_commands_witness :
    (∀ channel : Nat, (fun _ => true) channel = true)
    ∧ write_outputs { initial_state true 123 10 10 10 10 with requested_phases := 2 }
        (some ⟨false, true⟩) (fun _ => true)
      = [Effect.set_selected_value 0 false, Effect.set_monoflop 1 true 2000,
         Effect.set_monoflop 2 true 2000, Effect.set_selected_value 3 false] :=
  ⟨fun _ => rfl,
    ((write_outputs_channel_commands
      { initial_state true 123 10 10 10 10 with requested_phases := 2 }
      ⟨false, true⟩ (fun _ => true)).2 (fun _ => rfl)).trans (by decide)⟩

/-- C8, as stated, fails: a disabled module (bypass mode) whose tick reads
`charger_state = not_connected` is `inactive` after `handle_evse`, and
`write_outputs` then commands channels 1, 2 and 3 on when the EVSE relay
output is on and `contactor_error` is false. -/
theorem write_outputs_not_connected_bypass_counterexample :
    (handle_evse (initial_state false 123 10 10 10 10) 0
        (some ⟨ChargerState.not_connected, IEC61851State.a_not_connected, 0⟩)
        (some false)).1.charger_state = ChargerState.not_connected
    ∧ (handle_evse (initial_state false 123 10 10 10 10) 0
        (some ⟨ChargerState.not_connected, IEC61851State.a_not_connected, 0⟩)
        (some false)).1.sequencer_state = PhaseSwitcherState.inactive
    ∧ write_outputs
        (handle_evse (initial_state false 123 10 10 10 10) 0
          (some ⟨ChargerState.not_connected, IEC61851State.a_not_connected, 0⟩)
          (some false)).1
        (some ⟨false, true⟩) (fun _ => true)
      = [Effect.set_selected_value 0 false, Effect.set_monoflop 1 true 2000,
         Effect.set_monoflop 2 true 2000, Effect.set_monoflop 3 true 2000] := by
  decide

/-- C8 as amended: in a tick whose `handle_evse` reads `charger_state =
not_connected`, `sequencer_state` is `inactive` after the sequencer step;
with `enabled` true every call of `write_outputs` is a steady-off command,
for every EVSE relay output, `contactor_error` and return code; with
`enabled` false (bypass) and all calls succeeding, channels 1, 2, 3 get
the monoflop exactly when the EVSE relay output is on and `contactor_error`
is false, and steady off otherwise. -/
theorem write_outputs_not_connected (s : State) (now : Nat) (evse : EvseState)
    (auto_start : Bool)
    (hc : evse.charger_state = ChargerState.not_connected) :
    (handle_evse s now (some evse) (some auto_start)).1.sequencer_state
        = PhaseSwitcherState.inactive
    ∧ (s.enabled = true →
        ∀ (low : Option EvseLowLevelState) (relay_ok : Nat → Bool),
        ∀ e ∈ write_outputs (handle_evse s now (some evse) (some auto_start)).1
            low relay_ok,
          ∃ channel, channel ≤ 3 ∧ e = Effect.set_selected_value channel false)
    ∧ (s.enabled = false →
        ∀ (low : EvseLowLevelState) (relay_ok : Nat → Bool),
        (∀ channel, relay_ok channel = true) →
        write_outputs (handle_evse s now (some evse) (some auto_start)).1
            (some low) relay_ok
          = if low.gpio_3 = true ∧ s.contactor_error = false then
              [Effect.set_selected_value 0 false, Effect.set_monoflop 1 true 2000,
               Effect.set_monoflop 2 true 2000, Effect.set_monoflop 3 true 2000]
            else
              [Effect.set_selected_value 0 false, Effect.set_selected_value 1 false,
               Effect.set_selected_value 2 false, Effect.set_selected_value 3 false]) := by
  have hg := handle_evse_gate s now evse auto_start (Or.inr (Or.inl hc))
  have hen : (handle_evse s now (some evse) (some auto_start)).1.enabled
      = s.enabled := by rw [hg]; rfl
  have hce : (handle_evse s now (some evse) (some auto_start)).1.contactor_error
      = s.contactor_error := by rw [hg]; rfl
  have hrp : (handle_evse s now (some evse) (some auto_start)).1.requested_phases
      = 0 := by rw [hg]
  have hss : (handle_evse s now (some evse) (some auto_start)).1.sequencer_state
      = PhaseSwitcherState.inactive := by rw [hg]
  refine ⟨hss, ?_, ?_⟩
  · intro he low relay_ok
    exact write_outputs_all_off _ low relay_ok
      (fun b => channel_request_zero _ b (hen.trans he) hrp)
  · intro he low relay_ok hok
    rw [write_outputs_all_ok _ low relay_ok hok, hen, hce]
    simp only [he, true_or, and_true, List.map_cons, List.map_nil]
    by_cases hgp : low.gpio_3 = true ∧ s.contactor_error = false
    · simp [hgp]
    · rw [if_neg hgp]
      have h0 : ∀ k : Nat,
          ¬ (1 ≤ k ∧ low.gpio_3 = true ∧ s.contactor_error = false) :=
        fun k hk => hgp hk.2
      simp only [h0, if_false]

/-- Witness of C8 as amended: an enabled module, EVSE relay output on. -/
theorem write_outputs_not_connected_witness :
    (EvseState.mk ChargerState.not_connected IEC61851State.a_not_connected 0).charger_state
        = ChargerState.not_connected
    ∧ (handle_evse
        { initial_state true 123 10 10 10 10 with
          sequencer_state := PhaseSwitcherState.stopped_by_evse
          requested_phases := 3 } 0
        (some ⟨ChargerState.not_connected, IEC61851State.a_not_connected, 0⟩)
        (some false)).1.sequencer_state = PhaseSwitcherState.inactive :=
  ⟨rfl,
    (write_outputs_not_connected
      { initial_state true 123 10 10 10 10 with
        sequencer_state := PhaseSwitcherState.stopped_by_evse
        requested_phases := 3 } 0
      ⟨ChargerState.not_connected, IEC61851State.a_not_connected, 0⟩ false rfl).1⟩

/-! ## Contactor supervisor -/

/-- C10: in a tick of `contactor_check` (all reads succeeding) in which
`contactor_error` is set after the per-phase loop, `sequencer_state` becomes
`waiting_for_evse_stop` from `waiting_for_evse_start`, `active` and
`quick_charging`, stays `waiting_for_evse_stop`, and becomes `inactive` from
every other state; so it ends as `inactive` or `waiting_for_evse_stop`. -/
theorem contactor_check_latched_sequencer_state (s : State) (now : Nat)
    (evse : EvseState) (digital_in quad_relay : Option ChannelValues)
    (e0 : Bool) (r : ContactorReadings)
    (hr : contactor_readings evse digital_in quad_relay = some r)
    (hl : (contactor_check_phases s now r).1.contactor_error = true) :
    ((s.sequencer_state = PhaseSwitcherState.waiting_for_evse_start
        ∨ s.sequencer_state = PhaseSwitcherState.active
        ∨ s.sequencer_state = PhaseSwitcherState.quick_charging) →
      (contactor_check s now (some evse) digital_in quad_relay e0).sequencer_state
        = PhaseSwitcherState.waiting_for_evse_stop)
    ∧ (s.sequencer_state = PhaseSwitcherState.waiting_for_evse_stop →
      (contactor_check s now (some evse) digital_in quad_relay e0).sequencer_state
        = PhaseSwitcherState.waiting_for_evse_stop)
    ∧ ((s.sequencer_state = PhaseSwitcherState.inactive
        ∨ s.sequencer_state = PhaseSwitcherState.standby
        ∨ s.sequencer_state = PhaseSwitcherState.cancelling_evse_start
        ∨ s.sequencer_state = PhaseSwitcherState.pausing_while_switching
        ∨ s.sequencer_state = PhaseSwitcherState.stopped_by_evse) →
      (contactor_check s now (some evse) digital_in quad_relay e0).sequencer_state
        = PhaseSwitcherState.inactive)
    ∧ ((contactor_check s now (some evse) digital_in quad_relay e0).sequencer_state
          = PhaseSwitcherState.inactive
        ∨ (contactor_check s now (some evse) digital_in quad_relay e0).sequencer_state
          = PhaseSwitcherState.waiting_for_evse_stop) := by
  have key : (contactor_check s now (some evse) digital_in quad_relay e0).sequencer_state
      = if s.sequencer_state = PhaseSwitcherState.waiting_for_evse_start
              ∨ s.sequencer_state = PhaseSwitcherState.active
              ∨ s.sequencer_state = PhaseSwitcherState.quick_charging
              ∨ s.sequencer_state = PhaseSwitcherState.waiting_for_evse_stop
        then PhaseSwitcherState.waiting_for_evse_stop
        else PhaseSwitcherState.inactive := by
    unfold contactor_check
    simp only [hr]
    rw [contactor_check_clear_sequencer_state, contactor_check_sequencer_state_eq,
      if_pos hl, contactor_check_phases_sequencer_state]
  rw [key]
  cases hs : s.sequencer_state <;> simp

/-- Witness of C10: phase 2 commanded on without feedback for more than 2 s
while `active`. -/
theorem contactor_check_latched_sequencer_state_witness :
    contactor_readings ⟨ChargerState.charging, IEC61851State.c_charging, 3⟩
        (some ⟨false, false, false, true⟩) (some ⟨false, true, true, true⟩)
      = some ⟨true, false, true, true, true, true⟩
    ∧ (contactor_check
        { initial_state true 123 10 10 10 10 with
          sequencer_state := PhaseSwitcherState.active
          requested_phases := 3 } 5000
        (some ⟨ChargerState.charging, IEC61851State.c_charging, 3⟩)
        (some ⟨false, false, false, true⟩) (some ⟨false, true, true, true⟩)
        false).sequencer_state = PhaseSwitcherState.waiting_for_evse_stop :=
  ⟨rfl,
    (contactor_check_latched_sequencer_state
      { initial_state true 123 10 10 10 10 with
        sequencer_state := PhaseSwitcherState.active
        requested_phases := 3 } 5000
      ⟨ChargerState.charging, IEC61851State.c_charging, 3⟩
      (some ⟨false, false, false, true⟩) (some ⟨false, true, true, true⟩)
      false ⟨true, false, true, true, true, true⟩ rfl (by decide)).1
      (Or.inr (Or.inl rfl))⟩

theorem deadline_elapsed_of_window (now start d : Nat) (hd : d < 2 ^ 31)
    (hw : sub_u32 now start < 2 ^ 31) :
    deadline_elapsed now (add_u32 start d) = true ↔ d ≤ sub_u32 now start := by
  unfold deadline_elapsed
  rw [decide_eq_true_iff]
  unfold sub_u32 add_u32 at *
  norm_num at *
  omega

theorem deadline_not_elapsed_of_now (now d : Nat) (h0 : 0 < d)
    (hd : d ≤ 2 ^ 31) :
    deadline_elapsed now (add_u32 now d) = false := by
  unfold deadline_elapsed
  rw [decide_eq_false_iff_not]
  unfold sub_u32 add_u32
  norm_num at *
  omega

theorem contactor_check_phase_latch (now : Nat) (input output : Bool)
    (watchdog_start : Nat) (latch : Bool) :
    (contactor_check_phase now input output watchdog_start latch).2.2
      = (latch || (decide (input ≠ output)
          && deadline_elapsed now (add_u32 watchdog_start 2000))) := by
  unfold contactor_check_phase
  by_cases hio : input = output
  · simp only [hio, if_true, deadline_not_elapsed_of_now now 2000 (by norm_num)
      (by norm_num)]
    simp
  · simp only [hio, if_false]
    cases latch <;> cases hd : deadline_elapsed now (add_u32 watchdog_start 2000) <;>
      simp [hio]

theorem contactor_check_phases_latch_eq (s : State) (now : Nat)
    (r : ContactorReadings) :
    (contactor_check_phases s now r).1.contactor_error
      = (s.contactor_error
          || (decide (r.input_phase_1 ≠ r.output_phase_1)
                && deadline_elapsed now (add_u32 s.watchdog_start_1 2000))
          || (decide (r.input_phase_2 ≠ r.output_phase_2)
                && deadline_elapsed now (add_u32 s.watchdog_start_2 2000))
          || (decide (r.input_phase_3 ≠ r.output_phase_3)
                && deadline_elapsed now (add_u32 s.watchdog_start_3 2000))) := by
  unfold contactor_check_phases
  simp only [contactor_check_phase_latch]

theorem contactor_check_sequencer_contactor_error (s : State) :
    (contactor_check_sequencer s).contactor_error = s.contactor_error
    ∧ (contactor_check_sequencer s).charger_state = s.charger_state := by
  unfold contactor_check_sequencer
  split_ifs
  · split <;> exact ⟨rfl, rfl⟩
  · exact ⟨rfl, rfl⟩

theorem contactor_check_phases_charger_state (s : State) (now : Nat)
    (r : ContactorReadings) :
    (contactor_check_phases s now r).1.charger_state = s.charger_state := by
  unfold contactor_check_phases
  rfl

/-- With a vehicle connected the last statement of `contactor_check` does
nothing: the latch after the call is the latch after the per-phase loop. -/
theorem contactor_check_connected_latch (s : State) (now : Nat)
    (evse : EvseState) (digital_in quad_relay : Option ChannelValues)
    (e0 : Bool) (r : ContactorReadings)
    (hr : contactor_readings evse digital_in quad_relay = some r)
    (hc : s.charger_state ≠ ChargerState.not_connected) :
    (contactor_check s now (some evse) digital_in quad_relay e0).contactor_error
      = (contactor_check_phases s now r).1.contactor_error := by
  unfold contactor_check
  simp only [hr]
  have h1 := contactor_check_sequencer_contactor_error
    (contactor_check_phases s now r).1
  have h2 : (contactor_check_sequencer (contactor_check_phases s now r).1).charger_state
      ≠ ChargerState.not_connected := by
    rw [h1.2, contactor_check_phases_charger_state]
    exact hc
  unfold contactor_check_clear
  rw [if_neg (fun h => h2 h.1)]
  exact h1.1

/-! ## A new latch and the clearing statement -/

theorem deadline_elapsed_iff_age (now start d : Nat) (hd : d < 2 ^ 31) :
    deadline_elapsed now (add_u32 start d) = true
      ↔ d ≤ sub_u32 now start ∧ sub_u32 now start < 2 ^ 31 + d := by
  unfold deadline_elapsed
  rw [decide_eq_true_iff]
  unfold sub_u32 add_u32 at *
  norm_num at *
  omega

theorem contactor_check_phase_flag (now : Nat) (input output : Bool)
    (watchdog_start : Nat) (latch : Bool) :
    (contactor_check_phase now input output watchdog_start latch).2.1
      = (!latch && (decide (input ≠ output)
          && deadline_elapsed now (add_u32 watchdog_start 2000))) := by
  unfold contactor_check_phase
  by_cases hio : input = output
  · simp only [hio, if_true, deadline_not_elapsed_of_now now 2000 (by norm_num)
      (by norm_num)]
    simp
  · simp only [hio, if_false]
    cases latch <;> cases hd : deadline_elapsed now (add_u32 watchdog_start 2000) <;>
      simp [hio]

theorem contactor_check_clear_contactor_error (t : State) (e0 e1 e2 : Bool) :
    (contactor_check_clear t e0 e1 e2).contactor_error
      = (t.contactor_error
          && !(decide (t.charger_state = ChargerState.not_connected)
                && !e0 && !e1 && !e2)) := by
  unfold contactor_check_clear
  by_cases hc : t.charger_state = ChargerState.not_connected
  · cases e0 <;> cases e1 <;> cases e2 <;> simp [hc]
  · simp [hc]

/-- The member `contactor_error` after a call of `contactor_check` that starts
unlatched and reads both bricklets: a fault found on phase 1 or 2 latches
it; a fault found on phase 3 alone latches it only with a vehicle
connected or when the unwritten local `contactor_error[0]` reads true. -/
theorem contactor_check_new_latch_eq (s : State) (now : Nat)
    (evse : EvseState) (input output : ChannelValues) (e0 : Bool)
    (h0 : s.contactor_error = false) :
    (contactor_check s now (some evse) (some input) (some output)
        e0).contactor_error
      = ((decide (decide (evse.contactor_state = 3) ≠ output.value_1)
            && deadline_elapsed now (add_u32 s.watchdog_start_1 2000))
        || (decide (input.value_2 ≠ output.value_2)
            && deadline_elapsed now (add_u32 s.watchdog_start_2 2000))
        || (decide (input.value_3 ≠ output.value_3)
            && deadline_elapsed now (add_u32 s.watchdog_start_3 2000)
            && !(decide (s.charger_state = ChargerState.not_connected)
                  && !e0))) := by
  unfold contactor_check
  simp only [contactor_readings]
  rw [contactor_check_clear_contactor_error]
  rw [(contactor_check_sequencer_contactor_error _).1,
    (contactor_check_sequencer_contactor_error _).2,
    contactor_check_phases_charger_state, contactor_check_phases_latch_eq]
  unfold contactor_check_phases
  simp only [contactor_check_phase_flag, contactor_check_phase_latch, h0]
  generalize deadline_elapsed now (add_u32 s.watchdog_start_1 2000) = d1
  generalize deadline_elapsed now (add_u32 s.watchdog_start_2 2000) = d2
  generalize deadline_elapsed now (add_u32 s.watchdog_start_3 2000) = d3
  generalize decide (s.charger_state = ChargerState.not_connected) = nc
  generalize decide (decide (evse.contactor_state = 3) ≠ output.value_1) = m1
  generalize decide (input.value_2 ≠ output.value_2) = m2
  generalize decide (input.value_3 ≠ output.value_3) = m3
  cases d1 <;> cases d2 <;> cases d3 <;> cases nc <;> cases m1 <;>
    cases m2 <;> cases m3 <;> cases e0 <;> rfl

/-- The same with ages: the age of a watchdog timestamp is the 32-bit
difference `now - watchdog_start[i]`, and the wrap-safe comparison finds
the 2000 ms elapsed for ages from 2000 up to `2 ^ 31 + 2000` ms. -/
theorem contactor_check_new_latch_iff (s : State) (now : Nat)
    (evse : EvseState) (input output : ChannelValues) (e0 : Bool)
    (h0 : s.contactor_error = false) :
    (contactor_check s now (some evse) (some input) (some output)
        e0).contactor_error = true
      ↔ ((output.value_1 ≠ decide (evse.contactor_state = 3)
            ∧ 2000 ≤ sub_u32 now s.watchdog_start_1
            ∧ sub_u32 now s.watchdog_start_1 < 2 ^ 31 + 2000)
          ∨ (output.value_2 ≠ input.value_2
            ∧ 2000 ≤ sub_u32 now s.watchdog_start_2
            ∧ sub_u32 now s.watchdog_start_2 < 2 ^ 31 + 2000)
          ∨ (output.value_3 ≠ input.value_3
            ∧ (2000 ≤ sub_u32 now s.watchdog_start_3
              ∧ sub_u32 now s.watchdog_start_3 < 2 ^ 31 + 2000)
            ∧ ¬ (s.charger_state = ChargerState.not_connected
                  ∧ e0 = false))) := by
  rw [contactor_check_new_latch_eq s now evse input output e0 h0]
  rw [← deadline_elapsed_iff_age now s.watchdog_start_1 2000 (by norm_num),
    ← deadline_elapsed_iff_age now s.watchdog_start_2 2000 (by norm_num),
    ← deadline_elapsed_iff_age now s.watchdog_start_3 2000 (by norm_num)]
  simp only [Bool.or_eq_true, Bool.and_eq_true, decide_eq_true_eq,
    Bool.not_eq_true', Bool.not_eq_eq_eq_not, Bool.not_true, ne_eq,
    Bool.decide_eq_false, Bool.and_eq_false_imp, not_and, or_assoc]
  constructor
  · rintro (⟨h1, h2⟩ | ⟨h1, h2⟩ | ⟨⟨h1, h2⟩, h3⟩)
    · exact Or.inl ⟨fun h => h1 h.symm, h2⟩
    · exact Or.inr (Or.inl ⟨fun h => h1 h.symm, h2⟩)
    · refine Or.inr (Or.inr ⟨fun h => h1 h.symm, h2, ?_⟩)
      intro hc
      cases e0
      · simp [hc] at h3
      · simp
  · rintro (⟨h1, h2⟩ | ⟨h1, h2⟩ | ⟨h1, h2, h3⟩)
    · exact Or.inl ⟨fun h => h1 h.symm, h2⟩
    · exact Or.inr (Or.inl ⟨fun h => h1 h.symm, h2⟩)
    · refine Or.inr (Or.inr ⟨⟨fun h => h1 h.symm, h2⟩, ?_⟩)
      by_cases hc : s.charger_state = ChargerState.not_connected
      · have := h3 hc
        cases e0
        · simp at this
        · simp
      · simp [hc]

/-- C9 fails on the code.  After `scenario_contactors_agree_unplugged` no
vehicle is connected, `contactor_error` is false and the three watchdog
timestamps are 1000 ms.  At 3250 ms the feedback of phase 3 is on while
its relay is off, a mismatch that has lasted 2250 ms; the unwritten local
`contactor_error[0]` reads false.  The loop sets `contactor_error` with
the local flags false, false, true, and the call ends with
`contactor_error` false, as does the next call 250 ms later.  The same
mismatch on phase 2, or on phase 3 with a vehicle connected
(`charger_state = waiting_for_charge_release`), ends with
`contactor_error` true; with every feedback in agreement the call
ends with `contactor_error` false. -/
theorem contactor_check_drops_new_latch_of_phase_3 :
    (run (initial_state true 123 10 10 10 10)
        scenario_contactors_agree_unplugged).contactor_error = false
    ∧ (run (initial_state true 123 10 10 10 10)
        scenario_contactors_agree_unplugged).charger_state
      = ChargerState.not_connected
    ∧ (run (initial_state true 123 10 10 10 10)
        scenario_contactors_agree_unplugged).watchdog_start_3 = 1000
    ∧ 2000 ≤ sub_u32 3250 (run (initial_state true 123 10 10 10 10)
        scenario_contactors_agree_unplugged).watchdog_start_3
    ∧ contactor_readings evse_not_connected
        (some ⟨false, false, false, true⟩) (some ⟨false, false, false, false⟩)
      = some ⟨false, false, true, false, false, false⟩
    ∧ contactor_check_phases (run (initial_state true 123 10 10 10 10)
          scenario_contactors_agree_unplugged) 3250
          ⟨false, false, true, false, false, false⟩
      = ({ run (initial_state true 123 10 10 10 10)
            scenario_contactors_agree_unplugged with
            watchdog_start_1 := 3250
            watchdog_start_2 := 3250
            contactor_error := true }, false, false, true)
    ∧ (contactor_check (run (initial_state true 123 10 10 10 10)
          scenario_contactors_agree_unplugged) 3250 (some evse_not_connected)
          (some ⟨false, false, false, true⟩)
          (some ⟨false, false, false, false⟩) false).contactor_error = false
    ∧ (contactor_check
          (contactor_check (run (initial_state true 123 10 10 10 10)
            scenario_contactors_agree_unplugged) 3250 (some evse_not_connected)
            (some ⟨false, false, false, true⟩)
            (some ⟨false, false, false, false⟩) false)
          3500 (some evse_not_connected)
          (some ⟨false, false, false, true⟩)
          (some ⟨false, false, false, false⟩) false).contactor_error = false
    ∧ (contactor_check (run (initial_state true 123 10 10 10 10)
          scenario_contactors_agree_unplugged) 3250 (some evse_not_connected)
          (some ⟨false, false, true, false⟩)
          (some ⟨false, false, false, false⟩) false).contactor_error = true
    ∧ (contactor_check
          { run (initial_state true 123 10 10 10 10)
              scenario_contactors_agree_unplugged with
            charger_state := ChargerState.waiting_for_charge_release }
          3250 (some evse_waiting)
          (some ⟨false, false, false, true⟩)
          (some ⟨false, false, false, false⟩) false).contactor_error = true
    ∧ (contactor_check (run (initial_state true 123 10 10 10 10)
          scenario_contactors_agree_unplugged) 3250 (some evse_not_connected)
          (some ⟨false, false, false, false⟩)
          (some ⟨false, false, false, false⟩) false).contactor_error
      = false := by
  decide

/-! ## The committed phase count while `active` -/

theorem sequencer_state_active_requested_phases (s : State) (now : Nat) :
    (sequencer_state_active s now).1.requested_phases = s.requested_phases := by
  unfold sequencer_state_active
  simp only
  split_ifs <;> rfl

theorem handle_evse_active_requested_phases (s : State) (now : Nat)
    (evse : Option EvseState) (auto_start : Option Bool)
    (h0 : s.sequencer_state = PhaseSwitcherState.active)
    (h1 : (handle_evse s now evse auto_start).1.sequencer_state
      = PhaseSwitcherState.active) :
    (handle_evse s now evse auto_start).1.requested_phases
      = s.requested_phases := by
  cases evse with
  | none => rfl
  | some evse =>
    cases auto_start with
    | none => rfl
    | some auto_start =>
      by_cases hg : s.enabled = false
          ∨ evse.charger_state = ChargerState.not_connected
          ∨ evse.charger_state = ChargerState.error
      · rw [handle_evse_gate s now evse auto_start hg] at h1
        simp at h1
      · rw [handle_evse_no_gate s now evse auto_start hg]
        have hd : sequencer_dispatch (handle_evse_read s evse auto_start) now
            = sequencer_state_active (handle_evse_read s evse auto_start) now := by
          have h0r : (handle_evse_read s evse auto_start).sequencer_state
              = PhaseSwitcherState.active := h0
          simp only [sequencer_dispatch, h0r]
        simp only [hd, handle_evse_stamp_requested_phases,
          sequencer_state_active_requested_phases]
        rfl

theorem apply_active_requested_phases (op : Op) (s : State)
    (h0 : s.sequencer_state = PhaseSwitcherState.active)
    (h1 : (op.apply s).1.sequencer_state = PhaseSwitcherState.active) :
    (op.apply s).1.requested_phases = s.requested_phases := by
  cases op with
  | handle_button now low => exact handle_button_requested_phases s now low
  | handle_evse now evse auto_start =>
    exact handle_evse_active_requested_phases s now evse auto_start h0 h1
  | write_outputs low relay_ok => rfl
  | contactor_check now evse digital_in quad_relay e0 =>
    exact contactor_check_requested_phases s now evse digital_in quad_relay e0
  | set_available_charging_power now P =>
    exact set_available_charging_power_requested_phases s now P
  | available_charging_power_command now P =>
    exact available_charging_power_command_requested_phases s now P
  | start_quick_charging => exact start_quick_charging_requested_phases s

theorem trace_head_mem (s : State) (ops : List Op) : s ∈ trace s ops := by
  cases ops <;> simp [trace]

theorem trace_active_requested_phases (ops : List Op) :
    ∀ s : State,
      (∀ t ∈ trace s ops, t.sequencer_state = PhaseSwitcherState.active) →
      ∀ t ∈ trace s ops, t.requested_phases = s.requested_phases := by
  induction ops with
  | nil =>
    intro s _ t ht
    simp only [trace, List.mem_singleton] at ht
    rw [ht]
  | cons op ops ih =>
    intro s h t ht
    simp only [trace, List.mem_cons] at ht h
    rcases ht with ht | ht
    · rw [ht]
    · have hs : s.sequencer_state = PhaseSwitcherState.active := h s (Or.inl rfl)
      have hn : (op.apply s).1.sequencer_state = PhaseSwitcherState.active :=
        h _ (Or.inr (trace_head_mem _ _))
      have hrest := ih (op.apply s).1 (fun u hu => h u (Or.inr hu)) t ht
      rw [hrest, apply_active_requested_phases op s hs hn]

/-- C4: every single operation (`handle_button`, `handle_evse`,
`write_outputs`, `contactor_check`, `set_available_charging_power`, the API
command, `start_quick_charging`) that starts and ends with
`sequencer_state = active` leaves `requested_phases` unchanged; hence along
every sequence of operations all of whose states are `active`,
`requested_phases` keeps the value it had in the first state. -/
theorem requested_phases_constant_while_active (s : State) :
    (∀ op : Op, s.sequencer_state = PhaseSwitcherState.active →
      (op.apply s).1.sequencer_state = PhaseSwitcherState.active →
      (op.apply s).1.requested_phases = s.requested_phases)
    ∧ (∀ ops : List Op,
      (∀ t ∈ trace s ops, t.sequencer_state = PhaseSwitcherState.active) →
      ∀ t ∈ trace s ops, t.requested_phases = s.requested_phases) :=
  ⟨fun op h0 h1 => apply_active_requested_phases op s h0 h1,
    fun ops => trace_active_requested_phases ops s⟩

/-! ## Where the committed phase count changes -/

theorem sequencer_state_inactive_requested_phases (s : State) :
    (sequencer_state_inactive s).1.requested_phases = s.requested_phases := by
  unfold sequencer_state_inactive
  split_ifs <;> rfl

theorem sequencer_state_cancelling_evse_start_requested_phases (s : State)
    (now : Nat) :
    (sequencer_state_cancelling_evse_start s now).1.requested_phases
      = s.requested_phases := by
  unfold sequencer_state_cancelling_evse_start
  simp only
  split_ifs <;> rfl

theorem sequencer_state_waiting_for_evse_start_requested_phases (s : State)
    (now : Nat) :
    (sequencer_state_waiting_for_evse_start s now).1.requested_phases
      = s.requested_phases := by
  unfold sequencer_state_waiting_for_evse_start
  simp only
  split_ifs <;> rfl

theorem sequencer_state_quick_charging_requested_phases (s : State)
    (now : Nat) :
    (sequencer_state_quick_charging s now).1.requested_phases
      = s.requested_phases := by
  unfold sequencer_state_quick_charging
  split_ifs
  · exact set_available_charging_power_requested_phases s now s.power
  · rfl

theorem sequencer_dispatch_requested_phases (s : State) (now : Nat)
    (h : (sequencer_dispatch s now).1.requested_phases ≠ s.requested_phases) :
    s.sequencer_state = PhaseSwitcherState.standby
    ∨ s.sequencer_state = PhaseSwitcherState.waiting_for_evse_stop
    ∨ s.sequencer_state = PhaseSwitcherState.pausing_while_switching
    ∨ s.sequencer_state = PhaseSwitcherState.stopped_by_evse := by
  cases hs : s.sequencer_state <;> simp only [sequencer_dispatch, hs] at h <;>
    simp
  · exact h (sequencer_state_inactive_requested_phases s)
  · exact h (sequencer_state_cancelling_evse_start_requested_phases s now)
  · exact h (sequencer_state_waiting_for_evse_start_requested_phases s now)
  · exact h (sequencer_state_active_requested_phases s now)
  · exact h (sequencer_state_quick_charging_requested_phases s now)

/-! ### Entering and leaving `pausing_while_switching` -/

theorem sequencer_dispatch_enters_pausing (s : State) (now : Nat)
    (h : (sequencer_dispatch s now).1.sequencer_state
      = PhaseSwitcherState.pausing_while_switching)
    (h0 : s.sequencer_state ≠ PhaseSwitcherState.pausing_while_switching) :
    s.sequencer_state = PhaseSwitcherState.waiting_for_evse_stop := by
  cases hs : s.sequencer_state <;> simp only [sequencer_dispatch, hs] at h <;>
    first
      | rfl
      | exact absurd hs h0
      | (exfalso
         revert h
         simp only [sequencer_state_inactive, sequencer_state_standby,
           sequencer_state_cancelling_evse_start,
           sequencer_state_waiting_for_evse_start, sequencer_state_active,
           sequencer_state_quick_charging, sequencer_state_stopped_by_evse]
         split_ifs <;> simp [hs, set_available_charging_power_sequencer_state])

theorem set_available_charging_power_stamp_fields (s : State) (now P : Nat) :
    (set_available_charging_power s now P).1.last_state_change
        = s.last_state_change
    ∧ (set_available_charging_power s now P).1.last_sequencer_state
        = s.last_sequencer_state
    ∧ (set_available_charging_power s now P).1.pause_time = s.pause_time := by
  unfold set_available_charging_power
  simp only
  split_ifs <;> exact ⟨rfl, rfl, rfl⟩

theorem start_quick_charging_stamp_fields (s : State) :
    (start_quick_charging s).1.last_state_change = s.last_state_change
    ∧ (start_quick_charging s).1.last_sequencer_state = s.last_sequencer_state
    ∧ (start_quick_charging s).1.pause_time = s.pause_time := by
  unfold start_quick_charging
  split_ifs <;> exact ⟨rfl, rfl, rfl⟩

theorem handle_button_stamp_fields (s : State) (now : Nat)
    (low : Option EvseLowLevelState) :
    (handle_button s now low).1.last_state_change = s.last_state_change
    ∧ (handle_button s now low).1.last_sequencer_state = s.last_sequencer_state
    ∧ (handle_button s now low).1.pause_time = s.pause_time := by
  unfold handle_button
  cases low with
  | none => exact ⟨rfl, rfl, rfl⟩
  | some low =>
    simp only
    split_ifs <;>
      first
        | exact ⟨rfl, rfl, rfl⟩
        | exact start_quick_charging_stamp_fields _

theorem available_charging_power_command_stamp_fields (s : State)
    (now P : Nat) :
    (available_charging_power_command s now P).1.last_state_change
        = s.last_state_change
    ∧ (available_charging_power_command s now P).1.last_sequencer_state
        = s.last_sequencer_state
    ∧ (available_charging_power_command s now P).1.pause_time = s.pause_time := by
  unfold available_charging_power_command
  simp only
  split_ifs
  · exact set_available_charging_power_stamp_fields _ now _
  · exact ⟨rfl, rfl, rfl⟩

theorem contactor_check_phases_stamp_fields (s : State) (now : Nat)
    (r : ContactorReadings) :
    (contactor_check_phases s now r).1.last_state_change = s.last_state_change
    ∧ (contactor_check_phases s now r).1.last_sequencer_state
        = s.last_sequencer_state
    ∧ (contactor_check_phases s now r).1.pause_time = s.pause_time := by
  unfold contactor_check_phases
  exact ⟨rfl, rfl, rfl⟩

theorem contactor_check_sequencer_stamp_fields (s : State) :
    (contactor_check_sequencer s).last_state_change = s.last_state_change
    ∧ (contactor_check_sequencer s).last_sequencer_state
        = s.last_sequencer_state
    ∧ (contactor_check_sequencer s).pause_time = s.pause_time := by
  unfold contactor_check_sequencer
  split_ifs
  · split <;> exact ⟨rfl, rfl, rfl⟩
  · exact ⟨rfl, rfl, rfl⟩

theorem contactor_check_clear_stamp_fields (s : State) (e0 e1 e2 : Bool) :
    (contactor_check_clear s e0 e1 e2).last_state_change = s.last_state_change
    ∧ (contactor_check_clear s e0 e1 e2).last_sequencer_state
        = s.last_sequencer_state
    ∧ (contactor_check_clear s e0 e1 e2).pause_time = s.pause_time := by
  unfold contactor_check_clear
  split_ifs <;> exact ⟨rfl, rfl, rfl⟩

theorem contactor_check_stamp_fields (s : State) (now : Nat)
    (evse : Option EvseState) (digital_in quad_relay : Option ChannelValues)
    (e0 : Bool) :
    (contactor_check s now evse digital_in quad_relay e0).last_state_change
        = s.last_state_change
    ∧ (contactor_check s now evse digital_in quad_relay e0).last_sequencer_state
        = s.last_sequencer_state
    ∧ (contactor_check s now evse digital_in quad_relay e0).pause_time
        = s.pause_time := by
  unfold contactor_check
  cases evse with
  | none => exact ⟨rfl, rfl, rfl⟩
  | some evse =>
    simp only
    cases contactor_readings evse digital_in quad_relay with
    | none => exact ⟨rfl, rfl, rfl⟩
    | some r =>
      simp only
      obtain ⟨a1, a2, a3⟩ := contactor_check_phases_stamp_fields s now r
      obtain ⟨b1, b2, b3⟩ :=
        contactor_check_sequencer_stamp_fields (contactor_check_phases s now r).1
      obtain ⟨c1, c2, c3⟩ := contactor_check_clear_stamp_fields
        (contactor_check_sequencer (contactor_check_phases s now r).1) e0
        (contactor_check_phases s now r).2.1 (contactor_check_phases s now r).2.2.1
      exact ⟨c1.trans (b1.trans a1), c2.trans (b2.trans a2), c3.trans (b3.trans a3)⟩

theorem sequencer_dispatch_stamp_fields (s : State) (now : Nat) :
    (sequencer_dispatch s now).1.last_state_change = s.last_state_change
    ∧ (sequencer_dispatch s now).1.last_sequencer_state = s.last_sequencer_state
    ∧ (sequencer_dispatch s now).1.pause_time = s.pause_time := by
  cases hs : s.sequencer_state <;> simp only [sequencer_dispatch, hs]
  · unfold sequencer_state_inactive
    split_ifs <;> exact ⟨rfl, rfl, rfl⟩
  · unfold sequencer_state_standby
    simp only
    split_ifs <;> exact ⟨rfl, rfl, rfl⟩
  · unfold sequencer_state_cancelling_evse_start
    simp only
    split_ifs <;> exact ⟨rfl, rfl, rfl⟩
  · unfold sequencer_state_waiting_for_evse_start
    simp only
    split_ifs <;> exact ⟨rfl, rfl, rfl⟩
  · unfold sequencer_state_active
    simp only
    split_ifs <;> exact ⟨rfl, rfl, rfl⟩
  · unfold sequencer_state_quick_charging
    split_ifs
    · exact set_available_charging_power_stamp_fields s now s.power
    · exact ⟨rfl, rfl, rfl⟩
  · unfold sequencer_state_waiting_for_evse_stop
    simp only
    split_ifs <;> exact ⟨rfl, rfl, rfl⟩
  · unfold sequencer_state_pausing_while_switching
    split_ifs <;> exact ⟨rfl, rfl, rfl⟩
  · unfold sequencer_state_stopped_by_evse
    simp only
    split_ifs <;> exact ⟨rfl, rfl, rfl⟩

theorem sequencer_dispatch_pausing (s : State) (now : Nat)
    (hs : s.sequencer_state = PhaseSwitcherState.pausing_while_switching) :
    ((sequencer_dispatch s now).1.sequencer_state
        = PhaseSwitcherState.pausing_while_switching
      ∨ ((sequencer_dispatch s now).1.sequencer_state
          = PhaseSwitcherState.waiting_for_evse_start
        ∧ deadline_elapsed now
            (deadline_after_seconds s.last_state_change s.pause_time) = true
        ∧ (sequencer_dispatch s now).1.requested_phases
            = s.requested_phases_pending)) := by
  simp only [sequencer_dispatch, hs]
  unfold sequencer_state_pausing_while_switching
  split_ifs with h
  · exact Or.inr ⟨rfl, h, rfl⟩
  · exact Or.inl hs

theorem contactor_check_sequencer_state (s : State) (now : Nat)
    (evse : Option EvseState) (digital_in quad_relay : Option ChannelValues)
    (e0 : Bool) :
    (contactor_check s now evse digital_in quad_relay e0).sequencer_state
        = s.sequencer_state
    ∨ (contactor_check s now evse digital_in quad_relay e0).sequencer_state
        = (if s.sequencer_state = PhaseSwitcherState.waiting_for_evse_start
              ∨ s.sequencer_state = PhaseSwitcherState.active
              ∨ s.sequencer_state = PhaseSwitcherState.quick_charging
              ∨ s.sequencer_state = PhaseSwitcherState.waiting_for_evse_stop
            then PhaseSwitcherState.waiting_for_evse_stop
            else PhaseSwitcherState.inactive) := by
  unfold contactor_check
  cases evse with
  | none => exact Or.inl rfl
  | some evse =>
    simp only
    cases contactor_readings evse digital_in quad_relay with
    | none => exact Or.inl rfl
    | some r =>
      simp only
      rw [contactor_check_clear_sequencer_state, contactor_check_sequencer_state_eq,
        contactor_check_phases_sequencer_state]
      split_ifs <;> simp

theorem handle_evse_stamp_last (s : State) (now : Nat) :
    (handle_evse_stamp s now).last_sequencer_state
      = (handle_evse_stamp s now).sequencer_state := by
  unfold handle_evse_stamp
  split_ifs with h
  · rfl
  · exact not_not.mp h

theorem handle_evse_stamp_fires (s : State) (now : Nat)
    (h : s.last_sequencer_state ≠ s.sequencer_state) :
    (handle_evse_stamp s now).last_state_change = now := by
  unfold handle_evse_stamp
  rw [if_pos h]

theorem handle_evse_stamp_idle (s : State) (now : Nat)
    (h : s.last_sequencer_state = s.sequencer_state) :
    handle_evse_stamp s now = s := by
  unfold handle_evse_stamp
  rw [if_neg (not_not.mpr h)]

theorem handle_evse_stamp_pause_time (s : State) (now : Nat) :
    (handle_evse_stamp s now).pause_time = s.pause_time := by
  unfold handle_evse_stamp
  split_ifs <;> rfl

theorem handle_evse_cases (s : State) (now : Nat) (evse : Option EvseState)
    (auto_start : Option Bool) :
    (handle_evse s now evse auto_start).1 = s
    ∨ (∃ e a, evse = some e ∧ auto_start = some a
        ∧ (handle_evse s now evse auto_start).1
          = { handle_evse_read s e a with
              sequencer_state := PhaseSwitcherState.inactive
              quick_charging_active := false
              requested_phases := 0 })
    ∨ (∃ e a, evse = some e ∧ auto_start = some a
        ∧ (handle_evse s now evse auto_start).1
          = handle_evse_stamp
              (sequencer_dispatch (handle_evse_read s e a) now).1 now) := by
  cases evse with
  | none => exact Or.inl rfl
  | some e =>
    cases auto_start with
    | none => exact Or.inl rfl
    | some a =>
      by_cases hg : s.enabled = false
          ∨ e.charger_state = ChargerState.not_connected
          ∨ e.charger_state = ChargerState.error
      · exact Or.inr (Or.inl ⟨e, a, rfl, rfl, handle_evse_gate s now e a hg⟩)
      · refine Or.inr (Or.inr ⟨e, a, rfl, rfl, ?_⟩)
        rw [handle_evse_no_gate s now e a hg]

/-- The static `last_sequencer_state` is `pausing_while_switching` only
while the sequencer is in that state or was forced from it to `inactive`. -/
theorem apply_last_pausing (op : Op) (s : State)
    (hi : s.last_sequencer_state = PhaseSwitcherState.pausing_while_switching →
      s.sequencer_state = PhaseSwitcherState.pausing_while_switching
      ∨ s.sequencer_state = PhaseSwitcherState.inactive) :
    (op.apply s).1.last_sequencer_state
        = PhaseSwitcherState.pausing_while_switching →
      (op.apply s).1.sequencer_state = PhaseSwitcherState.pausing_while_switching
      ∨ (op.apply s).1.sequencer_state = PhaseSwitcherState.inactive := by
  cases op with
  | handle_button now low =>
    simp only [Op.apply]
    rw [(handle_button_stamp_fields s now low).2.1, handle_button_sequencer_state]
    exact hi
  | handle_evse now evse auto_start =>
    simp only [Op.apply]
    rcases handle_evse_cases s now evse auto_start with h | ⟨e, a, _, _, h⟩
        | ⟨e, a, _, _, h⟩
    · rw [h]; exact hi
    · rw [h]; intro _; exact Or.inr rfl
    · rw [h, handle_evse_stamp_last]; intro hl; exact Or.inl hl
  | write_outputs low relay_ok => exact hi
  | contactor_check now evse digital_in quad_relay e0 =>
    simp only [Op.apply]
    rw [(contactor_check_stamp_fields s now evse digital_in quad_relay e0).2.1]
    intro hl
    rcases contactor_check_sequencer_state s now evse digital_in quad_relay e0
      with h | h
    · rw [h]; exact hi hl
    · rw [h]
      rcases hi hl with h2 | h2 <;> simp [h2]
  | set_available_charging_power now P =>
    simp only [Op.apply]
    rw [(set_available_charging_power_stamp_fields s now P).2.1,
      set_available_charging_power_sequencer_state]
    exact hi
  | available_charging_power_command now P =>
    simp only [Op.apply]
    rw [(available_charging_power_command_stamp_fields s now P).2.1,
      available_charging_power_command_sequencer_state]
    exact hi
  | start_quick_charging =>
    simp only [Op.apply]
    rw [(start_quick_charging_stamp_fields s).2.1,
      start_quick_charging_sequencer_state]
    exact hi

theorem apply_pause_time (op : Op) (s : State) :
    (op.apply s).1.pause_time = s.pause_time := by
  cases op with
  | handle_button now low => exact (handle_button_stamp_fields s now low).2.2
  | handle_evse now evse auto_start =>
    simp only [Op.apply]
    rcases handle_evse_cases s now evse auto_start with h | ⟨e, a, _, _, h⟩
        | ⟨e, a, _, _, h⟩
    · rw [h]
    · rw [h]; rfl
    · rw [h, handle_evse_stamp_pause_time,
        (sequencer_dispatch_stamp_fields _ now).2.2]
      rfl
  | write_outputs low relay_ok => rfl
  | contactor_check now evse digital_in quad_relay e0 =>
    exact (contactor_check_stamp_fields s now evse digital_in quad_relay e0).2.2
  | set_available_charging_power now P =>
    exact (set_available_charging_power_stamp_fields s now P).2.2
  | available_charging_power_command now P =>
    exact (available_charging_power_command_stamp_fields s now P).2.2
  | start_quick_charging => exact (start_quick_charging_stamp_fields s).2.2

theorem run_pause_time (ops : List Op) :
    ∀ s : State, (run s ops).pause_time = s.pause_time := by
  induction ops with
  | nil => intro s; rfl
  | cons op ops ih =>
    intro s
    simp only [run]
    rw [ih, apply_pause_time]

/-- The sequencer enters `pausing_while_switching` only by a `handle_evse`
call that starts in `waiting_for_evse_stop`; that call stamps
`last_state_change`. -/
theorem apply_enters_pausing (op : Op) (s : State)
    (h : (op.apply s).1.sequencer_state
      = PhaseSwitcherState.pausing_while_switching)
    (h0 : s.sequencer_state ≠ PhaseSwitcherState.pausing_while_switching) :
    s.sequencer_state = PhaseSwitcherState.waiting_for_evse_stop
    ∧ ∃ now evse auto_start, op = Op.handle_evse now evse auto_start
      ∧ (s.last_sequencer_state ≠ PhaseSwitcherState.pausing_while_switching →
          (op.apply s).1.last_state_change = now
          ∧ (op.apply s).1.last_sequencer_state
              = PhaseSwitcherState.pausing_while_switching) := by
  cases op with
  | handle_button now low =>
    simp only [Op.apply] at h
    rw [handle_button_sequencer_state] at h
    exact absurd h h0
  | handle_evse now evse auto_start =>
    simp only [Op.apply] at h ⊢
    rcases handle_evse_cases s now evse auto_start with hc | ⟨e, a, _, _, hc⟩
        | ⟨e, a, _, _, hc⟩
    · rw [hc] at h; exact absurd h h0
    · rw [hc] at h; simp at h
    · rw [hc] at h ⊢
      rw [handle_evse_stamp_sequencer_state] at h
      have hw := sequencer_dispatch_enters_pausing (handle_evse_read s e a) now h h0
      refine ⟨hw, now, evse, auto_start, rfl, ?_⟩
      intro hl
      have hd : (sequencer_dispatch (handle_evse_read s e a) now).1.last_sequencer_state
          ≠ (sequencer_dispatch (handle_evse_read s e a) now).1.sequencer_state := by
        rw [(sequencer_dispatch_stamp_fields _ now).2.1, h]
        exact hl
      refine ⟨handle_evse_stamp_fires _ now hd, ?_⟩
      rw [handle_evse_stamp_last, handle_evse_stamp_sequencer_state, h]
  | write_outputs low relay_ok => exact absurd h h0
  | contactor_check now evse digital_in quad_relay e0 =>
    simp only [Op.apply] at h
    rcases contactor_check_sequencer_state s now evse digital_in quad_relay e0
      with hc | hc
    · rw [hc] at h; exact absurd h h0
    · rw [hc] at h
      split_ifs at h
  | set_available_charging_power now P =>
    simp only [Op.apply] at h
    rw [set_available_charging_power_sequencer_state] at h
    exact absurd h h0
  | available_charging_power_command now P =>
    simp only [Op.apply] at h
    rw [available_charging_power_command_sequencer_state] at h
    exact absurd h h0
  | start_quick_charging =>
    simp only [Op.apply] at h
    rw [start_quick_charging_sequencer_state] at h
    exact absurd h h0

/-- While the sequencer stays in `pausing_while_switching`,
`last_state_change` keeps the clock value of the entry. -/
theorem apply_stays_pausing (op : Op) (s : State)
    (h : (op.apply s).1.sequencer_state
      = PhaseSwitcherState.pausing_while_switching)
    (hl : s.last_sequencer_state = PhaseSwitcherState.pausing_while_switching) :
    (op.apply s).1.last_state_change = s.last_state_change
    ∧ (op.apply s).1.last_sequencer_state
        = PhaseSwitcherState.pausing_while_switching := by
  cases op with
  | handle_button now low =>
    obtain ⟨a, b, _⟩ := handle_button_stamp_fields s now low
    exact ⟨a, b.trans hl⟩
  | handle_evse now evse auto_start =>
    simp only [Op.apply] at h ⊢
    rcases handle_evse_cases s now evse auto_start with hc | ⟨e, a, _, _, hc⟩
        | ⟨e, a, _, _, hc⟩
    · rw [hc]; exact ⟨rfl, hl⟩
    · rw [hc] at h; simp at h
    · rw [hc] at h ⊢
      rw [handle_evse_stamp_sequencer_state] at h
      obtain ⟨a1, a2, _⟩ := sequencer_dispatch_stamp_fields (handle_evse_read s e a) now
      have hidle : (sequencer_dispatch (handle_evse_read s e a) now).1.last_sequencer_state
          = (sequencer_dispatch (handle_evse_read s e a) now).1.sequencer_state := by
        rw [a2, h]; exact hl
      rw [handle_evse_stamp_idle _ now hidle]
      exact ⟨a1, a2.trans hl⟩
  | write_outputs low relay_ok => exact ⟨rfl, hl⟩
  | contactor_check now evse digital_in quad_relay e0 =>
    obtain ⟨a, b, _⟩ :=
      contactor_check_stamp_fields s now evse digital_in quad_relay e0
    exact ⟨a, b.trans hl⟩
  | set_available_charging_power now P =>
    obtain ⟨a, b, _⟩ := set_available_charging_power_stamp_fields s now P
    exact ⟨a, b.trans hl⟩
  | available_charging_power_command now P =>
    obtain ⟨a, b, _⟩ := available_charging_power_command_stamp_fields s now P
    exact ⟨a, b.trans hl⟩
  | start_quick_charging =>
    obtain ⟨a, b, _⟩ := start_quick_charging_stamp_fields s
    exact ⟨a, b.trans hl⟩

theorem run_append (a b : List Op) :
    ∀ s : State, run s (a ++ b) = run (run s a) b := by
  induction a with
  | nil => intro s; rfl
  | cons op a ih => intro s; exact ih (op.apply s).1

theorem run_snoc (s : State) (ops : List Op) (op : Op) :
    run s (ops ++ [op]) = (op.apply (run s ops)).1 := by
  rw [run_append]
  rfl

theorem trace_snoc (ops : List Op) (op : Op) :
    ∀ s : State,
      trace s (ops ++ [op]) = trace s ops ++ [(op.apply (run s ops)).1] := by
  induction ops with
  | nil => intro s; rfl
  | cons o ops ih =>
    intro s
    show s :: trace (o.apply s).1 (ops ++ [op])
      = s :: trace (o.apply s).1 ops ++ [(op.apply (run (o.apply s).1 ops)).1]
    rw [ih]
    rfl

/-- Along a run that does not start in `pausing_while_switching`: whenever
the sequencer is in that state, it entered it by a `handle_evse` call at some
clock value `now_j` from `waiting_for_evse_stop`, has stayed in it since,
and `last_state_change` is `now_j`. -/
theorem run_pausing_entry (s0 : State)
    (h0 : s0.sequencer_state ≠ PhaseSwitcherState.pausing_while_switching)
    (h0l : s0.last_sequencer_state ≠ PhaseSwitcherState.pausing_while_switching)
    (ops : List Op) :
    ((run s0 ops).last_sequencer_state
        = PhaseSwitcherState.pausing_while_switching →
      (run s0 ops).sequencer_state = PhaseSwitcherState.pausing_while_switching
      ∨ (run s0 ops).sequencer_state = PhaseSwitcherState.inactive)
    ∧ ((run s0 ops).sequencer_state
        = PhaseSwitcherState.pausing_while_switching →
      (run s0 ops).last_sequencer_state
          = PhaseSwitcherState.pausing_while_switching
      ∧ ∃ pre now_j evse_j auto_j mid,
          ops = pre ++ Op.handle_evse now_j evse_j auto_j :: mid
          ∧ (run s0 pre).sequencer_state
              = PhaseSwitcherState.waiting_for_evse_stop
          ∧ (∀ t ∈ trace (run s0 (pre ++ [Op.handle_evse now_j evse_j auto_j])) mid,
              t.sequencer_state = PhaseSwitcherState.pausing_while_switching)
          ∧ (run s0 ops).last_state_change = now_j) := by
  induction ops using List.reverseRecOn with
  | nil =>
    exact ⟨fun h => absurd h h0l, fun h => absurd h h0⟩
  | append_singleton ops op ih =>
    obtain ⟨ihl, ihp⟩ := ih
    rw [run_snoc]
    refine ⟨apply_last_pausing op (run s0 ops) ihl, ?_⟩
    intro hp
    by_cases hprev : (run s0 ops).sequencer_state
        = PhaseSwitcherState.pausing_while_switching
    · obtain ⟨hl, pre, now_j, evse_j, auto_j, mid, hops, hpre, hmid, hlsc⟩ := ihp hprev
      obtain ⟨k1, k2⟩ := apply_stays_pausing op (run s0 ops) hp hl
      refine ⟨k2, pre, now_j, evse_j, auto_j, mid ++ [op], ?_, hpre, ?_, ?_⟩
      · rw [hops]; simp
      · intro t ht
        rw [trace_snoc, List.mem_append] at ht
        rcases ht with ht | ht
        · exact hmid t ht
        · rw [List.mem_singleton] at ht
          have hr : run (run s0 (pre ++ [Op.handle_evse now_j evse_j auto_j])) mid
              = run s0 ops := by
            rw [← run_append, hops]; simp
          rw [ht, hr]
          exact hp
      · rw [k1, hlsc]
    · obtain ⟨hw, now, evse, auto_start, hop, hst⟩ :=
        apply_enters_pausing op (run s0 ops) hp hprev
      have hnl : (run s0 ops).last_sequencer_state
          ≠ PhaseSwitcherState.pausing_while_switching := by
        intro hl
        rcases ihl hl with h | h
        · exact hprev h
        · rw [hw] at h; simp at h
      obtain ⟨m1, m2⟩ := hst hnl
      refine ⟨m2, ops, now, evse, auto_start, [], ?_, hw, ?_, m1⟩
      · rw [hop]
      · intro t ht
        simp only [trace, List.mem_singleton] at ht
        rw [ht, ← hop, run_snoc]
        exact hp

theorem apply_changes_requested_phases (op : Op) (s : State)
    (h : (op.apply s).1.requested_phases ≠ s.requested_phases) :
    ∃ now evse auto_start, op = Op.handle_evse now evse auto_start
      ∧ (((op.apply s).1.requested_phases = 0
          ∧ (op.apply s).1.sequencer_state = PhaseSwitcherState.inactive)
        ∨ s.sequencer_state = PhaseSwitcherState.standby
        ∨ s.sequencer_state = PhaseSwitcherState.waiting_for_evse_stop
        ∨ s.sequencer_state = PhaseSwitcherState.pausing_while_switching
        ∨ s.sequencer_state = PhaseSwitcherState.stopped_by_evse) := by
  cases op with
  | handle_button now low =>
    exact absurd (handle_button_requested_phases s now low) h
  | handle_evse now evse auto_start =>
    refine ⟨now, evse, auto_start, rfl, ?_⟩
    simp only [Op.apply] at h ⊢
    rcases handle_evse_cases s now evse auto_start with hc | ⟨e, a, _, _, hc⟩
        | ⟨e, a, _, _, hc⟩
    · rw [hc] at h; exact absurd rfl h
    · rw [hc]; exact Or.inl ⟨rfl, rfl⟩
    · rw [hc, handle_evse_stamp_requested_phases] at h
      exact Or.inr (sequencer_dispatch_requested_phases (handle_evse_read s e a) now h)
  | write_outputs low relay_ok => exact absurd rfl h
  | contactor_check now evse digital_in quad_relay e0 =>
    exact absurd
      (contactor_check_requested_phases s now evse digital_in quad_relay e0) h
  | set_available_charging_power now P =>
    exact absurd (set_available_charging_power_requested_phases s now P) h
  | available_charging_power_command now P =>
    exact absurd (available_charging_power_command_requested_phases s now P) h
  | start_quick_charging =>
    exact absurd (start_quick_charging_requested_phases s) h

theorem apply_restarts_from_pausing (op : Op) (s : State)
    (hs : s.sequencer_state = PhaseSwitcherState.pausing_while_switching)
    (h : (op.apply s).1.sequencer_state
      = PhaseSwitcherState.waiting_for_evse_start) :
    ∃ now evse auto_start, op = Op.handle_evse now evse auto_start
      ∧ deadline_elapsed now
          (deadline_after_seconds s.last_state_change s.pause_time) = true
      ∧ (op.apply s).1.requested_phases = s.requested_phases_pending := by
  cases op with
  | handle_button now low =>
    simp only [Op.apply] at h
    rw [handle_button_sequencer_state, hs] at h
    simp at h
  | handle_evse now evse auto_start =>
    refine ⟨now, evse, auto_start, rfl, ?_⟩
    simp only [Op.apply] at h ⊢
    rcases handle_evse_cases s now evse auto_start with hc | ⟨e, a, _, _, hc⟩
        | ⟨e, a, _, _, hc⟩
    · rw [hc, hs] at h; simp at h
    · rw [hc] at h; simp at h
    · rw [hc] at h ⊢
      rw [handle_evse_stamp_sequencer_state] at h
      rw [handle_evse_stamp_requested_phases]
      rcases sequencer_dispatch_pausing (handle_evse_read s e a) now hs
        with hd | ⟨_, hd2, hd3⟩
      · rw [hd] at h; simp at h
      · exact ⟨hd2, hd3⟩
  | write_outputs low relay_ok =>
    simp only [Op.apply] at h
    rw [hs] at h
    simp at h
  | contactor_check now evse digital_in quad_relay e0 =>
    simp only [Op.apply] at h
    rcases contactor_check_sequencer_state s now evse digital_in quad_relay e0
      with hc | hc
    · rw [hc, hs] at h; simp at h
    · rw [hc] at h
      split_ifs at h
  | set_available_charging_power now P =>
    simp only [Op.apply] at h
    rw [set_available_charging_power_sequencer_state, hs] at h
    simp at h
  | available_charging_power_command now P =>
    simp only [Op.apply] at h
    rw [available_charging_power_command_sequencer_state, hs] at h
    simp at h
  | start_quick_charging =>
    simp only [Op.apply] at h
    rw [start_quick_charging_sequencer_state, hs] at h
    simp at h

/-- C7, as stated, fails: in the run `scenario_stopped_by_evse` from the
initial state (mode 1/2/3-dyn, all delays 10 s) `requested_phases` changes
from 0 to 3 in `standby` and from 3 to 1 in `stopped_by_evse`, and charging
resumes on one phase, while no state of the run is `waiting_for_evse_stop`
or `pausing_while_switching`. -/
theorem phase_change_without_pause_counterexample :
    (trace (initial_state true 123 10 10 10 10) scenario_stopped_by_evse).map
        (fun t => (t.sequencer_state, t.requested_phases))
      = [(PhaseSwitcherState.inactive, 0),
         (PhaseSwitcherState.inactive, 0),
         (PhaseSwitcherState.standby, 0),
         (PhaseSwitcherState.waiting_for_evse_start, 3),
         (PhaseSwitcherState.active, 3),
         (PhaseSwitcherState.stopped_by_evse, 3),
         (PhaseSwitcherState.stopped_by_evse, 3),
         (PhaseSwitcherState.stopped_by_evse, 1),
         (PhaseSwitcherState.active, 1)]
    ∧ ∀ t ∈ trace (initial_state true 123 10 10 10 10) scenario_stopped_by_evse,
        t.sequencer_state ≠ PhaseSwitcherState.waiting_for_evse_stop
        ∧ t.sequencer_state ≠ PhaseSwitcherState.pausing_while_switching := by
  decide

/-- C7 as amended: along every run of operations `ops` from a state `s0`
in which neither `sequencer_state` nor the static `last_sequencer_state`
of `handle_evse` is `pausing_while_switching` (the initial state is one),
(1) `requested_phases` is changed only by a `handle_evse` call, and only by
the top-level gate (to 0, leaving `inactive`) or when the call starts in
`standby`, `waiting_for_evse_stop`, `pausing_while_switching` or
`stopped_by_evse`; (2) a call that moves the sequencer from
`pausing_while_switching` to `waiting_for_evse_start` is a `handle_evse`
call that commits `requested_phases_pending`; the run before it ends with a
`handle_evse` call at some clock value `now_j` that started in
`waiting_for_evse_stop`, followed by calls whose states are all
`pausing_while_switching`; and the wrap-safe deadline `now_j + pause_time *
1000` has elapsed, that is, at least `pause_time * 1000` ms lie between the
two calls when they are less than `2 ^ 31` ms apart. -/
theorem phase_switch_after_stop_and_pause (s0 : State) (ops : List Op)
    (op : Op)
    (h0 : s0.sequencer_state ≠ PhaseSwitcherState.pausing_while_switching)
    (h0l : s0.last_sequencer_state
      ≠ PhaseSwitcherState.pausing_while_switching) :
    ((op.apply (run s0 ops)).1.requested_phases ≠ (run s0 ops).requested_phases →
      ∃ now evse auto_start, op = Op.handle_evse now evse auto_start
        ∧ (((op.apply (run s0 ops)).1.requested_phases = 0
            ∧ (op.apply (run s0 ops)).1.sequencer_state
                = PhaseSwitcherState.inactive)
          ∨ (run s0 ops).sequencer_state = PhaseSwitcherState.standby
          ∨ (run s0 ops).sequencer_state
              = PhaseSwitcherState.waiting_for_evse_stop
          ∨ (run s0 ops).sequencer_state
              = PhaseSwitcherState.pausing_while_switching
          ∨ (run s0 ops).sequencer_state = PhaseSwitcherState.stopped_by_evse))
    ∧ ((run s0 ops).sequencer_state
        = PhaseSwitcherState.pausing_while_switching →
      (op.apply (run s0 ops)).1.sequencer_state
        = PhaseSwitcherState.waiting_for_evse_start →
      ∃ now evse auto_start, op = Op.handle_evse now evse auto_start
        ∧ (op.apply (run s0 ops)).1.requested_phases
            = (run s0 ops).requested_phases_pending
        ∧ ∃ pre now_j evse_j auto_j mid,
            ops = pre ++ Op.handle_evse now_j evse_j auto_j :: mid
            ∧ (run s0 pre).sequencer_state
                = PhaseSwitcherState.waiting_for_evse_stop
            ∧ (∀ t ∈ trace (run s0 (pre ++ [Op.handle_evse now_j evse_j auto_j]))
                  mid,
                t.sequencer_state = PhaseSwitcherState.pausing_while_switching)
            ∧ deadline_elapsed now
                (deadline_after_seconds now_j s0.pause_time) = true
            ∧ (s0.pause_time * 1000 < 2 ^ 31 → sub_u32 now now_j < 2 ^ 31 →
                s0.pause_time * 1000 ≤ sub_u32 now now_j)) := by
  refine ⟨apply_changes_requested_phases op _, ?_⟩
  intro hp hw
  obtain ⟨now, evse, auto_start, hop, hd, hr⟩ :=
    apply_restarts_from_pausing op _ hp hw
  obtain ⟨_, pre, now_j, evse_j, auto_j, mid, hops, hpre, hmid, hlsc⟩ :=
    (run_pausing_entry s0 h0 h0l ops).2 hp
  rw [hlsc, run_pause_time] at hd
  refine ⟨now, evse, auto_start, hop, hr, pre, now_j, evse_j, auto_j, mid, hops,
    hpre, hmid, hd, ?_⟩
  intro h1 h2
  exact (deadline_elapsed_of_window now now_j (s0.pause_time * 1000) h1 h2).mp hd

/-- Witness of C7 as amended: the run `scenario_demote_under_load` from the
initial state ends in `pausing_while_switching`, entered at 21250 ms, and
the tick at 31250 ms restarts charging with the pending phase count. -/
theorem phase_switch_after_stop_and_pause_witness :
    (initial_state true 123 10 10 10 10).sequencer_state
      ≠ PhaseSwitcherState.pausing_while_switching
    ∧ (initial_state true 123 10 10 10 10).last_sequencer_state
      ≠ PhaseSwitcherState.pausing_while_switching
    ∧ (run (initial_state true 123 10 10 10 10)
        scenario_demote_under_load).sequencer_state
      = PhaseSwitcherState.pausing_while_switching
    ∧ ((Op.handle_evse 31250 (some evse_waiting) (some true)).apply
        (run (initial_state true 123 10 10 10 10)
          scenario_demote_under_load)).1.sequencer_state
      = PhaseSwitcherState.waiting_for_evse_start
    ∧ ∃ now evse auto_start,
        Op.handle_evse 31250 (some evse_waiting) (some true)
          = Op.handle_evse now evse auto_start
        ∧ ((Op.handle_evse 31250 (some evse_waiting) (some true)).apply
            (run (initial_state true 123 10 10 10 10)
              scenario_demote_under_load)).1.requested_phases
          = (run (initial_state true 123 10 10 10 10)
              scenario_demote_under_load).requested_phases_pending
        ∧ ∃ pre now_j evse_j auto_j mid,
            scenario_demote_under_load
              = pre ++ Op.handle_evse now_j evse_j auto_j :: mid
            ∧ (run (initial_state true 123 10 10 10 10) pre).sequencer_state
              = PhaseSwitcherState.waiting_for_evse_stop
            ∧ (∀ t ∈ trace (run (initial_state true 123 10 10 10 10)
                  (pre ++ [Op.handle_evse now_j evse_j auto_j])) mid,
                t.sequencer_state = PhaseSwitcherState.pausing_while_switching)
            ∧ deadline_elapsed now (deadline_after_seconds now_j
                (initial_state true 123 10 10 10 10).pause_time) = true
            ∧ ((initial_state true 123 10 10 10 10).pause_time * 1000 < 2 ^ 31 →
                sub_u32 now now_j < 2 ^ 31 →
                (initial_state true 123 10 10 10 10).pause_time * 1000
                  ≤ sub_u32 now now_j) :=
  ⟨by decide, by decide, by decide, by decide,
    (phase_switch_after_stop_and_pause (initial_state true 123 10 10 10 10)
      scenario_demote_under_load
      (Op.handle_evse 31250 (some evse_waiting) (some true))
      (by decide) (by decide)).2 (by decide) (by decide)⟩

/-! ## The latch of the contactor supervisor -/

/-- The per-phase loop never clears the latch. -/
theorem contactor_check_phases_keeps_latch (s : State) (now : Nat)
    (r : ContactorReadings) (h : s.contactor_error = true) :
    (contactor_check_phases s now r).1.contactor_error = true := by
  rw [contactor_check_phases_latch_eq, h]
  simp

/-- When the loop starts with the latch set, the three per-phase flags
`contactor_error[1..3]` are all false, whatever the readings are. -/
theorem contactor_check_phases_flags_of_latched (s : State) (now : Nat)
    (r : ContactorReadings) (h : s.contactor_error = true) :
    (contactor_check_phases s now r).2.1 = false
    ∧ (contactor_check_phases s now r).2.2.1 = false
    ∧ (contactor_check_phases s now r).2.2.2 = false := by
  unfold contactor_check_phases
  simp only [contactor_check_phase, h]
  simp

/-- After a call that starts with the latch set and reads both bricklets,
the latch depends only on `charger_state` and on what the uninitialised
local `contactor_error[0]` holds. -/
theorem contactor_check_latched_result (s : State) (now : Nat)
    (evse : EvseState) (digital_in quad_relay : Option ChannelValues)
    (e0 : Bool) (r : ContactorReadings)
    (hr : contactor_readings evse digital_in quad_relay = some r)
    (h : s.contactor_error = true) :
    (contactor_check s now (some evse) digital_in quad_relay e0).contactor_error
      = !(decide (s.charger_state = ChargerState.not_connected) && !e0) := by
  unfold contactor_check
  simp only [hr]
  obtain ⟨f1, f2, _⟩ := contactor_check_phases_flags_of_latched s now r h
  have hl := contactor_check_phases_keeps_latch s now r h
  have hq := contactor_check_sequencer_contactor_error
    (contactor_check_phases s now r).1
  rw [f1, f2]
  unfold contactor_check_clear
  rw [hq.2, contactor_check_phases_charger_state]
  by_cases hc : s.charger_state = ChargerState.not_connected
  · cases e0
    · simp [hc]
    · simp [hc, hq.1, hl]
  · simp [hc, hq.1, hl]

/-- C11 fails on the code: the call starts with `contactor_error` set and
`charger_state = not_connected`; phase 2 has feedback on while its relay
value is off, and its watchdog timestamp is 5000 ms old; the uninitialised
local `contactor_error[0]` holds false.  The call clears `contactor_error`
although the fault persists, and the next call, 250 ms later with the same
readings, sets it again. -/
theorem contactor_check_clears_latch_despite_fault :
    ({ initial_state true 123 10 10 10 10 with
        contactor_error := true }).contactor_error = true
    ∧ ({ initial_state true 123 10 10 10 10 with
        contactor_error := true }).charger_state = ChargerState.not_connected
    ∧ contactor_readings
        ⟨ChargerState.not_connected, IEC61851State.a_not_connected, 0⟩
        (some ⟨false, false, true, false⟩) (some ⟨false, false, false, false⟩)
      = some ⟨false, true, false, false, false, false⟩
    ∧ 2000 ≤ sub_u32 5000
        ({ initial_state true 123 10 10 10 10 with
          contactor_error := true }).watchdog_start_2
    ∧ (contactor_check
        { initial_state true 123 10 10 10 10 with contactor_error := true } 5000
        (some ⟨ChargerState.not_connected, IEC61851State.a_not_connected, 0⟩)
        (some ⟨false, false, true, false⟩) (some ⟨false, false, false, false⟩)
        false).contactor_error = false
    ∧ (contactor_check
        (contactor_check
          { initial_state true 123 10 10 10 10 with contactor_error := true } 5000
          (some ⟨ChargerState.not_connected, IEC61851State.a_not_connected, 0⟩)
          (some ⟨false, false, true, false⟩) (some ⟨false, false, false, false⟩)
          false) 5250
        (some ⟨ChargerState.not_connected, IEC61851State.a_not_connected, 0⟩)
        (some ⟨false, false, true, false⟩) (some ⟨false, false, false, false⟩)
        false).contactor_error = true := by
  decide

/-- C12: a call of `contactor_check` that starts with `contactor_error` set
and `charger_state` other than `not_connected` ends with `contactor_error`
set, whatever the relay values, the feedback inputs, the clock and the
outcome of the reads are. -/
theorem contactor_check_keeps_latch_while_connected (s : State) (now : Nat)
    (evse : Option EvseState) (digital_in quad_relay : Option ChannelValues)
    (e0 : Bool) (h : s.contactor_error = true)
    (hc : s.charger_state ≠ ChargerState.not_connected) :
    (contactor_check s now evse digital_in quad_relay e0).contactor_error
      = true := by
  cases evse with
  | none => exact h
  | some evse =>
    cases hr : contactor_readings evse digital_in quad_relay with
    | none =>
      unfold contactor_check
      simp only [hr]
      exact h
    | some r =>
      rw [contactor_check_latched_result s now evse digital_in quad_relay e0 r hr h]
      simp [hc]

/-- Witness of C12: latched while charging, phase 2 still faulty. -/
theorem contactor_check_keeps_latch_while_connected_witness :
    ({ initial_state true 123 10 10 10 10 with
        contactor_error := true
        charger_state := ChargerState.charging }).contactor_error = true
    ∧ ({ initial_state true 123 10 10 10 10 with
        contactor_error := true
        charger_state := ChargerState.charging }).charger_state
      ≠ ChargerState.not_connected
    ∧ (contactor_check
        { initial_state true 123 10 10 10 10 with
          contactor_error := true
          charger_state := ChargerState.charging } 5000
        (some ⟨ChargerState.charging, IEC61851State.c_charging, 3⟩)
        (some ⟨false, false, false, true⟩) (some ⟨false, true, true, true⟩)
        false).contactor_error = true :=
  ⟨rfl, by decide,
    contactor_check_keeps_latch_while_connected _ 5000 _ _ _ false rfl
      (by decide)⟩

/-! ## Quick charging request -/

/-- C13: `start_quick_charging` with `enabled` true and `sequencer_state`
`standby` or `stopped_by_evse` sets `quick_charging_active` and
`requested_phases_pending = 3`, changes nothing else and sends exactly one
`external_current_update` of 32000 mA; in every other case it leaves the
whole state unchanged and sends nothing; it never changes
`requested_phases` or `sequencer_state`. -/
theorem start_quick_charging_effect (s : State) :
    ((s.enabled = true
        ∧ (s.sequencer_state = PhaseSwitcherState.standby
          ∨ s.sequencer_state = PhaseSwitcherState.stopped_by_evse)) →
      start_quick_charging s
        = ({ s with quick_charging_active := true
                    requested_phases_pending := 3 },
           [Effect.external_current_update 32000]))
    ∧ (¬ (s.enabled = true
        ∧ (s.sequencer_state = PhaseSwitcherState.standby
          ∨ s.sequencer_state = PhaseSwitcherState.stopped_by_evse)) →
      start_quick_charging s = (s, []))
    ∧ (start_quick_charging s).1.requested_phases = s.requested_phases
    ∧ (start_quick_charging s).1.sequencer_state = s.sequencer_state := by
  refine ⟨?_, ?_, start_quick_charging_requested_phases s,
    start_quick_charging_sequencer_state s⟩
  · rintro ⟨he, hs⟩
    unfold start_quick_charging
    rw [if_neg (by simp [he]), if_pos hs]
  · intro h
    unfold start_quick_charging
    by_cases he : s.enabled = false
    · rw [if_pos he]
    · rw [if_neg he, if_neg]
      intro hs
      exact h ⟨by simpa using he, hs⟩

/-! ## Range of the phase counts -/

theorem get_phases_for_power_le_three (operating_mode requested_phases
    available_charging_power : Nat) :
    get_phases_for_power operating_mode requested_phases
      available_charging_power ≤ 3 := by
  unfold get_phases_for_power
  split_ifs <;> omega

theorem set_available_charging_power_phases_le (s : State) (now P : Nat)
    (h : s.requested_phases ≤ 3) :
    (set_available_charging_power s now P).1.requested_phases ≤ 3
    ∧ (set_available_charging_power s now P).1.requested_phases_pending ≤ 3 := by
  refine ⟨by rw [set_available_charging_power_requested_phases]; exact h, ?_⟩
  have hp : (set_available_charging_power s now P).1.requested_phases_pending
      = get_phases_for_power s.operating_mode s.requested_phases P := by
    unfold set_available_charging_power
    simp only
    split_ifs <;> rfl
  rw [hp]
  exact get_phases_for_power_le_three _ _ _

theorem start_quick_charging_phases_le (s : State)
    (h : s.requested_phases ≤ 3 ∧ s.requested_phases_pending ≤ 3) :
    (start_quick_charging s).1.requested_phases ≤ 3
    ∧ (start_quick_charging s).1.requested_phases_pending ≤ 3 := by
  unfold start_quick_charging
  split_ifs
  · exact h
  · exact ⟨h.1, le_refl 3⟩
  · exact h

theorem sequencer_dispatch_phases_le (s : State) (now : Nat)
    (h : s.requested_phases ≤ 3 ∧ s.requested_phases_pending ≤ 3) :
    (sequencer_dispatch s now).1.requested_phases ≤ 3
    ∧ (sequencer_dispatch s now).1.requested_phases_pending ≤ 3 := by
  cases hs : s.sequencer_state <;> simp only [sequencer_dispatch, hs]
  · unfold sequencer_state_inactive
    split_ifs <;> exact h
  · unfold sequencer_state_standby
    simp only
    split_ifs <;> first | exact h | exact ⟨h.2, h.2⟩
  · unfold sequencer_state_cancelling_evse_start
    simp only
    split_ifs <;> exact h
  · unfold sequencer_state_waiting_for_evse_start
    simp only
    split_ifs <;> exact h
  · unfold sequencer_state_active
    simp only
    split_ifs <;> exact h
  · unfold sequencer_state_quick_charging
    split_ifs
    · exact set_available_charging_power_phases_le s now s.power h.1
    · exact h
  · unfold sequencer_state_waiting_for_evse_stop
    simp only
    split_ifs <;> first | exact h | exact ⟨h.2, h.2⟩
  · unfold sequencer_state_pausing_while_switching
    split_ifs <;> first | exact h | exact ⟨h.2, h.2⟩
  · unfold sequencer_state_stopped_by_evse
    simp only
    split_ifs <;> exact ⟨h.2, h.2⟩

theorem handle_evse_stamp_requested_phases_pending (s : State) (now : Nat) :
    (handle_evse_stamp s now).requested_phases_pending
      = s.requested_phases_pending := by
  unfold handle_evse_stamp
  split_ifs <;> rfl

theorem contactor_check_requested_phases_pending (s : State) (now : Nat)
    (evse : Option EvseState) (digital_in quad_relay : Option ChannelValues)
    (e0 : Bool) :
    (contactor_check s now evse digital_in quad_relay e0).requested_phases_pending
      = s.requested_phases_pending := by
  unfold contactor_check
  cases evse with
  | none => rfl
  | some evse =>
    simp only
    cases contactor_readings evse digital_in quad_relay with
    | none => rfl
    | some r =>
      simp only
      have h1 : (contactor_check_phases s now r).1.requested_phases_pending
          = s.requested_phases_pending := by
        unfold contactor_check_phases
        rfl
      have h2 : ∀ t : State, (contactor_check_sequencer t).requested_phases_pending
          = t.requested_phases_pending := by
        intro t
        unfold contactor_check_sequencer
        split_ifs
        · split <;> rfl
        · rfl
      have h3 : ∀ (t : State) (a b c : Bool),
          (contactor_check_clear t a b c).requested_phases_pending
            = t.requested_phases_pending := by
        intro t a b c
        unfold contactor_check_clear
        split_ifs <;> rfl
      rw [h3, h2, h1]

theorem apply_phases_le (op : Op) (s : State)
    (h : s.requested_phases ≤ 3 ∧ s.requested_phases_pending ≤ 3) :
    (op.apply s).1.requested_phases ≤ 3
    ∧ (op.apply s).1.requested_phases_pending ≤ 3 := by
  cases op with
  | handle_button now low =>
    simp only [Op.apply]
    unfold handle_button
    cases low with
    | none => exact h
    | some low =>
      simp only
      split_ifs <;>
        first
          | exact h
          | exact start_quick_charging_phases_le _ h
  | handle_evse now evse auto_start =>
    simp only [Op.apply]
    rcases handle_evse_cases s now evse auto_start with hc | ⟨e, a, _, _, hc⟩
        | ⟨e, a, _, _, hc⟩
    · rw [hc]; exact h
    · rw [hc]; exact ⟨Nat.zero_le 3, h.2⟩
    · rw [hc, handle_evse_stamp_requested_phases,
        handle_evse_stamp_requested_phases_pending]
      exact sequencer_dispatch_phases_le (handle_evse_read s e a) now h
  | write_outputs low relay_ok => exact h
  | contactor_check now evse digital_in quad_relay e0 =>
    simp only [Op.apply]
    rw [contactor_check_requested_phases, contactor_check_requested_phases_pending]
    exact h
  | set_available_charging_power now P =>
    exact set_available_charging_power_phases_le s now P h.1
  | available_charging_power_command now P =>
    simp only [Op.apply]
    unfold available_charging_power_command
    simp only
    split_ifs
    · exact set_available_charging_power_phases_le _ now _ h.1
    · exact h
  | start_quick_charging => exact start_quick_charging_phases_le s h

theorem run_phases_le (ops : List Op) :
    ∀ s : State, s.requested_phases ≤ 3 ∧ s.requested_phases_pending ≤ 3 →
      (run s ops).requested_phases ≤ 3
      ∧ (run s ops).requested_phases_pending ≤ 3 := by
  induction ops with
  | nil => intro s h; exact h
  | cons op ops ih => intro s h; exact ih _ (apply_phases_le op s h)

/-- C14: `requested_phases ≤ 3 ∧ requested_phases_pending ≤ 3` (both are
unsigned, so at least 0) is preserved by every operation: `handle_button`,
`handle_evse` in every sequencer state and for every reading,
`write_outputs`, `contactor_check`, `set_available_charging_power` and the
API command for every power and every value of `operating_mode`, and
`start_quick_charging`; so it holds after every sequence of operations
from a state in which it holds, in particular from one where both are 0. -/
theorem phase_counts_at_most_three :
    (∀ (op : Op) (s : State),
      s.requested_phases ≤ 3 ∧ s.requested_phases_pending ≤ 3 →
      (op.apply s).1.requested_phases ≤ 3
      ∧ (op.apply s).1.requested_phases_pending ≤ 3)
    ∧ (∀ (ops : List Op) (s : State),
      s.requested_phases = 0 ∧ s.requested_phases_pending = 0 →
      ∀ t ∈ trace s ops,
        0 ≤ t.requested_phases ∧ t.requested_phases ≤ 3
        ∧ 0 ≤ t.requested_phases_pending ∧ t.requested_phases_pending ≤ 3) := by
  refine ⟨apply_phases_le, ?_⟩
  intro ops
  induction ops using List.reverseRecOn with
  | nil =>
    intro s h t ht
    simp only [trace, List.mem_singleton] at ht
    rw [ht, h.1, h.2]
    omega
  | append_singleton ops op ih =>
    intro s h t ht
    rw [trace_snoc, List.mem_append, List.mem_singleton] at ht
    rcases ht with ht | ht
    · exact ih s h t ht
    · have := apply_phases_le op (run s ops)
        (run_phases_le ops s (by rw [h.1, h.2]; omega))
      rw [ht]
      exact ⟨Nat.zero_le _, this.1, Nat.zero_le _, this.2⟩

/-! ## The selector in mode 1/2-dyn -/

theorem one_two_phases_dynamic_eq (r P : Nat) :
    get_phases_for_power one_two_phases_dynamic r P
      = if P < 1380 then 0
        else if P < (if r = 2 then 2760 else 3680) then 1 else 2 := by
  simp only [get_phases_for_power, one_phase_static, two_phases_static,
    three_phases_static, one_two_phases_dynamic, MIN_POWER_ONE_PHASE,
    MIN_POWER_TWO_PHASES, MAX_POWER_ONE_PHASE]
  norm_num
  split_ifs <;> omega

/-- C15: in mode 1/2-dyn with a fixed committed phase count `r` the decision
is monotone in the power (`P1 ≤ P2` gives `decision P1 ≤ decision P2`, for
all powers and so for those in 0..7360) and is 0, 1 or 2: it is 0 below
1380 W, 2 from the upper threshold on (2760 W for `r = 2`, 3680 W
otherwise) and 1 in between; over 0..`2 * MAX1` = 0..7360 it runs from 0
to 2. -/
theorem one_two_phases_dynamic_monotone (r P1 P2 : Nat) :
    (P1 ≤ P2 →
      get_phases_for_power one_two_phases_dynamic r P1
        ≤ get_phases_for_power one_two_phases_dynamic r P2)
    ∧ (get_phases_for_power one_two_phases_dynamic r P1 = 0
        ∨ get_phases_for_power one_two_phases_dynamic r P1 = 1
        ∨ get_phases_for_power one_two_phases_dynamic r P1 = 2)
    ∧ (get_phases_for_power one_two_phases_dynamic r P1 = 0 ↔ P1 < 1380)
    ∧ (get_phases_for_power one_two_phases_dynamic r P1 = 2 ↔
        (if r = 2 then 2760 else 3680) ≤ P1)
    ∧ 2 * MAX_POWER_ONE_PHASE = 7360
    ∧ get_phases_for_power one_two_phases_dynamic r 0 = 0
    ∧ get_phases_for_power one_two_phases_dynamic r 7360 = 2 := by
  simp only [one_two_phases_dynamic_eq, MAX_POWER_ONE_PHASE]
  refine ⟨?_, ?_, ?_, ?_, by norm_num, ?_, ?_⟩
  · intro h
    split_ifs <;> omega
  · split_ifs <;> omega
  · constructor
    · intro h
      split_ifs at h
      omega
    · intro h
      rw [if_pos h]
  · constructor
    · intro h
      split_ifs at h ⊢ <;> omega
    · intro h
      split_ifs at h ⊢ <;> omega
  · simp
  · split_ifs <;> omega

/-- C16: in mode 1/2-dyn, starting with `r = 0` and committing each decision
before the next call, the powers 1000, 1400, 3000, 3700, 3000, 2000, 1000
give the decisions 0, 1, 1, 2, 2, 1, 0; and with `r = 2` every power from
1380 W up to but excluding 2760 W gives 1. -/
theorem one_two_phases_dynamic_sweep :
    selector_sweep one_two_phases_dynamic 0
        [1000, 1400, 3000, 3700, 3000, 2000, 1000]
      = [0, 1, 1, 2, 2, 1, 0]
    ∧ ∀ P : Nat, MIN_POWER_ONE_PHASE ≤ P → P < MIN_POWER_TWO_PHASES →
        get_phases_for_power one_two_phases_dynamic 2 P = 1 := by
  refine ⟨by decide, ?_⟩
  intro P h1 h2
  simp only [get_phases_for_power, one_phase_static, two_phases_static,
    three_phases_static, one_two_phases_dynamic, MIN_POWER_ONE_PHASE,
    MIN_POWER_TWO_PHASES] at *
  norm_num at *
  split_ifs <;> omega

/-! ## Stamping of the phase request -/

/-- C17: a call `set_available_charging_power(P)` at clock value `now` sets
`requested_phases_pending` to `get_phases_for_power(P)` and records that
value in the static `last_requested_phases_pending`, which therefore holds
the pending value computed by the previous call; `last_phase_request_change`
becomes `now` when the new pending value differs both from that static and
from `requested_phases`, and is unchanged otherwise. -/
theorem set_available_charging_power_stamp (s : State) (now P : Nat) :
    (set_available_charging_power s now P).1.requested_phases_pending
        = get_phases_for_power s.operating_mode s.requested_phases P
    ∧ (set_available_charging_power s now P).1.last_requested_phases_pending
        = get_phases_for_power s.operating_mode s.requested_phases P
    ∧ (set_available_charging_power s now P).1.last_phase_request_change
        = (if get_phases_for_power s.operating_mode s.requested_phases P
                ≠ s.last_requested_phases_pending
              ∧ get_phases_for_power s.operating_mode s.requested_phases P
                ≠ s.requested_phases
            then now else s.last_phase_request_change)
    ∧ (set_available_charging_power s now P).1.available_charging_power = P := by
  refine ⟨?_, ?_, ?_, ?_⟩
  · unfold set_available_charging_power
    simp only
    split_ifs <;> rfl
  · unfold set_available_charging_power
    simp only
    split_ifs with h1 h2
    · rfl
    · rfl
    · exact (not_not.mp h1).symm
  · unfold set_available_charging_power
    simp only
    split_ifs with h1 h2 h3 h3 h3
    · rfl
    · exact absurd ⟨h1, h2⟩ h3
    · exact absurd h3.2 h2
    · rfl
    · exact absurd h3.1 h1
    · rfl
  · unfold set_available_charging_power
    simp only
    split_ifs <;> rfl

/-! ## Stamping of state changes -/

theorem handle_evse_no_gate_stamp (s : State) (now : Nat) (evse : EvseState)
    (auto_start : Bool)
    (hg : ¬ (s.enabled = false ∨ evse.charger_state = ChargerState.not_connected
      ∨ evse.charger_state = ChargerState.error)) :
    (handle_evse s now (some evse) (some auto_start)).1.last_sequencer_state
        = (handle_evse s now (some evse) (some auto_start)).1.sequencer_state
    ∧ ((handle_evse s now (some evse) (some auto_start)).1.sequencer_state
          ≠ s.last_sequencer_state →
        (handle_evse s now (some evse) (some auto_start)).1.last_state_change
          = now)
    ∧ ((handle_evse s now (some evse) (some auto_start)).1.sequencer_state
          = s.last_sequencer_state →
        (handle_evse s now (some evse) (some auto_start)).1.last_state_change
          = s.last_state_change) := by
  rw [handle_evse_no_gate s now evse auto_start hg]
  obtain ⟨a1, a2, _⟩ :=
    sequencer_dispatch_stamp_fields (handle_evse_read s evse auto_start) now
  have r1 : (handle_evse_read s evse auto_start).last_state_change
      = s.last_state_change := rfl
  have r2 : (handle_evse_read s evse auto_start).last_sequencer_state
      = s.last_sequencer_state := rfl
  refine ⟨handle_evse_stamp_last _ now, ?_, ?_⟩
  · intro h
    rw [handle_evse_stamp_sequencer_state] at h
    apply handle_evse_stamp_fires
    rw [a2, r2]
    exact fun e => h e.symm
  · intro h
    rw [handle_evse_stamp_sequencer_state] at h
    rw [handle_evse_stamp_idle _ now (by rw [a2, r2]; exact h.symm), a1, r1]

/-- C18, as stated, fails.  First run: after `scenario_contactor_round_trip`
the sequencer is `inactive`, the tick at 5250 ms moves it to
`cancelling_evse_start`, the state the previous tick had left, and
`last_state_change` stays at 250.  Second run: after the first four calls
of `scenario_stopped_by_evse` the sequencer is `active` since 10500 ms; the
tick at 20000 ms reads `not_connected`, the top-level gate sets `inactive`
and returns, and `last_state_change` stays at 10500. -/
theorem state_change_without_stamp_counterexample :
    ((run (initial_state true 123 10 10 10 10)
        scenario_contactor_round_trip).sequencer_state
      = PhaseSwitcherState.inactive
    ∧ (handle_evse (run (initial_state true 123 10 10 10 10)
          scenario_contactor_round_trip) 5250 (some evse_charging)
          (some true)).1.sequencer_state
      = PhaseSwitcherState.cancelling_evse_start
    ∧ (handle_evse (run (initial_state true 123 10 10 10 10)
          scenario_contactor_round_trip) 5250 (some evse_charging)
          (some true)).1.last_state_change = 250)
    ∧ ((run (initial_state true 123 10 10 10 10)
        (scenario_stopped_by_evse.take 4)).sequencer_state
      = PhaseSwitcherState.active
    ∧ (handle_evse (run (initial_state true 123 10 10 10 10)
          (scenario_stopped_by_evse.take 4)) 20000
          (some ⟨ChargerState.not_connected, IEC61851State.a_not_connected, 0⟩)
          (some true)).1.sequencer_state
      = PhaseSwitcherState.inactive
    ∧ (handle_evse (run (initial_state true 123 10 10 10 10)
          (scenario_stopped_by_evse.take 4)) 20000
          (some ⟨ChargerState.not_connected, IEC61851State.a_not_connected, 0⟩)
          (some true)).1.last_state_change = 10500) := by
  decide

/-- C18 as amended: a tick of `handle_evse` at clock value `now` that passes
the top-level gate ends with the static `last_sequencer_state` equal to
`sequencer_state`; it sets `last_state_change = now` when `sequencer_state`
after the tick differs from the state that static recorded before the tick
(the state at the end of the last tick that passed the gate), and leaves
`last_state_change` unchanged when they are equal.  So a tick that passes
the gate, starts with the recorded state equal to `sequencer_state` and
changes `sequencer_state` sets `last_state_change = now`. -/
theorem handle_evse_stamps_recorded_change (s : State) (now : Nat)
    (evse : EvseState) (auto_start : Bool)
    (hg : ¬ (s.enabled = false ∨ evse.charger_state = ChargerState.not_connected
      ∨ evse.charger_state = ChargerState.error)) :
    (handle_evse s now (some evse) (some auto_start)).1.last_sequencer_state
        = (handle_evse s now (some evse) (some auto_start)).1.sequencer_state
    ∧ ((handle_evse s now (some evse) (some auto_start)).1.sequencer_state
          ≠ s.last_sequencer_state →
        (handle_evse s now (some evse) (some auto_start)).1.last_state_change
          = now)
    ∧ ((handle_evse s now (some evse) (some auto_start)).1.sequencer_state
          = s.last_sequencer_state →
        (handle_evse s now (some evse) (some auto_start)).1.last_state_change
          = s.last_state_change)
    ∧ (s.last_sequencer_state = s.sequencer_state →
        (handle_evse s now (some evse) (some auto_start)).1.sequencer_state
          ≠ s.sequencer_state →
        (handle_evse s now (some evse) (some auto_start)).1.last_state_change
          = now) := by
  obtain ⟨h1, h2, h3⟩ := handle_evse_no_gate_stamp s now evse auto_start hg
  exact ⟨h1, h2, h3, fun hl hc => h2 (by rw [hl]; exact hc)⟩

/-- Witness of C18 as amended: the tick at 10500 ms of
`scenario_stopped_by_evse` moves from `waiting_for_evse_start` to `active`
and stamps 10500. -/
theorem handle_evse_stamps_recorded_change_witness :
    ¬ ((run (initial_state true 123 10 10 10 10)
          (scenario_stopped_by_evse.take 3)).enabled = false
        ∨ evse_charging.charger_state = ChargerState.not_connected
        ∨ evse_charging.charger_state = ChargerState.error)
    ∧ (run (initial_state true 123 10 10 10 10)
          (scenario_stopped_by_evse.take 3)).last_sequencer_state
        = (run (initial_state true 123 10 10 10 10)
          (scenario_stopped_by_evse.take 3)).sequencer_state
    ∧ (handle_evse (run (initial_state true 123 10 10 10 10)
          (scenario_stopped_by_evse.take 3)) 10500 (some evse_charging)
          (some true)).1.sequencer_state
        ≠ (run (initial_state true 123 10 10 10 10)
          (scenario_stopped_by_evse.take 3)).sequencer_state
    ∧ (handle_evse (run (initial_state true 123 10 10 10 10)
          (scenario_stopped_by_evse.take 3)) 10500 (some evse_charging)
          (some true)).1.last_state_change = 10500 :=
  ⟨by decide, by decide, by decide,
    (handle_evse_stamps_recorded_change _ 10500 evse_charging true
      (by decide)).2.2.2 (by decide) (by decide)⟩

/-! ## Telemetry samples -/

theorem to_int16_of_lt (x : Nat) (h : x < 2 ^ 15) :
    to_int16 (x : Int) = (x : Int) := by
  unfold to_int16
  have h1 : ((x : Int) + 2 ^ 15) % 2 ^ 16 = (x : Int) + 2 ^ 15 := by
    apply Int.emod_eq_of_lt <;> omega
  omega

theorem to_int16_of_ge (x : Nat) (h1 : 2 ^ 15 ≤ x) (h2 : x < 2 ^ 16) :
    to_int16 (x : Int) = (x : Int) - 2 ^ 16 := by
  unfold to_int16
  norm_num at *
  omega

theorem ring_push_getLast (ring : List Int) (item : Int) :
    (ring_push ring item).getLast? = some item := by
  unfold ring_push
  split_ifs <;> simp

/-- C19, as stated, fails: after the API command announced 40000 W,
`update_history` appends the sample -25536 to the requested-power ring. -/
theorem update_history_large_power_counterexample :
    (run (initial_state true 123 10 10 10 10)
        [Op.available_charging_power_command 0 40000]).available_charging_power
      = 40000
    ∧ (update_history
        (run (initial_state true 123 10 10 10 10)
          [Op.available_charging_power_command 0 40000])
        none initial_history).requested_power_history.getLast?
      = some (-25536) := by
  refine ⟨by decide, ?_⟩
  rw [show (update_history
        (run (initial_state true 123 10 10 10 10)
          [Op.available_charging_power_command 0 40000])
        none initial_history).requested_power_history
      = ring_push initial_history.requested_power_history
          (to_int16 (((run (initial_state true 123 10 10 10 10)
            [Op.available_charging_power_command 0 40000]).available_charging_power
              : Nat) : Int)) from rfl]
  rw [ring_push_getLast]
  decide

/-- C19 as amended: `update_history` pushes to the requested-power ring the
sample `available_charging_power` when that is at most 32767, and
`available_charging_power - 65536` (a negative sample) when it is between
32768 and 65535; for `requested_phases` in 0..3 it pushes to the phases
ring the sample `requested_phases * 230 * 6`.  A push makes the sample the
newest entry; it extends a ring of fewer than 721 samples and replaces the
oldest sample of a ring of 721. -/
theorem update_history_samples (s : State) (meter_power : Option Int)
    (h : History) :
    (s.available_charging_power ≤ 32767 →
      (update_history s meter_power h).requested_power_history
        = ring_push h.requested_power_history (s.available_charging_power : Int))
    ∧ (32768 ≤ s.available_charging_power →
      s.available_charging_power ≤ 65535 →
      (update_history s meter_power h).requested_power_history
        = ring_push h.requested_power_history
            ((s.available_charging_power : Int) - 65536))
    ∧ (s.requested_phases ≤ 3 →
      (update_history s meter_power h).active_phases_history
        = ring_push h.active_phases_history
            ((s.requested_phases * 230 * 6 : Nat) : Int))
    ∧ (∀ (ring : List Int) (item : Int),
      (ring_push ring item).getLast? = some item
      ∧ (ring.length < 721 → ring_push ring item = ring ++ [item])
      ∧ (ring.length = 721 →
          ring_push ring item = ring.tail ++ [item]
          ∧ (ring_push ring item).length = 721)) := by
  refine ⟨?_, ?_, ?_, ?_⟩
  · intro hp
    show ring_push h.requested_power_history
      (to_int16 (s.available_charging_power : Int)) = _
    rw [to_int16_of_lt _ (by norm_num; omega)]
  · intro h1 h2
    show ring_push h.requested_power_history
      (to_int16 (s.available_charging_power : Int)) = _
    rw [to_int16_of_ge _ (by norm_num; omega) (by norm_num; omega)]
    norm_num
  · intro hr
    show ring_push h.active_phases_history
      (to_int16 (wrap_int32 ((s.requested_phases : Int) * 230 * 6))) = _
    have e : (s.requested_phases : Int) * 230 * 6
        = ((s.requested_phases * 230 * 6 : Nat) : Int) := by push_cast; ring
    rw [e, wrap_int32_of_lt _ (by norm_num; omega),
      to_int16_of_lt _ (by norm_num; omega)]
  · intro ring item
    refine ⟨ring_push_getLast ring item, ?_, ?_⟩
    · intro hl
      unfold ring_push
      rw [if_neg]
      simp only [PHASE_SWITCHER_RING_BUF_SIZE]
      omega
    · intro hl
      unfold ring_push
      rw [if_pos (by simp only [PHASE_SWITCHER_RING_BUF_SIZE]; omega)]
      refine ⟨rfl, ?_⟩
      simp [hl]

/-- Witness of C19 as amended: 5000 W announced, three phases committed. -/
theorem update_history_samples_witness :
    ({ initial_state true 123 10 10 10 10 with
        available_charging_power := 5000
        requested_phases := 3 }).available_charging_power ≤ 32767
    ∧ (update_history
        { initial_state true 123 10 10 10 10 with
          available_charging_power := 5000
          requested_phases := 3 } none ⟨[], [], []⟩).requested_power_history
      = [5000] :=
  ⟨by decide,
    ((update_history_samples
      { initial_state true 123 10 10 10 10 with
        available_charging_power := 5000
        requested_phases := 3 } none ⟨[], [], []⟩).1 (by decide)).trans
      (by decide)⟩

/-! ## History endpoints -/

theorem format_d_of_nonneg (val : Int) (h0 : 0 ≤ val) (h1 : val ≤ 32767) :
    format_d val = (Nat.repr val.toNat).toList
    ∧ (format_d val).length ≤ 5 := by
  have e : format_d val = (Nat.repr val.toNat).toList := by
    unfold format_d
    rw [if_neg (by omega)]
  refine ⟨e, ?_⟩
  rw [e]
  have hl : (Nat.repr val.toNat).toList.length = (Nat.repr val.toNat).length := rfl
  rw [hl]
  apply Nat.repr_length _ 5 (by norm_num)
  omega

/-- The text of one array entry: `null` for a negative sample, the decimal
digits otherwise. -/
theorem history_entry_length (val : Int) (h0 : -32768 ≤ val) (h1 : val ≤ 32767) :
    (if val < 0 then "null".toList else (Nat.repr val.toNat).toList).length ≤ 5 := by
  by_cases h : val < 0
  · rw [if_pos h]; decide
  · rw [if_neg h]
    have := (format_d_of_nonneg val (by omega) h1)
    rw [← this.1]
    exact this.2

theorem snprintf_at_fits (buf_size : Nat) (buf : List Char × Nat)
    (text : List Char) (h : buf.2 + text.length < buf_size) :
    snprintf_at buf_size buf text = (buf.1 ++ text, buf.2 + text.length) := by
  unfold snprintf_at
  rw [List.take_of_length_le (by omega)]

theorem history_loop_fits (buf_size : Nat) (rest : List Int) :
    ∀ buf : List Char × Nat,
      (∀ v ∈ rest, -32768 ≤ v ∧ v ≤ 32767) →
      buf.2 = buf.1.length →
      buf.2 + 6 * rest.length < buf_size →
      history_loop buf_size rest buf
        = (buf.1 ++ (rest.map (fun v => ',' ::
              (if v < 0 then "null".toList
                else (Nat.repr v.toNat).toList))).flatten,
           (buf.1 ++ (rest.map (fun v => ',' ::
              (if v < 0 then "null".toList
                else (Nat.repr v.toNat).toList))).flatten).length) := by
  induction rest with
  | nil =>
    intro buf _ hb _
    simp only [history_loop, List.map_nil, List.flatten_nil, List.append_nil]
    rw [← hb]
  | cons v rest ih =>
    intro buf hr hb hs
    have hv := hr v (List.mem_cons_self _ _)
    have hlen := history_entry_length v hv.1 hv.2
    have htext : (if v < 0 then ",null".toList else ',' :: format_d v)
        = ',' :: (if v < 0 then "null".toList else (Nat.repr v.toNat).toList) := by
      by_cases h : v < 0
      · rw [if_pos h, if_pos h]; rfl
      · rw [if_neg h, if_neg h, (format_d_of_nonneg v (by omega) hv.2).1]
    simp only [List.length_cons] at hs
    unfold history_loop
    rw [if_pos (by omega), htext,
      snprintf_at_fits _ _ _ (by simp only [List.length_cons]; omega)]
    rw [ih _ (fun w hw => hr w (List.mem_cons_of_mem _ hw))
      (by simp only [List.length_append, List.length_cons]; omega)
      (by simp only [List.length_cons]; omega)]
    simp only [List.map_cons, List.flatten_cons, List.append_assoc]

theorem intercalate_cons_eq (sep x : List Char) (rest : List (List Char)) :
    List.intercalate sep (x :: rest)
      = x ++ (rest.map (fun e => sep ++ e)).flatten := by
  induction rest generalizing x with
  | nil => simp [List.intercalate]
  | cons y rest ih =>
    have h := ih y
    simp only [List.intercalate, List.intersperse, List.flatten_cons,
      List.map_cons, List.append_assoc] at h ⊢
    rw [h]

theorem history_entries_length (rest : List Int)
    (hr : ∀ v ∈ rest, -32768 ≤ v ∧ v ≤ 32767) :
    ((rest.map (fun v => ',' ::
        (if v < 0 then "null".toList
          else (Nat.repr v.toNat).toList))).flatten).length
      ≤ 6 * rest.length := by
  induction rest with
  | nil => simp
  | cons v rest ih =>
    have hv := hr v (List.mem_cons_self _ _)
    have hlen := history_entry_length v hv.1 hv.2
    have := ih (fun w hw => hr w (List.mem_cons_of_mem _ hw))
    simp only [List.map_cons, List.flatten_cons, List.length_append,
      List.length_cons]
    omega

theorem history_response_of_cons (val_0 oldest : Int) (rest : List Int)
    (hlen : rest.length ≤ 720)
    (hr : ∀ v ∈ oldest :: rest, -32768 ≤ v ∧ v ≤ 32767) :
    history_response val_0 (oldest :: rest)
      = (json_array ((oldest :: rest).map (fun v =>
            if v < 0 then "null".toList else (Nat.repr v.toNat).toList)),
         (json_array ((oldest :: rest).map (fun v =>
            if v < 0 then "null".toList
              else (Nat.repr v.toNat).toList))).length) := by
  have hv := hr oldest (List.mem_cons_self _ _)
  have hrest : ∀ v ∈ rest, -32768 ≤ v ∧ v ≤ 32767 :=
    fun w hw => hr w (List.mem_cons_of_mem _ hw)
  have h0len := history_entry_length oldest hv.1 hv.2
  have htext : (if oldest < 0 then "[null".toList else '[' :: format_d oldest)
      = '[' :: (if oldest < 0 then "null".toList
          else (Nat.repr oldest.toNat).toList) := by
    by_cases h : oldest < 0
    · rw [if_pos h, if_pos h]; rfl
    · rw [if_neg h, if_neg h, (format_d_of_nonneg oldest (by omega) hv.2).1]
  have hbody := history_entries_length rest hrest
  unfold history_response
  simp only [List.tail_cons, PHASE_SWITCHER_RING_BUF_SIZE]
  rw [htext, snprintf_at_fits _ _ _ (by simp only [List.length_cons]; omega)]
  rw [history_loop_fits _ rest _ hrest
    (by simp only [List.nil_append, Nat.zero_add])
    (by simp only [List.length_cons, Nat.zero_add]; omega)]
  simp only [List.nil_append]
  rw [if_pos (by simp only [List.length_append, List.length_cons]; omega),
    snprintf_at_fits _ _ _
      (by simp only [List.length_append, List.length_cons, List.length_nil]; omega)]
  have hj : json_array ((oldest :: rest).map (fun v =>
        if v < 0 then "null".toList else (Nat.repr v.toNat).toList))
      = ('[' :: (if oldest < 0 then "null".toList
            else (Nat.repr oldest.toNat).toList)
          ++ (rest.map (fun v => ',' ::
              (if v < 0 then "null".toList
                else (Nat.repr v.toNat).toList))).flatten) ++ [']'] := by
    unfold json_array
    rw [List.map_cons, intercalate_cons_eq, List.map_map]
    rfl
  rw [hj]
  simp only [List.length_append, List.length_cons, List.length_nil]

/-- C20, as stated, fails: a meter reading of -2 W is pushed to the
measured-power ring as the sample -2, which is not -1, and the endpoint
renders it as `null`, not as its decimal integer. -/
theorem history_response_negative_sample_counterexample :
    (update_history (initial_state true 123 10 10 10 10) (some (-2))
        ⟨[], [], []⟩).charging_power_history = [-2]
    ∧ history_response 0 [-2] = ("[null]".toList, 6)
    ∧ history_response 0 [-2, 5] = ("[null,5]".toList, 8) := by
  decide

/-- C20 as amended: for a ring holding between 1 and 721 samples of type
`int16_t`, oldest first, a history endpoint sends the JSON array with one
entry per sample in the same order, where the entry is `null` exactly when
the sample is negative (-1 or any other negative value) and the sample's
decimal integer otherwise; the text fits the buffer, and `buf_written` is
its length. -/
theorem history_response_json (val_0 : Int) (ring : List Int)
    (hne : ring ≠ []) (hlen : ring.length ≤ 721)
    (hr : ∀ v ∈ ring, -32768 ≤ v ∧ v ≤ 32767) :
    history_response val_0 ring
      = (json_array (ring.map (fun v =>
            if v < 0 then "null".toList else (Nat.repr v.toNat).toList)),
         (json_array (ring.map (fun v =>
            if v < 0 then "null".toList
              else (Nat.repr v.toNat).toList))).length) := by
  cases ring with
  | nil => exact absurd rfl hne
  | cons oldest rest =>
    exact history_response_of_cons val_0 oldest rest
      (by simp only [List.length_cons] at hlen; omega) hr

/-- Witness of C20 as amended: a ring with a pre-filled sample, 5000 and 0. -/
theorem history_response_json_witness :
    ([-1, 5000, 0] : List Int) ≠ []
    ∧ ([-1, 5000, 0] : List Int).length ≤ 721
    ∧ (∀ v ∈ ([-1, 5000, 0] : List Int), -32768 ≤ v ∧ v ≤ 32767)
    ∧ history_response 0 [-1, 5000, 0] = ("[null,5000,0]".toList, 13) :=
  ⟨by decide, by decide, by decide,
    (history_response_json 0 [-1, 5000, 0] (by decide) (by decide)
      (by decide)).trans (by decide)⟩

/-! ## One tick of the sequencer, state by state -/

theorem handle_evse_stamp_quick_charging_active (s : State) (now : Nat) :
    (handle_evse_stamp s now).quick_charging_active = s.quick_charging_active := by
  unfold handle_evse_stamp
  split_ifs <;> rfl

/-- A tick that passes the top-level gate: the members the sequencer
decides are those the state handler leaves, and the commands are the
handler's. -/
theorem handle_evse_tick_fields (s : State) (now : Nat) (evse : EvseState)
    (auto_start : Bool)
    (hg : ¬ (s.enabled = false ∨ evse.charger_state = ChargerState.not_connected
      ∨ evse.charger_state = ChargerState.error)) :
    (handle_evse s now (some evse) (some auto_start)).1.sequencer_state
        = (sequencer_dispatch (handle_evse_read s evse auto_start) now).1.sequencer_state
    ∧ (handle_evse s now (some evse) (some auto_start)).1.requested_phases
        = (sequencer_dispatch (handle_evse_read s evse auto_start) now).1.requested_phases
    ∧ (handle_evse s now (some evse) (some auto_start)).1.quick_charging_active
        = (sequencer_dispatch (handle_evse_read s evse auto_start)
            now).1.quick_charging_active
    ∧ (handle_evse s now (some evse) (some auto_start)).2
        = (sequencer_dispatch (handle_evse_read s evse auto_start) now).2 := by
  rw [handle_evse_no_gate s now evse auto_start hg]
  exact ⟨handle_evse_stamp_sequencer_state _ now,
    handle_evse_stamp_requested_phases _ now,
    handle_evse_stamp_quick_charging_active _ now, rfl⟩

/-- C22 fails on the code.  After `scenario_standby_without_power` the
sequencer is `standby` with `requested_phases_pending = 0` and the module
is enabled.  At 20000 ms, 10 s after the deadline of `delay_time_more_phases`
has passed, the EVSE reports `charging`: the tick passes the gate, stays in
`standby` and sends nothing, and so does the next tick.  Had the EVSE
reported `charging` at 5000 ms, before the deadline, the tick would have
moved to `cancelling_evse_start`. -/
theorem standby_tick_keeps_evse_start_after_delay :
    (run (initial_state true 123 10 10 10 10)
        scenario_standby_without_power).sequencer_state
      = PhaseSwitcherState.standby
    ∧ (run (initial_state true 123 10 10 10 10)
        scenario_standby_without_power).requested_phases_pending = 0
    ∧ (run (initial_state true 123 10 10 10 10)
        scenario_standby_without_power).enabled = true
    ∧ handle_evse (run (initial_state true 123 10 10 10 10)
          scenario_standby_without_power) 20000 (some evse_charging) (some true)
      = (run (initial_state true 123 10 10 10 10)
          (scenario_standby_without_power
            ++ [Op.handle_evse 20000 (some evse_charging) (some true)]), [])
    ∧ (run (initial_state true 123 10 10 10 10)
        (scenario_standby_without_power
          ++ [Op.handle_evse 20000 (some evse_charging) (some true)])).sequencer_state
      = PhaseSwitcherState.standby
    ∧ (handle_evse (run (initial_state true 123 10 10 10 10)
          (scenario_standby_without_power
            ++ [Op.handle_evse 20000 (some evse_charging) (some true)]))
          20250 (some evse_charging) (some true)).1.sequencer_state
      = PhaseSwitcherState.standby
    ∧ (handle_evse (run (initial_state true 123 10 10 10 10)
          scenario_standby_without_power) 5000 (some evse_charging)
          (some true)).1.sequencer_state
      = PhaseSwitcherState.cancelling_evse_start := by
  decide

theorem sequencer_state_waiting_for_evse_stop_cases (t : State) (now : Nat) :
    (t.charger_state = ChargerState.charging →
      (sequencer_state_waiting_for_evse_stop t now).1.sequencer_state
          = t.sequencer_state
      ∧ (sequencer_state_waiting_for_evse_stop t now).1.requested_phases
          = t.requested_phases)
    ∧ (t.charger_state ≠ ChargerState.charging →
      (t.requested_phases_pending ≠ 0 ∧ t.contactor_error = false →
        (sequencer_state_waiting_for_evse_stop t now).1.sequencer_state
            = PhaseSwitcherState.pausing_while_switching
        ∧ (sequencer_state_waiting_for_evse_stop t now).1.requested_phases
            = t.requested_phases)
      ∧ (¬ (t.requested_phases_pending ≠ 0 ∧ t.contactor_error = false) →
        (sequencer_state_waiting_for_evse_stop t now).1.requested_phases
            = t.requested_phases_pending
        ∧ (sequencer_state_waiting_for_evse_stop t now).1.sequencer_state
            = PhaseSwitcherState.standby)) := by
  unfold sequencer_state_waiting_for_evse_stop
  refine ⟨?_, ?_⟩
  · intro hc
    by_cases hw : deadline_elapsed now
        (add_u32 t.watchdog_waiting_for_evse_stop EVSE_STOP_TIMEOUT) = true
    · simp only [hw, if_true]
      rw [if_neg (by simp [hc])]
      exact ⟨rfl, rfl⟩
    · simp only [hw, Bool.false_eq_true, if_false]
      rw [if_neg (by simp [hc])]
      exact ⟨rfl, rfl⟩
  · intro hc
    by_cases hw : deadline_elapsed now
        (add_u32 t.watchdog_waiting_for_evse_stop EVSE_STOP_TIMEOUT) = true
    · simp only [hw, if_true]
      rw [if_pos hc]
      constructor
      · intro hp
        rw [if_pos hp]
        exact ⟨rfl, rfl⟩
      · intro hp
        rw [if_neg hp]
        exact ⟨rfl, rfl⟩
    · simp only [hw, Bool.false_eq_true, if_false]
      rw [if_pos hc]
      constructor
      · intro hp
        rw [if_pos hp]
        exact ⟨rfl, rfl⟩
      · intro hp
        rw [if_neg hp]
        exact ⟨rfl, rfl⟩

/-- C24: a tick of `handle_evse` that passes the top-level gate and starts
in `waiting_for_evse_stop`.  While the charger state read is `charging`,
`sequencer_state` and `requested_phases` are unchanged.  When it is not
`charging`: if `requested_phases_pending` is not 0 and `contactor_error` is
false, the next state is `pausing_while_switching` and `requested_phases`
is unchanged; otherwise `requested_phases` becomes
`requested_phases_pending` and the next state is `standby`. -/
theorem waiting_for_evse_stop_tick_transitions (s : State) (now : Nat)
    (evse : EvseState) (auto_start : Bool)
    (hg : ¬ (s.enabled = false ∨ evse.charger_state = ChargerState.not_connected
      ∨ evse.charger_state = ChargerState.error))
    (hs : s.sequencer_state = PhaseSwitcherState.waiting_for_evse_stop) :
    (evse.charger_state = ChargerState.charging →
      (handle_evse s now (some evse) (some auto_start)).1.sequencer_state
          = PhaseSwitcherState.waiting_for_evse_stop
      ∧ (handle_evse s now (some evse) (some auto_start)).1.requested_phases
          = s.requested_phases)
    ∧ (evse.charger_state ≠ ChargerState.charging →
      (s.requested_phases_pending ≠ 0 ∧ s.contactor_error = false →
        (handle_evse s now (some evse) (some auto_start)).1.sequencer_state
            = PhaseSwitcherState.pausing_while_switching
        ∧ (handle_evse s now (some evse) (some auto_start)).1.requested_phases
            = s.requested_phases)
      ∧ (¬ (s.requested_phases_pending ≠ 0 ∧ s.contactor_error = false) →
        (handle_evse s now (some evse) (some auto_start)).1.requested_phases
            = s.requested_phases_pending
        ∧ (handle_evse s now (some evse) (some auto_start)).1.sequencer_state
            = PhaseSwitcherState.standby)) := by
  obtain ⟨f1, f2, _, _⟩ := handle_evse_tick_fields s now evse auto_start hg
  have hd : sequencer_dispatch (handle_evse_read s evse auto_start) now
      = sequencer_state_waiting_for_evse_stop
          (handle_evse_read s evse auto_start) now := by
    have hs2 : (handle_evse_read s evse auto_start).sequencer_state
        = PhaseSwitcherState.waiting_for_evse_stop := hs
    simp only [sequencer_dispatch, hs2]
  rw [f1, f2, hd]
  obtain ⟨c1, c2⟩ := sequencer_state_waiting_for_evse_stop_cases
    (handle_evse_read s evse auto_start) now
  refine ⟨?_, ?_⟩
  · intro hc
    rw [(c1 hc).1, (c1 hc).2]
    exact ⟨hs, rfl⟩
  · intro hc
    exact c2 hc

/-- Witness of C24: in `scenario_demote_under_load` the tick at 21250 ms
finds the EVSE stopped with one phase pending and no contactor error, and
moves from `waiting_for_evse_stop` to `pausing_while_switching`. -/
theorem waiting_for_evse_stop_tick_transitions_witness :
    ¬ ((run (initial_state true 123 10 10 10 10)
          (scenario_demote_under_load.take 6)).enabled = false
        ∨ evse_waiting.charger_state = ChargerState.not_connected
        ∨ evse_waiting.charger_state = ChargerState.error)
    ∧ (run (initial_state true 123 10 10 10 10)
          (scenario_demote_under_load.take 6)).sequencer_state
        = PhaseSwitcherState.waiting_for_evse_stop
    ∧ (handle_evse (run (initial_state true 123 10 10 10 10)
          (scenario_demote_under_load.take 6)) 21250 (some evse_waiting)
          (some true)).1.sequencer_state
        = PhaseSwitcherState.pausing_while_switching
    ∧ (handle_evse (run (initial_state true 123 10 10 10 10)
          (scenario_demote_under_load.take 6)) 21250 (some evse_waiting)
          (some true)).1.requested_phases = 3 :=
  ⟨by decide, by decide,
    (((waiting_for_evse_stop_tick_transitions _ 21250 evse_waiting true
      (by decide) (by decide)).2 (by decide)).1 (by decide)).1,
    (((waiting_for_evse_stop_tick_transitions _ 21250 evse_waiting true
      (by decide) (by decide)).2 (by decide)).1 (by decide)).2⟩

theorem sequencer_state_pausing_while_switching_cases (t : State) (now : Nat) :
    (deadline_elapsed now
        (deadline_after_seconds t.last_state_change t.pause_time) = false →
      sequencer_state_pausing_while_switching t now = (t, []))
    ∧ (deadline_elapsed now
        (deadline_after_seconds t.last_state_change t.pause_time) = true →
      (sequencer_state_pausing_while_switching t now).1.requested_phases
          = t.requested_phases_pending
      ∧ (sequencer_state_pausing_while_switching t now).1.sequencer_state
          = PhaseSwitcherState.waiting_for_evse_start
      ∧ (sequencer_state_pausing_while_switching t now).2
          = set_current t.power t.requested_phases_pending) := by
  unfold sequencer_state_pausing_while_switching
  constructor
  · intro h
    rw [if_neg (by simp [h])]
  · intro h
    rw [if_pos h]
    exact ⟨rfl, rfl, rfl⟩

/-- C25: a tick of `handle_evse` at clock value `now` that passes the
top-level gate and starts in `pausing_while_switching`.  If the deadline of
`pause_time` seconds after `last_state_change` has not elapsed,
`sequencer_state` and `requested_phases` are unchanged and nothing is sent
to the EVSE.  If it has elapsed, `requested_phases` becomes
`requested_phases_pending`, the current derived from `power` and the new
`requested_phases` is pushed as the only effect, and the next state is
`waiting_for_evse_start`. -/
theorem pausing_tick_restarts_after_pause (s : State) (now : Nat)
    (evse : EvseState) (auto_start : Bool)
    (hg : ¬ (s.enabled = false ∨ evse.charger_state = ChargerState.not_connected
      ∨ evse.charger_state = ChargerState.error))
    (hs : s.sequencer_state = PhaseSwitcherState.pausing_while_switching) :
    (deadline_elapsed now
        (deadline_after_seconds s.last_state_change s.pause_time) = false →
      (handle_evse s now (some evse) (some auto_start)).1.sequencer_state
          = PhaseSwitcherState.pausing_while_switching
      ∧ (handle_evse s now (some evse) (some auto_start)).1.requested_phases
          = s.requested_phases
      ∧ (handle_evse s now (some evse) (some auto_start)).2 = [])
    ∧ (deadline_elapsed now
        (deadline_after_seconds s.last_state_change s.pause_time) = true →
      (handle_evse s now (some evse) (some auto_start)).1.requested_phases
          = s.requested_phases_pending
      ∧ (handle_evse s now (some evse) (some auto_start)).2
          = [Effect.external_current_update
              (requested_current s.power
                (handle_evse s now (some evse)
                  (some auto_start)).1.requested_phases)]
      ∧ (handle_evse s now (some evse) (some auto_start)).1.sequencer_state
          = PhaseSwitcherState.waiting_for_evse_start) := by
  obtain ⟨f1, f2, _, f4⟩ := handle_evse_tick_fields s now evse auto_start hg
  have hd : sequencer_dispatch (handle_evse_read s evse auto_start) now
      = sequencer_state_pausing_while_switching
          (handle_evse_read s evse auto_start) now := by
    have hs2 : (handle_evse_read s evse auto_start).sequencer_state
        = PhaseSwitcherState.pausing_while_switching := hs
    simp only [sequencer_dispatch, hs2]
  rw [f1, f2, f4, hd]
  obtain ⟨c1, c2⟩ := sequencer_state_pausing_while_switching_cases
    (handle_evse_read s evse auto_start) now
  refine ⟨?_, ?_⟩
  · intro h
    rw [c1 h]
    exact ⟨hs, rfl, rfl⟩
  · intro h
    obtain ⟨d1, d2, d3⟩ := c2 h
    rw [d1, d2, d3]
    exact ⟨rfl, rfl, rfl⟩

/-- Witness of C25: `scenario_demote_under_load` ends in
`pausing_while_switching` entered at 21250 ms with a pause of 10 s; the tick
at 31250 ms commits the pending single phase, pushes 8695 mA (2000 W on one
phase) and moves to `waiting_for_evse_start`. -/
theorem pausing_tick_restarts_after_pause_witness :
    ¬ ((run (initial_state true 123 10 10 10 10)
          scenario_demote_under_load).enabled = false
        ∨ evse_waiting.charger_state = ChargerState.not_connected
        ∨ evse_waiting.charger_state = ChargerState.error)
    ∧ (run (initial_state true 123 10 10 10 10)
          scenario_demote_under_load).sequencer_state
        = PhaseSwitcherState.pausing_while_switching
    ∧ deadline_elapsed 31250
        (deadline_after_seconds
          (run (initial_state true 123 10 10 10 10)
            scenario_demote_under_load).last_state_change
          (run (initial_state true 123 10 10 10 10)
            scenario_demote_under_load).pause_time) = true
    ∧ (handle_evse (run (initial_state true 123 10 10 10 10)
          scenario_demote_under_load) 31250 (some evse_waiting)
          (some true)).1.requested_phases = 1
    ∧ (handle_evse (run (initial_state true 123 10 10 10 10)
          scenario_demote_under_load) 31250 (some evse_waiting)
          (some true)).2 = [Effect.external_current_update 8695]
    ∧ (handle_evse (run (initial_state true 123 10 10 10 10)
          scenario_demote_under_load) 31250 (some evse_waiting)
          (some true)).1.sequencer_state
        = PhaseSwitcherState.waiting_for_evse_start :=
  ⟨by decide, by decide, by decide,
    ((pausing_tick_restarts_after_pause _ 31250 evse_waiting true
      (by decide) (by decide)).2 (by decide)).1.trans (by decide),
    ((pausing_tick_restarts_after_pause _ 31250 evse_waiting true
      (by decide) (by decide)).2 (by decide)).2.1.trans (by decide),
    ((pausing_tick_restarts_after_pause _ 31250 evse_waiting true
      (by decide) (by decide)).2 (by decide)).2.2⟩

theorem sequencer_state_stopped_by_evse_cases (t : State) :
    (t.quick_charging_active = true →
      (sequencer_state_stopped_by_evse t).1.sequencer_state
        = PhaseSwitcherState.standby)
    ∧ (t.quick_charging_active = false →
      t.charger_state = ChargerState.charging →
      (sequencer_state_stopped_by_evse t).1.sequencer_state
        = PhaseSwitcherState.active)
    ∧ (t.quick_charging_active = false →
      t.charger_state ≠ ChargerState.charging →
      (sequencer_state_stopped_by_evse t).1.sequencer_state
        = t.sequencer_state)
    ∧ (sequencer_state_stopped_by_evse t).1.requested_phases
        = t.requested_phases_pending
    ∧ (sequencer_state_stopped_by_evse t).1.requested_phases_pending
        = t.requested_phases_pending := by
  unfold sequencer_state_stopped_by_evse
  refine ⟨?_, ?_, ?_, ?_, ?_⟩
  · intro h
    simp only [h, if_true]
  · intro h hc
    simp only [h, hc, if_true, Bool.false_eq_true, if_false]
  · intro h hc
    simp only [h, hc, Bool.false_eq_true, if_false]
  · simp only
    split_ifs <;> rfl
  · simp only
    split_ifs <;> rfl

/-- C26: a tick of `handle_evse` that passes the top-level gate and starts
in `stopped_by_evse`.  If `quick_charging_active` the next state is
`standby`; otherwise, if the charger state read is `charging`, the next
state is `active`; otherwise the state stays `stopped_by_evse`.  After the
tick `requested_phases` equals `requested_phases_pending`, in particular
whenever the tick leaves `stopped_by_evse`. -/
theorem stopped_by_evse_tick_transitions (s : State) (now : Nat)
    (evse : EvseState) (auto_start : Bool)
    (hg : ¬ (s.enabled = false ∨ evse.charger_state = ChargerState.not_connected
      ∨ evse.charger_state = ChargerState.error))
    (hs : s.sequencer_state = PhaseSwitcherState.stopped_by_evse) :
    (s.quick_charging_active = true →
      (handle_evse s now (some evse) (some auto_start)).1.sequencer_state
        = PhaseSwitcherState.standby)
    ∧ (s.quick_charging_active = false →
      evse.charger_state = ChargerState.charging →
      (handle_evse s now (some evse) (some auto_start)).1.sequencer_state
        = PhaseSwitcherState.active)
    ∧ (s.quick_charging_active = false →
      evse.charger_state ≠ ChargerState.charging →
      (handle_evse s now (some evse) (some auto_start)).1.sequencer_state
        = PhaseSwitcherState.stopped_by_evse)
    ∧ ((handle_evse s now (some evse) (some auto_start)).1.sequencer_state
          ≠ PhaseSwitcherState.stopped_by_evse →
      (handle_evse s now (some evse) (some auto_start)).1.requested_phases
        = (handle_evse s now (some evse)
            (some auto_start)).1.requested_phases_pending)
    ∧ (handle_evse s now (some evse) (some auto_start)).1.requested_phases
        = s.requested_phases_pending := by
  obtain ⟨f1, f2, _, _⟩ := handle_evse_tick_fields s now evse auto_start hg
  have f5 : (handle_evse s now (some evse)
      (some auto_start)).1.requested_phases_pending
      = (sequencer_dispatch (handle_evse_read s evse auto_start)
          now).1.requested_phases_pending := by
    rw [handle_evse_no_gate s now evse auto_start hg]
    exact handle_evse_stamp_requested_phases_pending _ now
  have hd : sequencer_dispatch (handle_evse_read s evse auto_start) now
      = sequencer_state_stopped_by_evse
          (handle_evse_read s evse auto_start) := by
    have hs2 : (handle_evse_read s evse auto_start).sequencer_state
        = PhaseSwitcherState.stopped_by_evse := hs
    simp only [sequencer_dispatch, hs2]
  rw [f1, f2, f5, hd]
  obtain ⟨c1, c2, c3, c4, c5⟩ := sequencer_state_stopped_by_evse_cases
    (handle_evse_read s evse auto_start)
  refine ⟨c1, c2, ?_, ?_, c4⟩
  · intro h hc
    rw [c3 h hc]
    exact hs
  · intro _
    rw [c4, c5]

/-- Witness of C26: in `scenario_stopped_by_evse` the tick at 11250 ms finds
the EVSE charging again without quick charging; it moves from
`stopped_by_evse` to `active` with the pending single phase committed. -/
theorem stopped_by_evse_tick_transitions_witness :
    ¬ ((run (initial_state true 123 10 10 10 10)
          (scenario_stopped_by_evse.take 7)).enabled = false
        ∨ evse_charging.charger_state = ChargerState.not_connected
        ∨ evse_charging.charger_state = ChargerState.error)
    ∧ (run (initial_state true 123 10 10 10 10)
          (scenario_stopped_by_evse.take 7)).sequencer_state
        = PhaseSwitcherState.stopped_by_evse
    ∧ (handle_evse (run (initial_state true 123 10 10 10 10)
          (scenario_stopped_by_evse.take 7)) 11250 (some evse_charging)
          (some true)).1.sequencer_state = PhaseSwitcherState.active
    ∧ (handle_evse (run (initial_state true 123 10 10 10 10)
          (scenario_stopped_by_evse.take 7)) 11250 (some evse_charging)
          (some true)).1.requested_phases = 1 :=
  ⟨by decide, by decide,
    (stopped_by_evse_tick_transitions _ 11250 evse_charging true
      (by decide) (by decide)).2.1 (by decide) (by decide),
    (stopped_by_evse_tick_transitions _ 11250 evse_charging true
      (by decide) (by decide)).2.2.2.2.trans (by decide)⟩

/-! ## Watchdogs that restart from zero -/

/-- C27 fails on the code.  In `scenario_late_start` the first session
leaves `waiting_for_evse_start` at 10500 ms, which resets the watchdog of
that state to 0, and the tick at 3000010250 ms enters the state again.  On
the first tick in the state, at 3000010500 ms, `deadline_elapsed` of
`0 + EVSE_START_TIMEOUT` is false, no start command is issued, and none is
issued 10 s later either.  In `scenario_late_cancel` the same happens with
the stop command of `cancelling_evse_start` at 3000000250 ms.  Right after
boot, the first tick in `cancelling_evse_start` at 500 ms issues no stop
command either.  For comparison, the first tick in
`waiting_for_evse_start` at 10500 ms does issue the start command. -/
theorem first_tick_command_not_issued :
    (run (initial_state true 123 10 10 10 10)
        (scenario_late_start.take 7)).sequencer_state
      = PhaseSwitcherState.standby
    ∧ (run (initial_state true 123 10 10 10 10)
        scenario_late_start).sequencer_state
      = PhaseSwitcherState.waiting_for_evse_start
    ∧ (run (initial_state true 123 10 10 10 10)
        scenario_late_start).watchdog_waiting_for_evse_start = 0
    ∧ (handle_evse (run (initial_state true 123 10 10 10 10)
          scenario_late_start) 3000010500 (some evse_waiting) (some true)).2
      = []
    ∧ (handle_evse (run (initial_state true 123 10 10 10 10)
          scenario_late_start) 3000010500 (some evse_waiting)
          (some true)).1.sequencer_state
      = PhaseSwitcherState.waiting_for_evse_start
    ∧ (handle_evse (run (initial_state true 123 10 10 10 10)
          (scenario_late_start
            ++ [Op.handle_evse 3000010500 (some evse_waiting) (some true)]))
          3000020500 (some evse_waiting) (some true)).2
      = []
    ∧ (run (initial_state true 123 10 10 10 10)
        (scenario_late_cancel.take 4)).sequencer_state
      = PhaseSwitcherState.inactive
    ∧ (run (initial_state true 123 10 10 10 10)
        scenario_late_cancel).sequencer_state
      = PhaseSwitcherState.cancelling_evse_start
    ∧ (run (initial_state true 123 10 10 10 10)
        scenario_late_cancel).watchdog_cancelling_evse_start = 0
    ∧ (handle_evse (run (initial_state true 123 10 10 10 10)
          scenario_late_cancel) 3000000250 (some evse_charging) (some true)).2
      = []
    ∧ (handle_evse (run (initial_state true 123 10 10 10 10)
          scenario_late_cancel) 3000000250 (some evse_charging)
          (some true)).1.sequencer_state
      = PhaseSwitcherState.cancelling_evse_start
    ∧ (run (initial_state true 123 10 10 10 10)
        (scenario_late_cancel.take 1)).sequencer_state
      = PhaseSwitcherState.cancelling_evse_start
    ∧ (handle_evse (run (initial_state true 123 10 10 10 10)
          (scenario_late_cancel.take 1)) 500 (some evse_charging)
          (some true)).2
      = []
    ∧ (handle_evse (run (initial_state true 123 10 10 10 10)
          (scenario_late_start.take 3)) 10500 (some evse_charging)
          (some true)).2
      = [Effect.start_charging] := by
  decide

/-- C29 fails on the code.  `scenario_power_lost_in_pause` ends in
`pausing_while_switching` with three phases committed and
`requested_phases_pending = 0`.  The tick at 31250 ms, after the pause,
passes the gate and moves to `waiting_for_evse_start` with
`requested_phases = 0`, pushing a current of 0 mA; the next tick sends the
start command to the EVSE with zero phases committed. -/
theorem pausing_tick_starts_with_zero_phases :
    (run (initial_state true 123 10 10 10 10)
        scenario_power_lost_in_pause).sequencer_state
      = PhaseSwitcherState.pausing_while_switching
    ∧ (run (initial_state true 123 10 10 10 10)
        scenario_power_lost_in_pause).requested_phases = 3
    ∧ (run (initial_state true 123 10 10 10 10)
        scenario_power_lost_in_pause).requested_phases_pending = 0
    ∧ (run (initial_state true 123 10 10 10 10)
        scenario_power_lost_in_pause).enabled = true
    ∧ (handle_evse (run (initial_state true 123 10 10 10 10)
          scenario_power_lost_in_pause) 31250 (some evse_waiting)
          (some true)).1.sequencer_state
      = PhaseSwitcherState.waiting_for_evse_start
    ∧ (handle_evse (run (initial_state true 123 10 10 10 10)
          scenario_power_lost_in_pause) 31250 (some evse_waiting)
          (some true)).1.requested_phases = 0
    ∧ (handle_evse (run (initial_state true 123 10 10 10 10)
          scenario_power_lost_in_pause) 31250 (some evse_waiting)
          (some true)).2 = [Effect.external_current_update 0]
    ∧ (handle_evse (run (initial_state true 123 10 10 10 10)
          (scenario_power_lost_in_pause
            ++ [Op.handle_evse 31250 (some evse_waiting) (some true)]))
          31500 (some evse_waiting) (some true)).2
      = [Effect.start_charging]
    ∧ (handle_evse (run (initial_state true 123 10 10 10 10)
          (scenario_power_lost_in_pause
            ++ [Op.handle_evse 31250 (some evse_waiting) (some true)]))
          31500 (some evse_waiting) (some true)).1.requested_phases = 0 := by
  decide

/-! ## The selector and the lower clamp of the current -/

theorem get_phases_for_power_min_power (operating_mode requested_phases
    available_charging_power : Nat) :
    get_phases_for_power operating_mode requested_phases
        available_charging_power * MIN_POWER_ONE_PHASE
      ≤ available_charging_power := by
  unfold get_phases_for_power MIN_POWER_ONE_PHASE MIN_POWER_TWO_PHASES
    MIN_POWER_THREE_PHASES MAX_POWER_ONE_PHASE
  split_ifs <;> omega

theorem lower_clamp_idle (P n : Nat) (hn : 0 < n) (hn3 : n ≤ 3)
    (hP : n * 1380 ≤ P) (hP16 : P < 65536) :
    6000 ≤ P * 1000 / 230 / n
    ∧ requested_current P n = min (P * 1000 / 230 / n) 32000
    ∧ requested_current P n * 230 * n ≤ P * 1000 := by
  have h6 : 6000 ≤ P * 1000 / 230 / n := by
    interval_cases n <;> omega
  have hr : requested_current P n = min (P * 1000 / 230 / n) 32000 := by
    rw [requested_current_eq P n hP16, if_neg (by omega)]
    apply max_eq_left
    exact le_min h6 (by norm_num)
  refine ⟨h6, hr, ?_⟩
  rw [hr]
  have hm : min (P * 1000 / 230 / n) 32000 ≤ P * 1000 / 230 / n :=
    min_le_left _ _
  interval_cases n <;> omega

/-- C30: for every operating mode, committed phase count `r` and power `P`,
if `n = get_phases_for_power` at `P` is greater than 0 then
`P ≥ n * MIN_POWER_ONE_PHASE = n * 1380`, hence
`floor (floor (P * 1000 / 230) / n) ≥ 6000`; for `P` in the range of the
16-bit parameter of `set_current` the current requested by
`set_current (P, n)` is then the minimum of that quotient and 32000, the
lower clamp to 6000 being idle, and over `n` phases at 230 V it does not
exceed `P`. -/
theorem selected_phases_keep_lower_clamp_idle (operating_mode r P : Nat)
    (hn : 0 < get_phases_for_power operating_mode r P) :
    get_phases_for_power operating_mode r P * MIN_POWER_ONE_PHASE ≤ P
    ∧ get_phases_for_power operating_mode r P * 1380 ≤ P
    ∧ 6000 ≤ P * 1000 / 230 / get_phases_for_power operating_mode r P
    ∧ (P < 65536 →
        requested_current P (get_phases_for_power operating_mode r P)
          = min (P * 1000 / 230 / get_phases_for_power operating_mode r P)
              32000
        ∧ requested_current P (get_phases_for_power operating_mode r P) * 230
            * get_phases_for_power operating_mode r P ≤ P * 1000) := by
  have h1 := get_phases_for_power_min_power operating_mode r P
  have h3 := get_phases_for_power_le_three operating_mode r P
  have h2 : get_phases_for_power operating_mode r P * 1380 ≤ P := h1
  refine ⟨h1, h2, ?_, ?_⟩
  · generalize get_phases_for_power operating_mode r P = n at *
    interval_cases n <;> omega
  · intro hP
    exact (lower_clamp_idle P _ hn h3 h2 hP).2

/-- Witness of C30: 5000 W in mode `one_two_three_phases_dynamic` select
three phases; 5000 ≥ 4140 and the current is 7246 mA, which on three phases
at 230 V stays below 5000 W. -/
theorem selected_phases_keep_lower_clamp_idle_witness :
    0 < get_phases_for_power one_two_three_phases_dynamic 0 5000
    ∧ get_phases_for_power one_two_three_phases_dynamic 0 5000 * 1380 ≤ 5000
    ∧ 6000 ≤ 5000 * 1000 / 230
        / get_phases_for_power one_two_three_phases_dynamic 0 5000
    ∧ requested_current 5000
        (get_phases_for_power one_two_three_phases_dynamic 0 5000) = 7246 :=
  ⟨by decide,
    (selected_phases_keep_lower_clamp_idle one_two_three_phases_dynamic 0 5000
      (by decide)).2.1,
    (selected_phases_keep_lower_clamp_idle one_two_three_phases_dynamic 0 5000
      (by decide)).2.2.1,
    ((selected_phases_keep_lower_clamp_idle one_two_three_phases_dynamic 0 5000
      (by decide)).2.2.2 (by decide)).1.trans (by decide)⟩

/-! ## Quick charging keeps three phases -/

theorem handle_evse_stamp_invariant (t : State) (now : Nat)
    (h : quick_charging_invariant t) :
    quick_charging_invariant (handle_evse_stamp t now) := by
  unfold handle_evse_stamp
  split_ifs
  · exact h
  · exact h

theorem sequencer_state_inactive_invariant (t : State)
    (hs : t.sequencer_state = PhaseSwitcherState.inactive)
    (hc : t.charger_state ≠ ChargerState.not_connected)
    (h : quick_charging_invariant t) :
    quick_charging_invariant (sequencer_state_inactive t).1 := by
  unfold quick_charging_invariant at *
  unfold sequencer_state_inactive
  split_ifs <;> simp_all

theorem sequencer_state_standby_invariant (t : State) (now : Nat)
    (hs : t.sequencer_state = PhaseSwitcherState.standby)
    (hc : t.charger_state ≠ ChargerState.not_connected)
    (h : quick_charging_invariant t) :
    quick_charging_invariant (sequencer_state_standby t now).1 := by
  unfold quick_charging_invariant at *
  unfold sequencer_state_standby
  split_ifs <;> simp_all

theorem sequencer_state_cancelling_evse_start_invariant (t : State) (now : Nat)
    (hs : t.sequencer_state = PhaseSwitcherState.cancelling_evse_start)
    (hc : t.charger_state ≠ ChargerState.not_connected)
    (h : quick_charging_invariant t) :
    quick_charging_invariant
      (sequencer_state_cancelling_evse_start t now).1 := by
  unfold quick_charging_invariant at *
  unfold sequencer_state_cancelling_evse_start
  simp only
  split_ifs <;> simp_all

theorem sequencer_state_waiting_for_evse_start_invariant (t : State)
    (now : Nat)
    (hs : t.sequencer_state = PhaseSwitcherState.waiting_for_evse_start)
    (hc : t.charger_state ≠ ChargerState.not_connected)
    (h : quick_charging_invariant t) :
    quick_charging_invariant
      (sequencer_state_waiting_for_evse_start t now).1 := by
  unfold quick_charging_invariant at *
  unfold sequencer_state_waiting_for_evse_start
  simp only
  split_ifs <;> simp_all

theorem sequencer_state_active_invariant (t : State) (now : Nat)
    (hs : t.sequencer_state = PhaseSwitcherState.active)
    (hc : t.charger_state ≠ ChargerState.not_connected)
    (h : quick_charging_invariant t) :
    quick_charging_invariant (sequencer_state_active t now).1 := by
  unfold quick_charging_invariant at *
  unfold sequencer_state_active
  simp only
  split_ifs <;> simp_all

theorem set_available_charging_power_fields (s : State) (now P : Nat) :
    (set_available_charging_power s now P).1.quick_charging_active
        = s.quick_charging_active
    ∧ (set_available_charging_power s now P).1.contactor_error
        = s.contactor_error
    ∧ (set_available_charging_power s now P).1.charger_state
        = s.charger_state
    ∧ (set_available_charging_power s now P).1.requested_phases
        = s.requested_phases
    ∧ (set_available_charging_power s now P).1.sequencer_state
        = s.sequencer_state := by
  unfold set_available_charging_power
  simp only
  split_ifs <;> exact ⟨rfl, rfl, rfl, rfl, rfl⟩

theorem sequencer_state_quick_charging_invariant (t : State) (now : Nat)
    (hc : t.charger_state ≠ ChargerState.not_connected)
    (h : quick_charging_invariant t) :
    quick_charging_invariant (sequencer_state_quick_charging t now).1 := by
  unfold sequencer_state_quick_charging
  split_ifs with hch
  · obtain ⟨_, _, f3, _, _⟩ :=
      set_available_charging_power_fields t now t.power
    unfold quick_charging_invariant
    simp only
    refine ⟨?_, ?_, ?_, ?_, ?_, ?_, ?_⟩
    · intro hq
      exact absurd hq (by decide)
    · intro hq
      exact absurd hq (by decide)
    · intro hq
      exact absurd hq (by decide)
    · intro _
      trivial
    · intro _
      trivial
    · intro hq
      exact absurd hq (by decide)
    · intro hn
      rw [f3] at hn
      exact absurd hn hc
  · exact h

theorem sequencer_state_waiting_for_evse_stop_invariant (t : State)
    (now : Nat)
    (hs : t.sequencer_state = PhaseSwitcherState.waiting_for_evse_stop)
    (hc : t.charger_state ≠ ChargerState.not_connected)
    (h : quick_charging_invariant t) :
    quick_charging_invariant
      (sequencer_state_waiting_for_evse_stop t now).1 := by
  unfold quick_charging_invariant at *
  unfold sequencer_state_waiting_for_evse_stop
  simp only
  split_ifs <;> simp_all

theorem sequencer_state_pausing_while_switching_invariant (t : State)
    (now : Nat)
    (hs : t.sequencer_state = PhaseSwitcherState.pausing_while_switching)
    (hc : t.charger_state ≠ ChargerState.not_connected)
    (h : quick_charging_invariant t) :
    quick_charging_invariant
      (sequencer_state_pausing_while_switching t now).1 := by
  unfold quick_charging_invariant at *
  unfold sequencer_state_pausing_while_switching
  simp only
  split_ifs <;> simp_all

theorem sequencer_state_stopped_by_evse_invariant (t : State)
    (hs : t.sequencer_state = PhaseSwitcherState.stopped_by_evse)
    (hc : t.charger_state ≠ ChargerState.not_connected)
    (h : quick_charging_invariant t) :
    quick_charging_invariant (sequencer_state_stopped_by_evse t).1 := by
  unfold quick_charging_invariant at *
  unfold sequencer_state_stopped_by_evse
  simp only
  split_ifs <;> simp_all

theorem sequencer_dispatch_invariant (t : State) (now : Nat)
    (hc : t.charger_state ≠ ChargerState.not_connected)
    (h : quick_charging_invariant t) :
    quick_charging_invariant (sequencer_dispatch t now).1 := by
  unfold sequencer_dispatch
  cases hst : t.sequencer_state
  · exact sequencer_state_inactive_invariant t hst hc h
  · exact sequencer_state_standby_invariant t now hst hc h
  · exact sequencer_state_cancelling_evse_start_invariant t now hst hc h
  · exact sequencer_state_waiting_for_evse_start_invariant t now hst hc h
  · exact sequencer_state_active_invariant t now hst hc h
  · exact sequencer_state_quick_charging_invariant t now hc h
  · exact sequencer_state_waiting_for_evse_stop_invariant t now hst hc h
  · exact sequencer_state_pausing_while_switching_invariant t now hst hc h
  · exact sequencer_state_stopped_by_evse_invariant t hst hc h

theorem handle_evse_invariant (s : State) (now : Nat)
    (evse : Option EvseState) (auto_start : Option Bool)
    (h : quick_charging_invariant s) :
    quick_charging_invariant (handle_evse s now evse auto_start).1 := by
  cases evse with
  | none => exact h
  | some e =>
    cases auto_start with
    | none => exact h
    | some a =>
      by_cases hg : s.enabled = false
          ∨ e.charger_state = ChargerState.not_connected
          ∨ e.charger_state = ChargerState.error
      · rw [handle_evse_gate s now e a hg]
        unfold quick_charging_invariant
        simp only
        refine ⟨?_, ?_, ?_, ?_, ?_, ?_, ?_⟩
        · intro hq
          exact absurd hq (by decide)
        · intro hq
          exact absurd hq (by decide)
        · intro hq
          exact absurd hq (by decide)
        · intro _
          trivial
        · intro _
          trivial
        · intro hq
          exact absurd hq (by decide)
        · intro _
          trivial
      · rw [handle_evse_no_gate s now e a hg]
        apply handle_evse_stamp_invariant
        apply sequencer_dispatch_invariant
        · intro hn
          exact hg (Or.inr (Or.inl hn))
        · unfold quick_charging_invariant at *
          obtain ⟨i1, i2, i3, i4, i5, i6, _⟩ := h
          refine ⟨i1, i2, i3, i4, i5, i6, ?_⟩
          intro hn
          exact absurd hn (fun hn2 => hg (Or.inr (Or.inl hn2)))

theorem start_quick_charging_invariant (s : State)
    (h : quick_charging_invariant s) :
    quick_charging_invariant (start_quick_charging s).1 := by
  unfold quick_charging_invariant at *
  unfold start_quick_charging
  split_ifs with h1 h2
  · exact h
  · rcases h2 with h2 | h2 <;> simp_all
  · exact h

theorem handle_button_invariant (s : State) (now : Nat)
    (low : Option EvseLowLevelState) (h : quick_charging_invariant s) :
    quick_charging_invariant (handle_button s now low).1 := by
  cases low with
  | none => exact h
  | some l =>
    have hb : ∀ (t : State) (b : Bool), quick_charging_invariant t →
        quick_charging_invariant { t with quick_charging_requested := b } :=
      fun _ _ ht => ht
    unfold handle_button
    simp only
    split_ifs <;>
      first
      | exact h
      | exact hb _ true (start_quick_charging_invariant _ h)

theorem available_charging_power_command_invariant (s : State)
    (now power : Nat) (h : quick_charging_invariant s) :
    quick_charging_invariant
      (available_charging_power_command s now power).1 := by
  unfold available_charging_power_command
  simp only
  split_ifs with hg
  · obtain ⟨f1, f2, f3, f4, f5⟩ :=
      set_available_charging_power_fields { s with power := power } now power
    have hq : s.quick_charging_active = false := hg.2
    unfold quick_charging_invariant at *
    rw [f1, f2, f3, f4, f5]
    obtain ⟨i1, i2, i3, i4, i5, i6, i7⟩ := h
    refine ⟨?_, i2, i3, i4, i5, i6, i7⟩
    intro hq2
    have hq3 : s.quick_charging_active = true := hq2
    rw [hq] at hq3
    exact absurd hq3 (by decide)
  · exact h

theorem contactor_check_phases_invariant (s : State) (now : Nat)
    (r : ContactorReadings) (h : quick_charging_invariant s) :
    quick_charging_invariant (contactor_check_phases s now r).1 := by
  have hk := contactor_check_phases_keeps_latch s now r
  have f1 : (contactor_check_phases s now r).1.quick_charging_active
      = s.quick_charging_active := by
    unfold contactor_check_phases
    rfl
  have f2 : (contactor_check_phases s now r).1.requested_phases_pending
      = s.requested_phases_pending := by
    unfold contactor_check_phases
    rfl
  unfold quick_charging_invariant at *
  rw [f1, f2, contactor_check_phases_requested_phases,
    contactor_check_phases_sequencer_state,
    contactor_check_phases_charger_state]
  obtain ⟨i1, i2, i3, i4, i5, i6, i7⟩ := h
  exact ⟨i1, i2, i3, i4, i5, fun a b => hk (i6 a b), i7⟩

theorem contactor_check_sequencer_invariant (s : State)
    (h : quick_charging_invariant s) :
    quick_charging_invariant (contactor_check_sequencer s) := by
  unfold quick_charging_invariant at *
  unfold contactor_check_sequencer
  split_ifs with hce
  · cases hst : s.sequencer_state <;> simp_all
  · exact h

theorem contactor_check_clear_invariant (s : State) (e0 e1 e2 : Bool)
    (h : quick_charging_invariant s) :
    quick_charging_invariant (contactor_check_clear s e0 e1 e2) := by
  unfold quick_charging_invariant at *
  unfold contactor_check_clear
  split_ifs with hc
  · simp_all
  · exact h

theorem contactor_check_invariant (s : State) (now : Nat)
    (evse : Option EvseState) (digital_in quad_relay : Option ChannelValues)
    (e0 : Bool) (h : quick_charging_invariant s) :
    quick_charging_invariant
      (contactor_check s now evse digital_in quad_relay e0) := by
  unfold contactor_check
  cases evse with
  | none => exact h
  | some e =>
    simp only
    cases contactor_readings e digital_in quad_relay with
    | none => exact h
    | some r =>
      exact contactor_check_clear_invariant _ _ _ _
        (contactor_check_sequencer_invariant _
          (contactor_check_phases_invariant s now r h))

theorem apply_invariant (op : Op) (s : State) (hop : op.guarded = true)
    (h : quick_charging_invariant s) :
    quick_charging_invariant (op.apply s).1 := by
  cases op with
  | handle_button now low => exact handle_button_invariant s now low h
  | handle_evse now evse auto_start =>
      exact handle_evse_invariant s now evse auto_start h
  | write_outputs low relay_ok => exact h
  | contactor_check now evse digital_in quad_relay e0 =>
      exact contactor_check_invariant s now evse digital_in quad_relay e0 h
  | set_available_charging_power now power =>
      have hf : (Op.set_available_charging_power now power).guarded = false :=
        rfl
      rw [hf] at hop
      exact absurd hop (by decide)
  | available_charging_power_command now power =>
      exact available_charging_power_command_invariant s now power h
  | start_quick_charging => exact start_quick_charging_invariant s h

theorem run_invariant (ops : List Op) :
    ∀ s : State, (∀ op ∈ ops, op.guarded = true) →
      quick_charging_invariant s → quick_charging_invariant (run s ops) := by
  induction ops with
  | nil =>
    intro s _ h
    exact h
  | cons op ops ih =>
    intro s hops h
    exact ih (op.apply s).1
      (fun o ho => hops o (List.mem_cons_of_mem op ho))
      (apply_invariant op s (hops op (List.mem_cons_self op ops)) h)

/-- C28: from a state with `sequencer_state = inactive` and
`quick_charging_active = false`, as the initial state is, after every
sequence of calls of `handle_button`, `handle_evse`, `write_outputs`,
`contactor_check`, `start_quick_charging` and the handler of the command
`available_charging_power` (which forwards the power only when enabled and
not `quick_charging_active`): `sequencer_state = quick_charging` implies
`quick_charging_active = true` and `requested_phases = 3`. -/
theorem quick_charging_runs_on_three_phases (s : State) (ops : List Op)
    (hs : s.sequencer_state = PhaseSwitcherState.inactive)
    (hq : s.quick_charging_active = false)
    (hops : ∀ op ∈ ops, op.guarded = true)
    (hqc : (run s ops).sequencer_state = PhaseSwitcherState.quick_charging) :
    (run s ops).quick_charging_active = true
    ∧ (run s ops).requested_phases = 3 := by
  have h0 : quick_charging_invariant s := by
    unfold quick_charging_invariant
    simp [hs, hq]
  obtain ⟨_, i2, i3, _, _, _, _⟩ := run_invariant ops s hops h0
  exact ⟨i2 hqc, i3 (i2 hqc) (Or.inr hqc)⟩

/-- Witness of C28: `scenario_quick_charging` from the initial state ends in
`quick_charging` with `quick_charging_active` and three committed phases. -/
theorem quick_charging_runs_on_three_phases_witness :
    (initial_state true 123 10 10 10 10).sequencer_state
      = PhaseSwitcherState.inactive
    ∧ (initial_state true 123 10 10 10 10).quick_charging_active = false
    ∧ (∀ op ∈ scenario_quick_charging, op.guarded = true)
    ∧ (run (initial_state true 123 10 10 10 10)
        scenario_quick_charging).sequencer_state
      = PhaseSwitcherState.quick_charging
    ∧ (run (initial_state true 123 10 10 10 10)
        scenario_quick_charging).quick_charging_active = true
    ∧ (run (initial_state true 123 10 10 10 10)
        scenario_quick_charging).requested_phases = 3 :=
  ⟨rfl, rfl, by decide, by decide,
    quick_charging_runs_on_three_phases (initial_state true 123 10 10 10 10)
      scenario_quick_charging rfl rfl (by decide) (by decide)⟩

/-! ## The selector under feedback -/

theorem get_phases_for_power_static (operating_mode r1 r2 P : Nat)
    (hm : operating_mode ≠ one_two_phases_dynamic) :
    get_phases_for_power operating_mode r1 P
      = get_phases_for_power operating_mode r2 P := by
  unfold get_phases_for_power
  simp only [hm, if_false]

theorem one_two_phases_dynamic_fixed (r P : Nat) :
    get_phases_for_power one_two_phases_dynamic
        (get_phases_for_power one_two_phases_dynamic r P) P
      = get_phases_for_power one_two_phases_dynamic r P := by
  by_cases h2 : get_phases_for_power one_two_phases_dynamic r P = 2
  · rw [h2, one_two_phases_dynamic_eq 2 P]
    rw [one_two_phases_dynamic_eq r P] at h2
    split_ifs at h2 ⊢ <;> omega
  · have h1 := one_two_phases_dynamic_eq
      (get_phases_for_power one_two_phases_dynamic r P) P
    rw [if_neg h2] at h1
    rw [h1]
    rw [one_two_phases_dynamic_eq r P] at h2 ⊢
    split_ifs at h2 ⊢ <;> omega

theorem get_phases_for_power_fixed (operating_mode r P : Nat) :
    get_phases_for_power operating_mode
        (get_phases_for_power operating_mode r P) P
      = get_phases_for_power operating_mode r P := by
  by_cases hm : operating_mode = one_two_phases_dynamic
  · rw [hm]
    exact one_two_phases_dynamic_fixed r P
  · exact get_phases_for_power_static operating_mode _ r P hm

theorem selector_sweep_constant (operating_mode P : Nat) :
    ∀ (k n : Nat), get_phases_for_power operating_mode n P = n →
      selector_sweep operating_mode n (List.replicate k P)
        = List.replicate k n := by
  intro k
  induction k with
  | zero =>
    intro n _
    rfl
  | succ k ih =>
    intro n hn
    rw [List.replicate_succ, List.replicate_succ]
    unfold selector_sweep
    rw [hn, ih n hn]

/-- C31: for every operating mode, power `P` and committed phase count `r`,
committing the recommendation of the selector does not change it: with
`n = get_phases_for_power` at `P` computed with committed phases `r`,
`get_phases_for_power` at `P` computed with committed phases `n` is `n`
again.  So at constant power the decisions of `selector_sweep`, which
commits each decision before the next call, are all equal to the first
one. -/
theorem get_phases_for_power_fixed_point (operating_mode r P : Nat) :
    get_phases_for_power operating_mode
        (get_phases_for_power operating_mode r P) P
      = get_phases_for_power operating_mode r P
    ∧ ∀ k : Nat,
        selector_sweep operating_mode r (List.replicate (k + 1) P)
          = List.replicate (k + 1) (get_phases_for_power operating_mode r P) := by
  refine ⟨get_phases_for_power_fixed operating_mode r P, ?_⟩
  intro k
  rw [List.replicate_succ, List.replicate_succ]
  unfold selector_sweep
  rw [selector_sweep_constant operating_mode P k _
    (get_phases_for_power_fixed operating_mode r P)]

end PhaseSwitcher
